import Mathlib

/-!
# A shallow embedding of `cpu6502.ts` (whscullin/cpu6502)

This file embeds the instruction-execution engine of `src/js/cpu6502.ts`
in Lean 4 and proves the properties claimed about it.

Conventions of the embedding:

* JavaScript numbers that the engine keeps in byte / word range are
  modelled as `Nat`.  The JS bitwise operators `&`, `|`, `^`, `<<`, `>>`
  become `&&&`, `|||`, `^^^`, `<<<`, `>>>`, which agree with the 32-bit
  JS semantics on the non-negative range the engine uses (values below
  `2^31`).  At the few spots where the source can produce a negative
  intermediate (`c - 0x06` in BCD subtraction, relative branches,
  `--this.pc`), the computation is done in `Int` and `& mask` becomes
  `% (mask+1)` (`Int.emod`), which is exactly the JS two's-complement
  masking of a negative value.  `x & ~f` (with `f` a small flag mask)
  becomes `x &&& (0xffffffff ^^^ f)`, the JS 32-bit complement.
* The 256-entry page-handler table is flattened to one total function
  `mem : Nat → Nat`: the engine routes an access as
  `(page = addr >>> 8, off = addr &&& 0xff)` and the flat memory is read
  or written at `page * 0x100 + off`, exactly the index arithmetic of
  the source.  A write updates the function pointwise.
* `cycles` is incremented exactly where `this.cycles++` stands in the
  source, inside `readByte` and `writeByte`.  A ghost counter
  `accesses` counts the page-handler invocations (`memPages[page].read`
  / `.write`) performed by those two functions; it exists only so that
  "cycles advanced = handler reads + writes performed" is a statement
  and not a tautology.
* `this.op` is modelled by the `opMode` field (only the mode of the
  current instruction is ever consulted, by the 65C02 BCD path of
  `add`).
-/

namespace Cpu6502

/-- CPU flavor: NMOS 6502 (`FLAVOR_6502`), Rockwell 65C02, WDC 65C02. -/
inductive Flavor where
  | nmos
  | rockwell
  | wdc
  deriving DecidableEq, Repr

/-- `FLAVORS_65C02.includes(flavor)`, precomputed as `this.is65C02`. -/
def Flavor.is65C02 : Flavor → Bool
  | .nmos => false
  | .rockwell => true
  | .wdc => true

/-- The addressing modes of `type Mode` in the source. -/
inductive Mode where
  | accumulator
  | implied
  | immediate
  | absolute
  | zeroPage
  | relative
  | absoluteX
  | absoluteY
  | zeroPageX
  | zeroPageY
  | absoluteIndirect
  | zeroPageXIndirect
  | zeroPageIndirectY
  | zeroPageIndirect
  | absoluteXIndirect
  | zeroPage_relative
  deriving DecidableEq, Repr

/-- Status flag masks (`flags` in the source). -/
def flagN : Nat := 0x80
def flagV : Nat := 0x40
def flagX : Nat := 0x20
def flagB : Nat := 0x10
def flagD : Nat := 0x08
def flagI : Nat := 0x04
def flagZ : Nat := 0x02
def flagC : Nat := 0x01

/-- CPU-referenced locations (`loc` in the source). -/
def locSTACK : Nat := 0x100
def locNMI : Nat := 0xfffa
def locRESET : Nat := 0xfffc
def locBRK : Nat := 0xfffe

/-- JS `~f` under 32-bit bitwise semantics, for use in `x & ~f`. -/
def jsNot (f : Nat) : Nat := 0xffffffff ^^^ f

/-- The state of a `CPU6502` object, plus the flat memory fabric and the
ghost access counter (see the file comment). -/
structure Cpu where
  /-- CPU flavor (fixes `is65C02` as in the constructor). -/
  flavor : Flavor
  /-- Program counter. -/
  pc : Nat
  /-- Status register. -/
  sr : Nat
  /-- Accumulator. -/
  ar : Nat
  /-- X index. -/
  xr : Nat
  /-- Y index. -/
  yr : Nat
  /-- Stack pointer. -/
  sp : Nat
  /-- Last accessed memory address (`this.addr`). -/
  addr : Nat
  /-- Mode of the instruction being executed (`this.op?.mode`). -/
  opMode : Option Mode
  /-- The page-handler fabric, flattened (indexed by `page * 0x100 + off`). -/
  mem : Nat → Nat
  /-- Elapsed cycles. -/
  cycles : Nat
  /-- Ghost: page-handler reads + writes performed by `readByte`/`writeByte`. -/
  accesses : Nat
  /-- Opcode-fetch signal. -/
  sync : Bool
  /-- WAI latch. -/
  wait : Bool
  /-- STP/HLT latch. -/
  stop : Bool

/-- `readByte`: route `(page, off)` to the memory fabric and count a cycle. -/
def readByte (a : Nat) (s : Cpu) : Nat × Cpu :=
  let page := a >>> 8
  let off := a &&& 0xff
  let result := s.mem (page * 0x100 + off)
  (result,
    { s with
      addr := a
      cycles := s.cycles + 1
      accesses := s.accesses + 1 })

/-- `writeByte`: route `(page, off, val)` to the fabric and count a cycle. -/
def writeByte (a v : Nat) (s : Cpu) : Cpu :=
  let page := a >>> 8
  let off := a &&& 0xff
  { s with
    addr := a
    mem := fun x => if x = page * 0x100 + off then v else s.mem x
    cycles := s.cycles + 1
    accesses := s.accesses + 1 }

/-- `readBytePC`: read at PC, then advance PC mod 2^16. -/
def readBytePC (s : Cpu) : Nat × Cpu :=
  let r := readByte s.pc s
  (r.1, { r.2 with pc := (r.2.pc + 1) &&& 0xffff })

/-- `readWord`: little-endian word at `addr`, ordinary carry into `addr+1`. -/
def readWord (a : Nat) (s : Cpu) : Nat × Cpu :=
  let lo := readByte a s
  let hi := readByte (a + 1) lo.2
  (lo.1 ||| (hi.1 <<< 8), hi.2)

/-- `readWordPC`: two operand fetches, little-endian. -/
def readWordPC (s : Cpu) : Nat × Cpu :=
  let lo := readBytePC s
  let hi := readBytePC lo.2
  (lo.1 ||| (hi.1 <<< 8), hi.2)

/-- `readZPWord`: zero-page word with the offset wrapping inside page 0. -/
def readZPWord (a : Nat) (s : Cpu) : Nat × Cpu :=
  let lo := readByte (a &&& 0xff) s
  let hi := readByte ((a + 1) &&& 0xff) lo.2
  ((hi.1 <<< 8) ||| lo.1, hi.2)

/-- `pushByte`: write at `0x100 | SP`, then decrement SP mod 256. -/
def pushByte (v : Nat) (s : Cpu) : Cpu :=
  let s1 := writeByte (locSTACK ||| s.sp) v s
  { s1 with sp := (s1.sp + 0xff) &&& 0xff }

/-- `pushWord`: high byte first, then low byte. -/
def pushWord (v : Nat) (s : Cpu) : Cpu :=
  pushByte (v &&& 0xff) (pushByte (v >>> 8) s)

/-- `pullByte`: increment SP mod 256, then read at `0x100 | SP`. -/
def pullByte (s : Cpu) : Nat × Cpu :=
  let s1 := { s with sp := (s.sp + 0x01) &&& 0xff }
  readByte (locSTACK ||| s1.sp) s1

/-- `pullWordRaw`: low byte first, then high byte. -/
def pullWordRaw (s : Cpu) : Nat × Cpu :=
  let lo := pullByte s
  let hi := pullByte lo.2
  ((hi.1 <<< 8) ||| lo.1, hi.2)

/-- `workCycle`: the R-M-W work cycle (65C02 reads, NMOS re-writes). -/
def workCycle (a v : Nat) (s : Cpu) : Cpu :=
  if s.flavor.is65C02 then (readByte a s).2 else writeByte a v s

/-- `workCycleIndexedWrite`: phantom cycle of indexed stores. -/
def workCycleIndexedWrite (pc a aIdx : Nat) (s : Cpu) : Cpu :=
  let oldPage := a &&& 0xff00
  if s.flavor.is65C02 then (readByte pc s).2
  else (readByte (oldPage ||| (aIdx &&& 0xff)) s).2

/-- `workCycleIndexedRead`: page-cross phantom cycle of indexed reads. -/
def workCycleIndexedRead (pc a aIdx : Nat) (s : Cpu) : Cpu :=
  let oldPage := a &&& 0xff00
  let newPage := aIdx &&& 0xff00
  if newPage ≠ oldPage then
    if s.flavor.is65C02 then (readByte pc s).2
    else (readByte (oldPage ||| (aIdx &&& 0xff)) s).2
  else s

/-- `setFlag`: set or clear a single status bit. -/
def setFlag (f : Nat) (torf : Bool) (s : Cpu) : Cpu :=
  { s with sr := if torf then s.sr ||| f else s.sr &&& jsNot f }

/-- `testNZ`: update Z then N from a value. -/
def testNZ (v : Nat) (s : Cpu) : Cpu :=
  let sr1 := if v = 0 then s.sr ||| flagZ else s.sr &&& jsNot flagZ
  let sr2 := if v &&& 0x80 ≠ 0 then sr1 ||| flagN else sr1 &&& jsNot flagN
  { s with sr := sr2 }

/-- `testZ`: update Z only. -/
def testZ (v : Nat) (s : Cpu) : Cpu :=
  { s with sr := if v = 0 then s.sr ||| flagZ else s.sr &&& jsNot flagZ }

/-- The extra 65C02 BCD read in `updateBCDFlags`: a flavor-specific ROM
address for immediate mode, the operand address otherwise. -/
def bcdRead (sub : Bool) (s : Cpu) : Cpu :=
  if s.opMode = some Mode.immediate then
    if s.flavor = Flavor.wdc then
      (readByte (if sub then 0xb8 else 0x7f) s).2
    else
      (readByte (if sub then 0xb1 else 0x59) s).2
  else (readByte s.addr s).2

/-- `add`: binary / BCD add (or subtract when `sub`), with the flag
updates and the 65C02 BCD phantom read of the source. -/
def add (a b : Nat) (sub : Bool) (s : Cpu) : Nat × Cpu :=
  let a7 := a >>> 7
  let b7 := b >>> 7
  let ci := s.sr &&& flagC
  let zbin : Bool := (a + b + ci) &&& 0xff = 0
  let c0 := (a &&& 0x0f) + (b &&& 0x0f) + ci
  if s.sr &&& flagD ≠ 0 then
    -- BCD: low-nibble correction, high nibbles, `updateFlags`, final
    -- correction, `updateBCDFlags`.
    let cmid :=
      if sub then
        let c1 := if c0 < 0x10 then (((c0 : Int) - 0x06) % 0x10).toNat else c0
        c1 + (a &&& 0xf0) + (b &&& 0xf0)
      else
        let c1 := if c0 > 0x9 then 0x10 + ((c0 + 0x6) &&& 0xf) else c0
        c1 + (a &&& 0xf0) + (b &&& 0xf0)
    let n0 := (cmid &&& 0xff) >>> 7
    let co0 := cmid >>> 8
    let v := a7 ^^^ b7 ^^^ n0 ^^^ co0
    let cfin :=
      if sub then (if cmid < 0x100 then cmid + 0xa0 else cmid)
      else (if cmid ≥ 0xa0 then cmid + 0x60 else cmid)
    let n := if s.flavor.is65C02 then (cfin &&& 0xff) >>> 7 else n0
    let z : Bool := if s.flavor.is65C02 then cfin &&& 0xff = 0 else zbin
    let s1 := if s.flavor.is65C02 then bcdRead sub s else s
    let co := if sub then co0 else cfin >>> 8
    let s2 := setFlag flagN (n ≠ 0) s1
    let s3 := setFlag flagV (v ≠ 0) s2
    let s4 := setFlag flagZ z s3
    let s5 := setFlag flagC (co ≠ 0) s4
    (cfin &&& 0xff, s5)
  else
    let c := c0 + (a &&& 0xf0) + (b &&& 0xf0)
    let n := (c &&& 0xff) >>> 7
    let co := c >>> 8
    let v := a7 ^^^ b7 ^^^ n ^^^ co
    let s2 := setFlag flagN (n ≠ 0) s
    let s3 := setFlag flagV (v ≠ 0) s2
    let s4 := setFlag flagZ zbin s3
    let s5 := setFlag flagC (co ≠ 0) s4
    (c &&& 0xff, s5)

/-- `increment`: `(a+1) & 0xff` with NZ update. -/
def increment (a : Nat) (s : Cpu) : Nat × Cpu :=
  let v := (a + 0x01) &&& 0xff
  (v, testNZ v s)

/-- `decrement`: `(a+0xff) & 0xff` with NZ update. -/
def decrement (a : Nat) (s : Cpu) : Nat × Cpu :=
  let v := (a + 0xff) &&& 0xff
  (v, testNZ v s)

/-! ## Addressing-mode primitives -/

/-- A mode primitive producing an operand byte (`ReadFn`). -/
abbrev ReadFn := Cpu → Nat × Cpu

/-- A mode primitive consuming a byte (`WriteFn`). -/
abbrev WriteFn := Nat → Cpu → Cpu

/-- A mode primitive producing an effective address (`ReadAddrFn`); the
`Bool` is `opts.inc` (`false` when the source calls it with no options). -/
abbrev ReadAddrFn := Bool → Cpu → Nat × Cpu

/-- `implied`: phantom read of PC. -/
def implied (s : Cpu) : Cpu :=
  (readByte s.pc s).2

/-- `readImmediate` (`#$00`). -/
def readImmediate : ReadFn := readBytePC

/-- `readAbsolute` (`$0000`). -/
def readAbsolute : ReadFn := fun s =>
  let r := readWordPC s
  readByte r.1 r.2

/-- `readZeroPage` (`$00`). -/
def readZeroPage : ReadFn := fun s =>
  let r := readBytePC s
  readByte r.1 r.2

/-- `readAbsoluteX` (`$0000,X`). -/
def readAbsoluteX : ReadFn := fun s =>
  let r := readWordPC s
  let pc := r.2.addr
  let addrIdx := (r.1 + r.2.xr) &&& 0xffff
  let s1 := workCycleIndexedRead pc r.1 addrIdx r.2
  readByte addrIdx s1

/-- `readAbsoluteY` (`$0000,Y`). -/
def readAbsoluteY : ReadFn := fun s =>
  let r := readWordPC s
  let pc := r.2.addr
  let addrIdx := (r.1 + r.2.yr) &&& 0xffff
  let s1 := workCycleIndexedRead pc r.1 addrIdx r.2
  readByte addrIdx s1

/-- `readZeroPageX` (`$00,X`). -/
def readZeroPageX : ReadFn := fun s =>
  let r := readBytePC s
  let s1 := (readByte r.1 r.2).2
  readByte ((r.1 + s1.xr) &&& 0xff) s1

/-- `readZeroPageY` (`$00,Y`). -/
def readZeroPageY : ReadFn := fun s =>
  let r := readBytePC s
  let s1 := (readByte r.1 r.2).2
  readByte ((r.1 + s1.yr) &&& 0xff) s1

/-- `readZeroPageXIndirect` (`($00,X)`). -/
def readZeroPageXIndirect : ReadFn := fun s =>
  let r := readBytePC s
  let s1 := (readByte r.1 r.2).2
  let w := readZPWord ((r.1 + s1.xr) &&& 0xff) s1
  readByte w.1 w.2

/-- `readZeroPageIndirectY` (`($00),Y`). -/
def readZeroPageIndirectY : ReadFn := fun s =>
  let r := readBytePC s
  let pc := r.2.addr
  let w := readZPWord r.1 r.2
  let addrIdx := (w.1 + w.2.yr) &&& 0xffff
  let s1 := workCycleIndexedRead pc w.1 addrIdx w.2
  readByte addrIdx s1

/-- `readZeroPageIndirect` (`($00)`, 65C02). -/
def readZeroPageIndirect : ReadFn := fun s =>
  let r := readBytePC s
  let w := readZPWord r.1 r.2
  readByte w.1 w.2

/-- `writeAbsolute` (`$0000`). -/
def writeAbsolute : WriteFn := fun v s =>
  let r := readWordPC s
  writeByte r.1 v r.2

/-- `writeZeroPage` (`$00`). -/
def writeZeroPage : WriteFn := fun v s =>
  let r := readBytePC s
  writeByte r.1 v r.2

/-- `writeAbsoluteX` (`$0000,X`). -/
def writeAbsoluteX : WriteFn := fun v s =>
  let r := readWordPC s
  let pc := r.2.addr
  let addrIdx := (r.1 + r.2.xr) &&& 0xffff
  let s1 := workCycleIndexedWrite pc r.1 addrIdx r.2
  writeByte addrIdx v s1

/-- `writeAbsoluteY` (`$0000,Y`). -/
def writeAbsoluteY : WriteFn := fun v s =>
  let r := readWordPC s
  let pc := r.2.addr
  let addrIdx := (r.1 + r.2.yr) &&& 0xffff
  let s1 := workCycleIndexedWrite pc r.1 addrIdx r.2
  writeByte addrIdx v s1

/-- `writeZeroPageX` (`$00,X`). -/
def writeZeroPageX : WriteFn := fun v s =>
  let r := readBytePC s
  let s1 := (readByte r.1 r.2).2
  writeByte ((r.1 + s1.xr) &&& 0xff) v s1

/-- `writeZeroPageY` (`$00,Y`). -/
def writeZeroPageY : WriteFn := fun v s =>
  let r := readBytePC s
  let s1 := (readByte r.1 r.2).2
  writeByte ((r.1 + s1.yr) &&& 0xff) v s1

/-- `writeZeroPageXIndirect` (`($00,X)`). -/
def writeZeroPageXIndirect : WriteFn := fun v s =>
  let r := readBytePC s
  let s1 := (readByte r.1 r.2).2
  let w := readZPWord ((r.1 + s1.xr) &&& 0xff) s1
  writeByte w.1 v w.2

/-- `writeZeroPageIndirectY` (`($00),Y`). -/
def writeZeroPageIndirectY : WriteFn := fun v s =>
  let r := readBytePC s
  let pc := r.2.addr
  let w := readZPWord r.1 r.2
  let addrIdx := (w.1 + w.2.yr) &&& 0xffff
  let s1 := workCycleIndexedWrite pc w.1 addrIdx w.2
  writeByte addrIdx v s1

/-- `writeZeroPageIndirect` (`($00)`, 65C02). -/
def writeZeroPageIndirect : WriteFn := fun v s =>
  let r := readBytePC s
  let w := readZPWord r.1 r.2
  writeByte w.1 v w.2

/-- `readAddrZeroPage` (`$00`). -/
def readAddrZeroPage : ReadAddrFn := fun _ s => readBytePC s

/-- `readAddrZeroPageX` (`$00,X`). -/
def readAddrZeroPageX : ReadAddrFn := fun _ s =>
  let r := readBytePC s
  let s1 := (readByte r.1 r.2).2
  ((r.1 + s1.xr) &&& 0xff, s1)

/-- `readAddrAbsolute` (`$0000`). -/
def readAddrAbsolute : ReadAddrFn := fun _ s => readWordPC s

/-- `readAddrAbsoluteIndirectBug` (`($0000)`, NMOS): the high byte comes
from `page | ((off + 1) & 0xff)` — the silicon page-wrap bug. -/
def readAddrAbsoluteIndirectBug : ReadAddrFn := fun _ s =>
  let r := readWordPC s
  let page := r.1 &&& 0xff00
  let off := r.1 &&& 0x00ff
  let lo := readByte r.1 r.2
  let hi := readByte (page ||| ((off + 0x01) &&& 0xff)) lo.2
  ((hi.1 <<< 8) ||| lo.1, hi.2)

/-- `readAddrAbsoluteIndirect` (`($0000)`, 65C02): clean carry, plus one
extra read of the last-latched address. -/
def readAddrAbsoluteIndirect : ReadAddrFn := fun _ s =>
  let r := readWordPC s
  let w := readWord r.1 r.2
  let s1 := (readByte w.2.addr w.2).2
  (w.1, s1)

/-- `readAddrAbsoluteX` (`$0000,X`), with the `opts.inc` behavior. -/
def readAddrAbsoluteX : ReadAddrFn := fun inc s =>
  let r := readWordPC s
  let page := r.1 &&& 0xff00
  let addr := (r.1 + r.2.xr) &&& 0xffff
  let s1 :=
    if r.2.flavor.is65C02 then
      if inc then (readByte r.2.addr r.2).2
      else
        let newPage := addr &&& 0xff00
        if page ≠ newPage then (readByte r.2.addr r.2).2 else r.2
    else
      let off := addr &&& 0x00ff
      (readByte (page ||| off) r.2).2
  (addr, s1)

/-- `readAddrAbsoluteY` (`$0000,Y`, NMOS). -/
def readAddrAbsoluteY : ReadAddrFn := fun _ s =>
  let r := readWordPC s
  let page := r.1 &&& 0xff00
  let addr := (r.1 + r.2.yr) &&& 0xffff
  let off := addr &&& 0x00ff
  let s1 := (readByte (page ||| off) r.2).2
  (addr, s1)

/-- `readAddrZeroPageXIndirect` (`($00,X)`, NMOS). -/
def readAddrZeroPageXIndirect : ReadAddrFn := fun _ s =>
  let r := readBytePC s
  let s1 := (readByte r.1 r.2).2
  readZPWord ((r.1 + s1.xr) &&& 0xff) s1

/-- `readAddrZeroPageIndirectY` (`($00),Y`, NMOS). -/
def readAddrZeroPageIndirectY : ReadAddrFn := fun _ s =>
  let r := readBytePC s
  let w := readZPWord r.1 r.2
  let addrIdx := (w.1 + w.2.yr) &&& 0xffff
  let oldPage := w.1 &&& 0xff00
  let off := addrIdx &&& 0xff
  let s1 := (readByte (oldPage ||| off) w.2).2
  (addrIdx, s1)

/-- `readAddrAbsoluteXIndirect` (`$(0000,X)`, 65C02). -/
def readAddrAbsoluteXIndirect : ReadAddrFn := fun _ s =>
  let lo := readBytePC s
  let pc := lo.2.addr
  let hi := readBytePC lo.2
  let addr := (((hi.1 <<< 8) ||| lo.1) + hi.2.xr) &&& 0xffff
  let s1 := (readByte pc hi.2).2
  readWord addr s1

/-- `readNop` (`5C`, `DC`, `FC`, 65C02). -/
def readNop (s : Cpu) : Cpu :=
  let r := readWordPC s
  (readByte r.2.addr r.2).2

/-- `readNopImplied` (65C02): a 1-cycle NOP — no work beyond the fetch. -/
def readNopImplied (s : Cpu) : Cpu := s

/-! ## Instruction semantics -/

/-- `brk`. -/
def brk (rd : ReadFn) (s : Cpu) : Cpu :=
  let s1 := (rd s).2
  let s2 := pushWord s1.pc s1
  let s3 := pushByte (s2.sr ||| flagB) s2
  let s4 := if s3.flavor.is65C02 then setFlag flagD false s3 else s3
  let s5 := setFlag flagI true s4
  let w := readWord locBRK s5
  { w.2 with pc := w.1 }

/-- `stp` (65C02): latch stop, two phantom reads of PC. -/
def stp (s : Cpu) : Cpu :=
  let s1 : Cpu := { s with stop := true }
  let s2 := (readByte s1.pc s1).2
  (readByte s2.pc s2).2

/-- `wai` (65C02): latch wait, two phantom reads of PC. -/
def wai (s : Cpu) : Cpu :=
  let s1 : Cpu := { s with wait := true }
  let s2 := (readByte s1.pc s1).2
  (readByte s2.pc s2).2

/-- `lda`. -/
def lda (rd : ReadFn) (s : Cpu) : Cpu :=
  let r := rd s
  { testNZ r.1 r.2 with ar := r.1 }

/-- `ldx`. -/
def ldx (rd : ReadFn) (s : Cpu) : Cpu :=
  let r := rd s
  { testNZ r.1 r.2 with xr := r.1 }

/-- `ldy`. -/
def ldy (rd : ReadFn) (s : Cpu) : Cpu :=
  let r := rd s
  { testNZ r.1 r.2 with yr := r.1 }

/-- `sta`. -/
def sta (wr : WriteFn) (s : Cpu) : Cpu := wr s.ar s

/-- `stx`. -/
def stx (wr : WriteFn) (s : Cpu) : Cpu := wr s.xr s

/-- `sty`. -/
def sty (wr : WriteFn) (s : Cpu) : Cpu := wr s.yr s

/-- `stz` (65C02). -/
def stz (wr : WriteFn) (s : Cpu) : Cpu := wr 0 s

/-- `adc`. -/
def adc (rd : ReadFn) (s : Cpu) : Cpu :=
  let r := rd s
  let q := add r.2.ar r.1 false r.2
  { q.2 with ar := q.1 }

/-- `sbc`: one's-complement the operand, reuse `add` with `sub`. -/
def sbc (rd : ReadFn) (s : Cpu) : Cpu :=
  let r := rd s
  let q := add r.2.ar (r.1 ^^^ 0xff) true r.2
  { q.2 with ar := q.1 }

/-- `incA`. -/
def incA (s : Cpu) : Cpu :=
  let s1 := (readByte s.pc s).2
  let q := increment s1.ar s1
  { q.2 with ar := q.1 }

/-- `inc` (memory). -/
def inc (ra : ReadAddrFn) (s : Cpu) : Cpu :=
  let a := ra true s
  let old := readByte a.1 a.2
  let s1 := workCycle a.1 old.1 old.2
  let q := increment old.1 s1
  writeByte a.1 q.1 q.2

/-- `inx`. -/
def inx (s : Cpu) : Cpu :=
  let s1 := (readByte s.pc s).2
  let q := increment s1.xr s1
  { q.2 with xr := q.1 }

/-- `iny`. -/
def iny (s : Cpu) : Cpu :=
  let s1 := (readByte s.pc s).2
  let q := increment s1.yr s1
  { q.2 with yr := q.1 }

/-- `decA`. -/
def decA (s : Cpu) : Cpu :=
  let s1 := (readByte s.pc s).2
  let q := decrement s1.ar s1
  { q.2 with ar := q.1 }

/-- `dec` (memory). -/
def dec (ra : ReadAddrFn) (s : Cpu) : Cpu :=
  let a := ra true s
  let old := readByte a.1 a.2
  let s1 := workCycle a.1 old.1 old.2
  let q := decrement old.1 s1
  writeByte a.1 q.1 q.2

/-- `dex`. -/
def dex (s : Cpu) : Cpu :=
  let s1 := (readByte s.pc s).2
  let q := decrement s1.xr s1
  { q.2 with xr := q.1 }

/-- `dey`. -/
def dey (s : Cpu) : Cpu :=
  let s1 := (readByte s.pc s).2
  let q := decrement s1.yr s1
  { q.2 with yr := q.1 }

/-- `shiftLeft`: C from bit 7, NZ from the result. -/
def shiftLeft (v : Nat) (s : Cpu) : Nat × Cpu :=
  let s1 := setFlag flagC (v &&& 0x80 ≠ 0) s
  let r := (v <<< 1) &&& 0xff
  (r, testNZ r s1)

/-- `aslA`. -/
def aslA (s : Cpu) : Cpu :=
  let s1 := (readByte s.pc s).2
  let q := shiftLeft s1.ar s1
  { q.2 with ar := q.1 }

/-- `asl` (memory). -/
def asl (ra : ReadAddrFn) (s : Cpu) : Cpu :=
  let a := ra false s
  let old := readByte a.1 a.2
  let s1 := workCycle a.1 old.1 old.2
  let q := shiftLeft old.1 s1
  writeByte a.1 q.1 q.2

/-- `shiftRight`: C from bit 0, NZ from the result. -/
def shiftRight (v : Nat) (s : Cpu) : Nat × Cpu :=
  let s1 := setFlag flagC (v &&& 0x01 ≠ 0) s
  let r := v >>> 1
  (r, testNZ r s1)

/-- `lsrA`. -/
def lsrA (s : Cpu) : Cpu :=
  let s1 := (readByte s.pc s).2
  let q := shiftRight s1.ar s1
  { q.2 with ar := q.1 }

/-- `lsr` (memory). -/
def lsr (ra : ReadAddrFn) (s : Cpu) : Cpu :=
  let a := ra false s
  let old := readByte a.1 a.2
  let s1 := workCycle a.1 old.1 old.2
  let q := shiftRight old.1 s1
  writeByte a.1 q.1 q.2

/-- `rotateLeft`. -/
def rotateLeft (v : Nat) (s : Cpu) : Nat × Cpu :=
  let c := s.sr &&& flagC
  let s1 := setFlag flagC (v &&& 0x80 ≠ 0) s
  let r := ((v <<< 1) ||| (if c ≠ 0 then 0x01 else 0x00)) &&& 0xff
  (r, testNZ r s1)

/-- `rolA`. -/
def rolA (s : Cpu) : Cpu :=
  let s1 := (readByte s.pc s).2
  let q := rotateLeft s1.ar s1
  { q.2 with ar := q.1 }

/-- `rol` (memory). -/
def rol (ra : ReadAddrFn) (s : Cpu) : Cpu :=
  let a := ra false s
  let old := readByte a.1 a.2
  let s1 := workCycle a.1 old.1 old.2
  let q := rotateLeft old.1 s1
  writeByte a.1 q.1 q.2

/-- `rotateRight`. -/
def rotateRight (v : Nat) (s : Cpu) : Nat × Cpu :=
  let c := s.sr &&& flagC
  let s1 := setFlag flagC (v &&& 0x01 ≠ 0) s
  let r := (v >>> 1) ||| (if c ≠ 0 then 0x80 else 0x00)
  (r, testNZ r s1)

/-- `rorA`. -/
def rorA (s : Cpu) : Cpu :=
  let s1 := (readByte s.pc s).2
  let q := rotateRight s1.ar s1
  { q.2 with ar := q.1 }

/-- `ror` (memory). -/
def ror (ra : ReadAddrFn) (s : Cpu) : Cpu :=
  let a := ra false s
  let old := readByte a.1 a.2
  let s1 := workCycle a.1 old.1 old.2
  let q := rotateRight old.1 s1
  writeByte a.1 q.1 q.2

/-- `and`. -/
def andA (rd : ReadFn) (s : Cpu) : Cpu :=
  let r := rd s
  let v := r.2.ar &&& r.1
  { testNZ v r.2 with ar := v }

/-- `ora`. -/
def ora (rd : ReadFn) (s : Cpu) : Cpu :=
  let r := rd s
  let v := r.2.ar ||| r.1
  { testNZ v r.2 with ar := v }

/-- `eor`. -/
def eor (rd : ReadFn) (s : Cpu) : Cpu :=
  let r := rd s
  let v := r.2.ar ^^^ r.1
  { testNZ v r.2 with ar := v }

/-- `rmb` (Rockwell/WDC 65C02). -/
def rmb (b : Nat) (s : Cpu) : Cpu :=
  let bit := (0x1 <<< b) ^^^ 0xff
  let a := readBytePC s
  let v := readByte a.1 a.2
  let s1 := (readByte a.1 v.2).2
  writeByte a.1 (v.1 &&& bit) s1

/-- `smb` (Rockwell/WDC 65C02). -/
def smb (b : Nat) (s : Cpu) : Cpu :=
  let bit := 0x1 <<< b
  let a := readBytePC s
  let v := readByte a.1 a.2
  let s1 := (readByte a.1 v.2).2
  writeByte a.1 (v.1 ||| bit) s1

/-- `trb` (65C02). -/
def trb (ra : ReadAddrFn) (s : Cpu) : Cpu :=
  let a := ra false s
  let v := readByte a.1 a.2
  let s1 := testZ (v.1 &&& v.2.ar) v.2
  let s2 := (readByte a.1 s1).2
  writeByte a.1 (v.1 &&& jsNot s2.ar) s2

/-- `tsb` (65C02). -/
def tsb (ra : ReadAddrFn) (s : Cpu) : Cpu :=
  let a := ra false s
  let v := readByte a.1 a.2
  let s1 := testZ (v.1 &&& v.2.ar) v.2
  let s2 := (readByte a.1 s1).2
  writeByte a.1 (v.1 ||| s2.ar) s2

/-- `bit`. -/
def bit (rd : ReadFn) (s : Cpu) : Cpu :=
  let r := rd s
  let s1 := setFlag flagZ (r.1 &&& r.2.ar = 0) r.2
  let s2 := setFlag flagN (r.1 &&& 0x80 ≠ 0) s1
  setFlag flagV (r.1 &&& 0x40 ≠ 0) s2

/-- `bitI` (65C02 `BIT #imm`): Z only. -/
def bitI (rd : ReadFn) (s : Cpu) : Cpu :=
  let r := rd s
  setFlag flagZ (r.1 &&& r.2.ar = 0) r.2

/-- `compare`. -/
def compare (a b : Nat) (s : Cpu) : Cpu :=
  let b1 := b ^^^ 0xff
  let c := a + b1 + 1
  let s1 := setFlag flagC (c > 0xff) s
  testNZ (c &&& 0xff) s1

/-- `cmp`. -/
def cmp (rd : ReadFn) (s : Cpu) : Cpu :=
  let r := rd s
  compare r.2.ar r.1 r.2

/-- `cpx`. -/
def cpx (rd : ReadFn) (s : Cpu) : Cpu :=
  let r := rd s
  compare r.2.xr r.1 r.2

/-- `cpy`. -/
def cpy (rd : ReadFn) (s : Cpu) : Cpu :=
  let r := rd s
  compare r.2.yr r.1 r.2

/-- Sign-extended branch displacement plus PC, masked to 16 bits; the
`Int` detour replicates `(pc + off') & 0xffff` when `pc + off'` is
negative in JS. -/
def branchTarget (pc off : Nat) : Nat :=
  (((pc : Int) + (if off > 127 then (off : Int) - 256 else (off : Int))) % 0x10000).toNat

/-- `brs`: branch when flag set. -/
def brs (f : Nat) (s : Cpu) : Cpu :=
  let off := readBytePC s
  if f &&& off.2.sr ≠ 0 then
    let s1 := (readByte off.2.pc off.2).2
    let oldPage := s1.pc &&& 0xff00
    let newPC := branchTarget s1.pc off.1
    let newPage := newPC &&& 0xff00
    let newOff := newPC &&& 0xff
    let s2 : Cpu := { s1 with pc := newPC }
    if newPage ≠ oldPage then (readByte (oldPage ||| newOff) s2).2 else s2
  else off.2

/-- `brc`: branch when flag clear (`f = 0` is the unconditional `BRA`). -/
def brc (f : Nat) (s : Cpu) : Cpu :=
  let off := readBytePC s
  if f &&& off.2.sr = 0 then
    let s1 := (readByte off.2.pc off.2).2
    let oldPage := s1.pc &&& 0xff00
    let newPC := branchTarget s1.pc off.1
    let newPage := newPC &&& 0xff00
    let newOff := newPC &&& 0xff
    let s2 : Cpu := { s1 with pc := newPC }
    if newPage ≠ oldPage then (readByte (oldPage ||| newOff) s2).2 else s2
  else off.2

/-- `bbr` (Rockwell/WDC 65C02). -/
def bbr (b : Nat) (s : Cpu) : Cpu :=
  let zp := readBytePC s
  let v := readByte zp.1 zp.2
  let s1 := writeByte zp.1 v.1 v.2
  let off := readBytePC s1
  let oldPage := off.2.pc &&& 0xff00
  let newPC := branchTarget off.2.pc off.1
  let newOff := newPC &&& 0xff
  let s2 := (readByte (oldPage ||| newOff) off.2).2
  if (1 <<< b) &&& v.1 = 0 then { s2 with pc := newPC } else s2

/-- `bbs` (Rockwell/WDC 65C02). -/
def bbs (b : Nat) (s : Cpu) : Cpu :=
  let zp := readBytePC s
  let v := readByte zp.1 zp.2
  let s1 := writeByte zp.1 v.1 v.2
  let off := readBytePC s1
  let oldPage := off.2.pc &&& 0xff00
  let newPC := branchTarget off.2.pc off.1
  let newOff := newPC &&& 0xff
  let s2 := (readByte (oldPage ||| newOff) off.2).2
  if (1 <<< b) &&& v.1 ≠ 0 then { s2 with pc := newPC } else s2

/-- `tax`. -/
def tax (s : Cpu) : Cpu :=
  let s1 := (readByte s.pc s).2
  { testNZ s1.ar s1 with xr := s1.ar }

/-- `txa`. -/
def txa (s : Cpu) : Cpu :=
  let s1 := (readByte s.pc s).2
  { testNZ s1.xr s1 with ar := s1.xr }

/-- `tay`. -/
def tay (s : Cpu) : Cpu :=
  let s1 := (readByte s.pc s).2
  { testNZ s1.ar s1 with yr := s1.ar }

/-- `tya`. -/
def tya (s : Cpu) : Cpu :=
  let s1 := (readByte s.pc s).2
  { testNZ s1.yr s1 with ar := s1.yr }

/-- `tsx`. -/
def tsx (s : Cpu) : Cpu :=
  let s1 := (readByte s.pc s).2
  { testNZ s1.sp s1 with xr := s1.sp }

/-- `txs` (no flag update). -/
def txs (s : Cpu) : Cpu :=
  let s1 := (readByte s.pc s).2
  { s1 with sp := s1.xr }

/-- `pha`. -/
def pha (s : Cpu) : Cpu :=
  let s1 := (readByte s.pc s).2
  pushByte s1.ar s1

/-- `pla`. -/
def pla (s : Cpu) : Cpu :=
  let s1 := (readByte s.pc s).2
  let s2 := (readByte (0x0100 ||| s1.sp) s1).2
  let v := pullByte s2
  { testNZ v.1 v.2 with ar := v.1 }

/-- `phx` (65C02). -/
def phx (s : Cpu) : Cpu :=
  let s1 := (readByte s.pc s).2
  pushByte s1.xr s1

/-- `plx` (65C02). -/
def plx (s : Cpu) : Cpu :=
  let s1 := (readByte s.pc s).2
  let s2 := (readByte (0x0100 ||| s1.sp) s1).2
  let v := pullByte s2
  { testNZ v.1 v.2 with xr := v.1 }

/-- `phy` (65C02). -/
def phy (s : Cpu) : Cpu :=
  let s1 := (readByte s.pc s).2
  pushByte s1.yr s1

/-- `ply` (65C02). -/
def ply (s : Cpu) : Cpu :=
  let s1 := (readByte s.pc s).2
  let s2 := (readByte (0x0100 ||| s1.sp) s1).2
  let v := pullByte s2
  { testNZ v.1 v.2 with yr := v.1 }

/-- `php` (pushes with B set). -/
def php (s : Cpu) : Cpu :=
  let s1 := (readByte s.pc s).2
  pushByte (s1.sr ||| flagB) s1

/-- `plp` (pulls with B cleared and X forced on). -/
def plp (s : Cpu) : Cpu :=
  let s1 := (readByte s.pc s).2
  let s2 := (readByte (0x0100 ||| s1.sp) s1).2
  let v := pullByte s2
  { v.2 with sr := (v.1 &&& jsNot flagB) ||| flagX }

/-- `jmp`. -/
def jmp (ra : ReadAddrFn) (s : Cpu) : Cpu :=
  let a := ra false s
  { a.2 with pc := a.1 }

/-- `jsr`. -/
def jsr (s : Cpu) : Cpu :=
  let lo := readBytePC s
  let s1 := (readByte (0x0100 ||| lo.2.sp) lo.2).2
  let s2 := pushWord s1.pc s1
  let hi := readBytePC s2
  { hi.2 with pc := ((hi.1 <<< 8) ||| lo.1) &&& 0xffff }

/-- `rts`. -/
def rts (s : Cpu) : Cpu :=
  let s1 := (readByte s.pc s).2
  let s2 := (readByte (0x0100 ||| s1.sp) s1).2
  let a := pullWordRaw s2
  let s3 := (readByte a.1 a.2).2
  { s3 with pc := (a.1 + 1) &&& 0xffff }

/-- `rti` (PC pulled unchanged, no `+1`). -/
def rti (s : Cpu) : Cpu :=
  let s1 := (readByte s.pc s).2
  let s2 := (readByte (0x0100 ||| s1.sp) s1).2
  let v := pullByte s2
  let s3 : Cpu := { v.2 with sr := (v.1 &&& jsNot flagB) ||| flagX }
  let a := pullWordRaw s3
  { a.2 with pc := a.1 }

/-- `set` (SEC/SED/SEI). -/
def setF (f : Nat) (s : Cpu) : Cpu :=
  let s1 := (readByte s.pc s).2
  { s1 with sr := s1.sr ||| f }

/-- `clr` (CLC/CLD/CLI/CLV). -/
def clr (f : Nat) (s : Cpu) : Cpu :=
  let s1 := (readByte s.pc s).2
  { s1 with sr := s1.sr &&& jsNot f }

/-- `nop`: run the supplied mode primitive for its cycles. -/
def nop (f : Cpu → Cpu) (s : Cpu) : Cpu := f s

/-- `nop` applied to a value-returning mode primitive. -/
def nopR (rd : Cpu → Nat × Cpu) (s : Cpu) : Cpu := (rd s).2

/-- `skp` (SKB/SKW): run the mode primitive, discard the value. -/
def skp (rd : Cpu → Nat × Cpu) (s : Cpu) : Cpu := (rd s).2

/-! ## NMOS 6502 undocumented opcodes -/

/-- `aso` = ASL + ORA. -/
def aso (ra : ReadAddrFn) (s : Cpu) : Cpu :=
  let a := ra false s
  let old := readByte a.1 a.2
  let s1 := workCycle a.1 old.1 old.2
  let q := shiftLeft old.1 s1
  let s2 := writeByte a.1 q.1 q.2
  let v := s2.ar ||| q.1
  { testNZ v s2 with ar := v }

/-- `rla` = ROL + AND. -/
def rla (ra : ReadAddrFn) (s : Cpu) : Cpu :=
  let a := ra false s
  let old := readByte a.1 a.2
  let s1 := workCycle a.1 old.1 old.2
  let q := rotateLeft old.1 s1
  let s2 := writeByte a.1 q.1 q.2
  let v := s2.ar &&& q.1
  { testNZ v s2 with ar := v }

/-- `lse` = LSR + EOR. -/
def lse (ra : ReadAddrFn) (s : Cpu) : Cpu :=
  let a := ra false s
  let old := readByte a.1 a.2
  let s1 := workCycle a.1 old.1 old.2
  let q := shiftRight old.1 s1
  let s2 := writeByte a.1 q.1 q.2
  let v := s2.ar ^^^ q.1
  { testNZ v s2 with ar := v }

/-- `rra` = ROR + ADC. -/
def rra (ra : ReadAddrFn) (s : Cpu) : Cpu :=
  let a := ra false s
  let old := readByte a.1 a.2
  let s1 := workCycle a.1 old.1 old.2
  let q := rotateRight old.1 s1
  let s2 := writeByte a.1 q.1 q.2
  let q2 := add s2.ar q.1 false s2
  { q2.2 with ar := q2.1 }

/-- `axs` = store A & X. -/
def axs (wr : WriteFn) (s : Cpu) : Cpu := wr (s.ar &&& s.xr) s

/-- `lax` = load A and X. -/
def lax (rd : ReadFn) (s : Cpu) : Cpu :=
  let r := rd s
  { testNZ r.1 r.2 with ar := r.1, xr := r.1 }

/-- `dcm` = DEC + CMP. -/
def dcm (ra : ReadAddrFn) (s : Cpu) : Cpu :=
  let a := ra true s
  let old := readByte a.1 a.2
  let s1 := workCycle a.1 old.1 old.2
  let q := decrement old.1 s1
  let s2 := writeByte a.1 q.1 q.2
  compare s2.ar q.1 s2

/-- `ins` = INC + SBC. -/
def ins (ra : ReadAddrFn) (s : Cpu) : Cpu :=
  let a := ra true s
  let old := readByte a.1 a.2
  let s1 := workCycle a.1 old.1 old.2
  let q := increment old.1 s1
  let s2 := writeByte a.1 q.1 q.2
  let q2 := add s2.ar (q.1 ^^^ 0xff) true s2
  { q2.2 with ar := q2.1 }

/-- `alr` = AND + LSR. -/
def alr (rd : ReadFn) (s : Cpu) : Cpu :=
  let r := rd s
  let v := r.1 &&& r.2.ar
  let q := shiftRight v r.2
  { q.2 with ar := q.1 }

/-- `arr` = AND + ROR (with the BCD fixups). -/
def arr (rd : ReadFn) (s : Cpu) : Cpu :=
  let r := rd s
  let v := r.1 &&& r.2.ar
  let ah := v >>> 4
  let al := v &&& 0xf
  let b7 := v >>> 7
  let b6 := (v >>> 6) &&& 0x1
  let q := rotateRight v r.2
  let s1 : Cpu := { q.2 with ar := q.1 }
  let c0 : Bool := b7 ≠ 0
  let v0 : Bool := (b7 ^^^ b6) ≠ 0
  let s2 :=
    if s1.sr &&& flagD ≠ 0 then
      let s2a :=
        if al + (al &&& 0x1) > 0x5 then
          { s1 with ar := (s1.ar &&& 0xf0) ||| ((s1.ar + 0x6) &&& 0xf) }
        else s1
      if ah + (ah &&& 0x1) > 5 then
        ({ s2a with ar := (s2a.ar + 0x60) &&& 0xff }, true)
      else (s2a, c0)
    else (s1, c0)
  let s3 := setFlag flagV v0 s2.1
  setFlag flagC s2.2 s3

/-- `xaa` = TAX + AND (semi-stable; the source's formula). -/
def xaa (rd : ReadFn) (s : Cpu) : Cpu :=
  let r := rd s
  let ar1 := (r.2.xr &&& 0xee) ||| (r.2.xr &&& r.2.ar &&& 0x11)
  let v := ar1 &&& r.1
  { testNZ v r.2 with ar := v }

/-- `oal` = ORA #0xEE + AND, copied to A and X. -/
def oal (rd : ReadFn) (s : Cpu) : Cpu :=
  let s0 : Cpu := { s with ar := s.ar ||| 0xee }
  let r := rd s0
  let v := r.2.ar &&& r.1
  { testNZ v r.2 with ar := v, xr := v }

/-- `sax` = (A & X) - operand into X. -/
def sax (rd : ReadFn) (s : Cpu) : Cpu :=
  let a := s.xr &&& s.ar
  let r := rd s
  let b := r.1 ^^^ 0xff
  let c := a + b + 1
  let s1 := setFlag flagC (c > 0xff) r.2
  { testNZ (c &&& 0xff) s1 with xr := c &&& 0xff }

/-- `tas`. -/
def tas (ra : ReadAddrFn) (s : Cpu) : Cpu :=
  let a := ra false s
  let v := a.2.xr &&& a.2.ar
  let s1 : Cpu := { a.2 with sp := v }
  let msb := a.1 >>> 8
  writeByte a.1 (v &&& ((msb + 1) &&& 0xff)) s1

/-- `say`. -/
def say (ra : ReadAddrFn) (s : Cpu) : Cpu :=
  let a := ra false s
  let msb := a.1 >>> 8
  writeByte a.1 (a.2.yr &&& ((msb + 1) &&& 0xff)) a.2

/-- `xas`. -/
def xas (ra : ReadAddrFn) (s : Cpu) : Cpu :=
  let a := ra false s
  let msb := a.1 >>> 8
  writeByte a.1 (a.2.xr &&& ((msb + 1) &&& 0xff)) a.2

/-- `axa`. -/
def axa (ra : ReadAddrFn) (s : Cpu) : Cpu :=
  let a := ra false s
  let v := a.2.xr &&& a.2.ar
  let msb := a.1 >>> 8
  writeByte a.1 (v &&& ((msb + 1) &&& 0xff)) a.2

/-- `anc` = AND with C from bit 7. -/
def anc (rd : ReadFn) (s : Cpu) : Cpu :=
  let r := rd s
  let v := r.2.ar &&& r.1
  let s1 : Cpu := { testNZ v r.2 with ar := v }
  setFlag flagC (s1.ar &&& 0x80 ≠ 0) s1

/-- `las`. -/
def las (rd : ReadFn) (s : Cpu) : Cpu :=
  let r := rd s
  let v := r.2.sp &&& r.1
  { testNZ v r.2 with sp := v, xr := v, ar := v }

/-- `hlt`: two phantom reads, back the PC up, latch stop. `--pc & 0xffff`
on a JS number that may be 0 is modelled in `Int`. -/
def hlt (s : Cpu) : Cpu :=
  let s1 := (readByte s.pc s).2
  let s2 := (readByte s1.pc s1).2
  { s2 with pc := (((s2.pc : Int) - 1) % 0x10000).toNat, stop := true }

/-! ## Dispatch, interrupts, step loop, host API -/

/-- An instruction descriptor (`Instruction` in the source). -/
structure Entry where
  /-- Three-letter mnemonic. -/
  name : String
  /-- Addressing mode. -/
  mode : Mode
  /-- Implementation. -/
  fn : Cpu → Cpu

/-- The 65C02 fallback entry built by `unknown` for a missing opcode:
a 1-cycle implied NOP. -/
def nopEntry : Entry := ⟨"NOP", Mode.implied, nop readNopImplied⟩

/-! ## Opcode tables

Each table mirrors the object literal of the source; composition by JS
spread (`{...a, ...b}`, `b` wins) becomes `lookup` in the overlay first,
then in the base. -/

def OPS_6502_p0 : List (Nat × Entry) := [
  (0xa9, ⟨"LDA", .immediate, lda readImmediate⟩),
  (0xa5, ⟨"LDA", .zeroPage, lda readZeroPage⟩),
  (0xb5, ⟨"LDA", .zeroPageX, lda readZeroPageX⟩),
  (0xad, ⟨"LDA", .absolute, lda readAbsolute⟩),
  (0xbd, ⟨"LDA", .absoluteX, lda readAbsoluteX⟩),
  (0xb9, ⟨"LDA", .absoluteY, lda readAbsoluteY⟩),
  (0xa1, ⟨"LDA", .zeroPageXIndirect, lda readZeroPageXIndirect⟩),
  (0xb1, ⟨"LDA", .zeroPageIndirectY, lda readZeroPageIndirectY⟩),
  (0xa2, ⟨"LDX", .immediate, ldx readImmediate⟩),
  (0xa6, ⟨"LDX", .zeroPage, ldx readZeroPage⟩),
  (0xb6, ⟨"LDX", .zeroPageY, ldx readZeroPageY⟩),
  (0xae, ⟨"LDX", .absolute, ldx readAbsolute⟩),
  (0xbe, ⟨"LDX", .absoluteY, ldx readAbsoluteY⟩),
  (0xa0, ⟨"LDY", .immediate, ldy readImmediate⟩),
  (0xa4, ⟨"LDY", .zeroPage, ldy readZeroPage⟩),
  (0xb4, ⟨"LDY", .zeroPageX, ldy readZeroPageX⟩),
  (0xac, ⟨"LDY", .absolute, ldy readAbsolute⟩),
  (0xbc, ⟨"LDY", .absoluteX, ldy readAbsoluteX⟩),
  (0x85, ⟨"STA", .zeroPage, sta writeZeroPage⟩),
  (0x95, ⟨"STA", .zeroPageX, sta writeZeroPageX⟩),
  (0x8d, ⟨"STA", .absolute, sta writeAbsolute⟩),
  (0x9d, ⟨"STA", .absoluteX, sta writeAbsoluteX⟩),
  (0x99, ⟨"STA", .absoluteY, sta writeAbsoluteY⟩),
  (0x81, ⟨"STA", .zeroPageXIndirect, sta writeZeroPageXIndirect⟩),
  (0x91, ⟨"STA", .zeroPageIndirectY, sta writeZeroPageIndirectY⟩),
  (0x86, ⟨"STX", .zeroPage, stx writeZeroPage⟩),
  (0x96, ⟨"STX", .zeroPageY, stx writeZeroPageY⟩),
  (0x8e, ⟨"STX", .absolute, stx writeAbsolute⟩),
  (0x84, ⟨"STY", .zeroPage, sty writeZeroPage⟩),
  (0x94, ⟨"STY", .zeroPageX, sty writeZeroPageX⟩),
  (0x8c, ⟨"STY", .absolute, sty writeAbsolute⟩),
  (0x69, ⟨"ADC", .immediate, adc readImmediate⟩)
]

def OPS_6502_p1 : List (Nat × Entry) := [
  (0x65, ⟨"ADC", .zeroPage, adc readZeroPage⟩),
  (0x75, ⟨"ADC", .zeroPageX, adc readZeroPageX⟩),
  (0x6d, ⟨"ADC", .absolute, adc readAbsolute⟩),
  (0x7d, ⟨"ADC", .absoluteX, adc readAbsoluteX⟩),
  (0x79, ⟨"ADC", .absoluteY, adc readAbsoluteY⟩),
  (0x61, ⟨"ADC", .zeroPageXIndirect, adc readZeroPageXIndirect⟩),
  (0x71, ⟨"ADC", .zeroPageIndirectY, adc readZeroPageIndirectY⟩),
  (0xe9, ⟨"SBC", .immediate, sbc readImmediate⟩),
  (0xe5, ⟨"SBC", .zeroPage, sbc readZeroPage⟩),
  (0xf5, ⟨"SBC", .zeroPageX, sbc readZeroPageX⟩),
  (0xed, ⟨"SBC", .absolute, sbc readAbsolute⟩),
  (0xfd, ⟨"SBC", .absoluteX, sbc readAbsoluteX⟩),
  (0xf9, ⟨"SBC", .absoluteY, sbc readAbsoluteY⟩),
  (0xe1, ⟨"SBC", .zeroPageXIndirect, sbc readZeroPageXIndirect⟩),
  (0xf1, ⟨"SBC", .zeroPageIndirectY, sbc readZeroPageIndirectY⟩),
  (0xe6, ⟨"INC", .zeroPage, inc readAddrZeroPage⟩),
  (0xf6, ⟨"INC", .zeroPageX, inc readAddrZeroPageX⟩),
  (0xee, ⟨"INC", .absolute, inc readAddrAbsolute⟩),
  (0xfe, ⟨"INC", .absoluteX, inc readAddrAbsoluteX⟩),
  (0xe8, ⟨"INX", .implied, inx⟩),
  (0xc8, ⟨"INY", .implied, iny⟩),
  (0xc6, ⟨"DEC", .zeroPage, dec readAddrZeroPage⟩),
  (0xd6, ⟨"DEC", .zeroPageX, dec readAddrZeroPageX⟩),
  (0xce, ⟨"DEC", .absolute, dec readAddrAbsolute⟩),
  (0xde, ⟨"DEC", .absoluteX, dec readAddrAbsoluteX⟩),
  (0xca, ⟨"DEX", .implied, dex⟩),
  (0x88, ⟨"DEY", .implied, dey⟩),
  (0x0a, ⟨"ASL", .accumulator, aslA⟩),
  (0x06, ⟨"ASL", .zeroPage, asl readAddrZeroPage⟩),
  (0x16, ⟨"ASL", .zeroPageX, asl readAddrZeroPageX⟩),
  (0x0e, ⟨"ASL", .absolute, asl readAddrAbsolute⟩),
  (0x1e, ⟨"ASL", .absoluteX, asl readAddrAbsoluteX⟩)
]

def OPS_6502_p2 : List (Nat × Entry) := [
  (0x4a, ⟨"LSR", .accumulator, lsrA⟩),
  (0x46, ⟨"LSR", .zeroPage, lsr readAddrZeroPage⟩),
  (0x56, ⟨"LSR", .zeroPageX, lsr readAddrZeroPageX⟩),
  (0x4e, ⟨"LSR", .absolute, lsr readAddrAbsolute⟩),
  (0x5e, ⟨"LSR", .absoluteX, lsr readAddrAbsoluteX⟩),
  (0x2a, ⟨"ROL", .accumulator, rolA⟩),
  (0x26, ⟨"ROL", .zeroPage, rol readAddrZeroPage⟩),
  (0x36, ⟨"ROL", .zeroPageX, rol readAddrZeroPageX⟩),
  (0x2e, ⟨"ROL", .absolute, rol readAddrAbsolute⟩),
  (0x3e, ⟨"ROL", .absoluteX, rol readAddrAbsoluteX⟩),
  (0x6a, ⟨"ROR", .accumulator, rorA⟩),
  (0x66, ⟨"ROR", .zeroPage, ror readAddrZeroPage⟩),
  (0x76, ⟨"ROR", .zeroPageX, ror readAddrZeroPageX⟩),
  (0x6e, ⟨"ROR", .absolute, ror readAddrAbsolute⟩),
  (0x7e, ⟨"ROR", .absoluteX, ror readAddrAbsoluteX⟩),
  (0x29, ⟨"AND", .immediate, andA readImmediate⟩),
  (0x25, ⟨"AND", .zeroPage, andA readZeroPage⟩),
  (0x35, ⟨"AND", .zeroPageX, andA readZeroPageX⟩),
  (0x2d, ⟨"AND", .absolute, andA readAbsolute⟩),
  (0x3d, ⟨"AND", .absoluteX, andA readAbsoluteX⟩),
  (0x39, ⟨"AND", .absoluteY, andA readAbsoluteY⟩),
  (0x21, ⟨"AND", .zeroPageXIndirect, andA readZeroPageXIndirect⟩),
  (0x31, ⟨"AND", .zeroPageIndirectY, andA readZeroPageIndirectY⟩),
  (0x09, ⟨"ORA", .immediate, ora readImmediate⟩),
  (0x05, ⟨"ORA", .zeroPage, ora readZeroPage⟩),
  (0x15, ⟨"ORA", .zeroPageX, ora readZeroPageX⟩),
  (0x0d, ⟨"ORA", .absolute, ora readAbsolute⟩),
  (0x1d, ⟨"ORA", .absoluteX, ora readAbsoluteX⟩),
  (0x19, ⟨"ORA", .absoluteY, ora readAbsoluteY⟩),
  (0x01, ⟨"ORA", .zeroPageXIndirect, ora readZeroPageXIndirect⟩),
  (0x11, ⟨"ORA", .zeroPageIndirectY, ora readZeroPageIndirectY⟩),
  (0x49, ⟨"EOR", .immediate, eor readImmediate⟩)
]

def OPS_6502_p3 : List (Nat × Entry) := [
  (0x45, ⟨"EOR", .zeroPage, eor readZeroPage⟩),
  (0x55, ⟨"EOR", .zeroPageX, eor readZeroPageX⟩),
  (0x4d, ⟨"EOR", .absolute, eor readAbsolute⟩),
  (0x5d, ⟨"EOR", .absoluteX, eor readAbsoluteX⟩),
  (0x59, ⟨"EOR", .absoluteY, eor readAbsoluteY⟩),
  (0x41, ⟨"EOR", .zeroPageXIndirect, eor readZeroPageXIndirect⟩),
  (0x51, ⟨"EOR", .zeroPageIndirectY, eor readZeroPageIndirectY⟩),
  (0xc9, ⟨"CMP", .immediate, cmp readImmediate⟩),
  (0xc5, ⟨"CMP", .zeroPage, cmp readZeroPage⟩),
  (0xd5, ⟨"CMP", .zeroPageX, cmp readZeroPageX⟩),
  (0xcd, ⟨"CMP", .absolute, cmp readAbsolute⟩),
  (0xdd, ⟨"CMP", .absoluteX, cmp readAbsoluteX⟩),
  (0xd9, ⟨"CMP", .absoluteY, cmp readAbsoluteY⟩),
  (0xc1, ⟨"CMP", .zeroPageXIndirect, cmp readZeroPageXIndirect⟩),
  (0xd1, ⟨"CMP", .zeroPageIndirectY, cmp readZeroPageIndirectY⟩),
  (0xe0, ⟨"CPX", .immediate, cpx readImmediate⟩),
  (0xe4, ⟨"CPX", .zeroPage, cpx readZeroPage⟩),
  (0xec, ⟨"CPX", .absolute, cpx readAbsolute⟩),
  (0xc0, ⟨"CPY", .immediate, cpy readImmediate⟩),
  (0xc4, ⟨"CPY", .zeroPage, cpy readZeroPage⟩),
  (0xcc, ⟨"CPY", .absolute, cpy readAbsolute⟩),
  (0x24, ⟨"BIT", .zeroPage, bit readZeroPage⟩),
  (0x2c, ⟨"BIT", .absolute, bit readAbsolute⟩),
  (0x90, ⟨"BCC", .relative, brc flagC⟩),
  (0xb0, ⟨"BCS", .relative, brs flagC⟩),
  (0xf0, ⟨"BEQ", .relative, brs flagZ⟩),
  (0x30, ⟨"BMI", .relative, brs flagN⟩),
  (0xd0, ⟨"BNE", .relative, brc flagZ⟩),
  (0x10, ⟨"BPL", .relative, brc flagN⟩),
  (0x50, ⟨"BVC", .relative, brc flagV⟩),
  (0x70, ⟨"BVS", .relative, brs flagV⟩),
  (0xaa, ⟨"TAX", .implied, tax⟩)
]

def OPS_6502_p4 : List (Nat × Entry) := [
  (0x8a, ⟨"TXA", .implied, txa⟩),
  (0xa8, ⟨"TAY", .implied, tay⟩),
  (0x98, ⟨"TYA", .implied, tya⟩),
  (0xba, ⟨"TSX", .implied, tsx⟩),
  (0x9a, ⟨"TXS", .implied, txs⟩),
  (0x48, ⟨"PHA", .implied, pha⟩),
  (0x68, ⟨"PLA", .implied, pla⟩),
  (0x08, ⟨"PHP", .implied, php⟩),
  (0x28, ⟨"PLP", .implied, plp⟩),
  (0x4c, ⟨"JMP", .absolute, jmp readAddrAbsolute⟩),
  (0x6c, ⟨"JMP", .absoluteIndirect, jmp readAddrAbsoluteIndirectBug⟩),
  (0x20, ⟨"JSR", .absolute, jsr⟩),
  (0x60, ⟨"RTS", .implied, rts⟩),
  (0x40, ⟨"RTI", .implied, rti⟩),
  (0x38, ⟨"SEC", .implied, setF flagC⟩),
  (0xf8, ⟨"SED", .implied, setF flagD⟩),
  (0x78, ⟨"SEI", .implied, setF flagI⟩),
  (0x18, ⟨"CLC", .implied, clr flagC⟩),
  (0xd8, ⟨"CLD", .implied, clr flagD⟩),
  (0x58, ⟨"CLI", .implied, clr flagI⟩),
  (0xb8, ⟨"CLV", .implied, clr flagV⟩),
  (0xea, ⟨"NOP", .implied, nop implied⟩),
  (0x00, ⟨"BRK", .immediate, brk readImmediate⟩)
]

/-- `OPS_6502` of the source (split into parts only to keep
elaboration fast; order preserved). -/
def OPS_6502 : List (Nat × Entry) :=
  OPS_6502_p0 ++ OPS_6502_p1 ++ OPS_6502_p2 ++ OPS_6502_p3 ++ OPS_6502_p4

def OPS_65C02_p0 : List (Nat × Entry) := [
  (0x1a, ⟨"INC", .accumulator, incA⟩),
  (0x3a, ⟨"DEC", .accumulator, decA⟩),
  (0x12, ⟨"ORA", .zeroPageIndirect, ora readZeroPageIndirect⟩),
  (0x32, ⟨"AND", .zeroPageIndirect, andA readZeroPageIndirect⟩),
  (0x52, ⟨"EOR", .zeroPageIndirect, eor readZeroPageIndirect⟩),
  (0x72, ⟨"ADC", .zeroPageIndirect, adc readZeroPageIndirect⟩),
  (0x92, ⟨"STA", .zeroPageIndirect, sta writeZeroPageIndirect⟩),
  (0xb2, ⟨"LDA", .zeroPageIndirect, lda readZeroPageIndirect⟩),
  (0xd2, ⟨"CMP", .zeroPageIndirect, cmp readZeroPageIndirect⟩),
  (0xf2, ⟨"SBC", .zeroPageIndirect, sbc readZeroPageIndirect⟩),
  (0x34, ⟨"BIT", .zeroPageX, bit readZeroPageX⟩),
  (0x3c, ⟨"BIT", .absoluteX, bit readAbsoluteX⟩),
  (0x89, ⟨"BIT", .immediate, bitI readImmediate⟩),
  (0x6c, ⟨"JMP", .absoluteIndirect, jmp readAddrAbsoluteIndirect⟩),
  (0x7c, ⟨"JMP", .absoluteXIndirect, jmp readAddrAbsoluteXIndirect⟩),
  (0x0f, ⟨"BBR0", .zeroPage_relative, bbr 0⟩),
  (0x1f, ⟨"BBR1", .zeroPage_relative, bbr 1⟩),
  (0x2f, ⟨"BBR2", .zeroPage_relative, bbr 2⟩),
  (0x3f, ⟨"BBR3", .zeroPage_relative, bbr 3⟩),
  (0x4f, ⟨"BBR4", .zeroPage_relative, bbr 4⟩),
  (0x5f, ⟨"BBR5", .zeroPage_relative, bbr 5⟩),
  (0x6f, ⟨"BBR6", .zeroPage_relative, bbr 6⟩),
  (0x7f, ⟨"BBR7", .zeroPage_relative, bbr 7⟩),
  (0x8f, ⟨"BBS0", .zeroPage_relative, bbs 0⟩),
  (0x9f, ⟨"BBS1", .zeroPage_relative, bbs 1⟩),
  (0xaf, ⟨"BBS2", .zeroPage_relative, bbs 2⟩),
  (0xbf, ⟨"BBS3", .zeroPage_relative, bbs 3⟩),
  (0xcf, ⟨"BBS4", .zeroPage_relative, bbs 4⟩),
  (0xdf, ⟨"BBS5", .zeroPage_relative, bbs 5⟩),
  (0xef, ⟨"BBS6", .zeroPage_relative, bbs 6⟩),
  (0xff, ⟨"BBS7", .zeroPage_relative, bbs 7⟩),
  (0x80, ⟨"BRA", .relative, brc 0⟩)
]

def OPS_65C02_p1 : List (Nat × Entry) := [
  (0x02, ⟨"NOP", .immediate, nopR readImmediate⟩),
  (0x22, ⟨"NOP", .immediate, nopR readImmediate⟩),
  (0x42, ⟨"NOP", .immediate, nopR readImmediate⟩),
  (0x44, ⟨"NOP", .immediate, nopR readZeroPage⟩),
  (0x54, ⟨"NOP", .immediate, nopR readZeroPageX⟩),
  (0x62, ⟨"NOP", .immediate, nopR readImmediate⟩),
  (0x82, ⟨"NOP", .immediate, nopR readImmediate⟩),
  (0xc2, ⟨"NOP", .immediate, nopR readImmediate⟩),
  (0xd4, ⟨"NOP", .immediate, nopR readZeroPageX⟩),
  (0xe2, ⟨"NOP", .immediate, nopR readImmediate⟩),
  (0xf4, ⟨"NOP", .immediate, nopR readZeroPageX⟩),
  (0x5c, ⟨"NOP", .absolute, nop readNop⟩),
  (0xdc, ⟨"NOP", .absolute, nop readNop⟩),
  (0xfc, ⟨"NOP", .absolute, nop readNop⟩),
  (0xda, ⟨"PHX", .implied, phx⟩),
  (0x5a, ⟨"PHY", .implied, phy⟩),
  (0xfa, ⟨"PLX", .implied, plx⟩),
  (0x7a, ⟨"PLY", .implied, ply⟩),
  (0x07, ⟨"RMB0", .zeroPage, rmb 0⟩),
  (0x17, ⟨"RMB1", .zeroPage, rmb 1⟩),
  (0x27, ⟨"RMB2", .zeroPage, rmb 2⟩),
  (0x37, ⟨"RMB3", .zeroPage, rmb 3⟩),
  (0x47, ⟨"RMB4", .zeroPage, rmb 4⟩),
  (0x57, ⟨"RMB5", .zeroPage, rmb 5⟩),
  (0x67, ⟨"RMB6", .zeroPage, rmb 6⟩),
  (0x77, ⟨"RMB7", .zeroPage, rmb 7⟩),
  (0x87, ⟨"SMB0", .zeroPage, smb 0⟩),
  (0x97, ⟨"SMB1", .zeroPage, smb 1⟩),
  (0xa7, ⟨"SMB2", .zeroPage, smb 2⟩),
  (0xb7, ⟨"SMB3", .zeroPage, smb 3⟩),
  (0xc7, ⟨"SMB4", .zeroPage, smb 4⟩),
  (0xd7, ⟨"SMB5", .zeroPage, smb 5⟩)
]

def OPS_65C02_p2 : List (Nat × Entry) := [
  (0xe7, ⟨"SMB6", .zeroPage, smb 6⟩),
  (0xf7, ⟨"SMB7", .zeroPage, smb 7⟩),
  (0x64, ⟨"STZ", .zeroPage, stz writeZeroPage⟩),
  (0x74, ⟨"STZ", .zeroPageX, stz writeZeroPageX⟩),
  (0x9c, ⟨"STZ", .absolute, stz writeAbsolute⟩),
  (0x9e, ⟨"STZ", .absoluteX, stz writeAbsoluteX⟩),
  (0x14, ⟨"TRB", .zeroPage, trb readAddrZeroPage⟩),
  (0x1c, ⟨"TRB", .absolute, trb readAddrAbsolute⟩),
  (0x04, ⟨"TSB", .zeroPage, tsb readAddrZeroPage⟩),
  (0x0c, ⟨"TSB", .absolute, tsb readAddrAbsolute⟩)
]

/-- `OPS_65C02` of the source (split into parts only to keep
elaboration fast; order preserved). -/
def OPS_65C02 : List (Nat × Entry) :=
  OPS_65C02_p0 ++ OPS_65C02_p1 ++ OPS_65C02_p2

def OPS_NMOS_6502_p0 : List (Nat × Entry) := [
  (0x0f, ⟨"ASO", .absolute, aso readAddrAbsolute⟩),
  (0x1f, ⟨"ASO", .absoluteX, aso readAddrAbsoluteX⟩),
  (0x1b, ⟨"ASO", .absoluteY, aso readAddrAbsoluteY⟩),
  (0x07, ⟨"ASO", .zeroPage, aso readAddrZeroPage⟩),
  (0x17, ⟨"ASO", .zeroPageX, aso readAddrZeroPageX⟩),
  (0x03, ⟨"ASO", .zeroPageXIndirect, aso readAddrZeroPageXIndirect⟩),
  (0x13, ⟨"ASO", .zeroPageIndirectY, aso readAddrZeroPageIndirectY⟩),
  (0x2f, ⟨"RLA", .absolute, rla readAddrAbsolute⟩),
  (0x3f, ⟨"RLA", .absoluteX, rla readAddrAbsoluteX⟩),
  (0x3b, ⟨"RLA", .absoluteY, rla readAddrAbsoluteY⟩),
  (0x27, ⟨"RLA", .zeroPage, rla readAddrZeroPage⟩),
  (0x37, ⟨"RLA", .zeroPageX, rla readAddrZeroPageX⟩),
  (0x23, ⟨"RLA", .zeroPageXIndirect, rla readAddrZeroPageXIndirect⟩),
  (0x33, ⟨"RLA", .zeroPageIndirectY, rla readAddrZeroPageIndirectY⟩),
  (0x4f, ⟨"LSE", .absolute, lse readAddrAbsolute⟩),
  (0x5f, ⟨"LSE", .absoluteX, lse readAddrAbsoluteX⟩),
  (0x5b, ⟨"LSE", .absoluteY, lse readAddrAbsoluteY⟩),
  (0x47, ⟨"LSE", .zeroPage, lse readAddrZeroPage⟩),
  (0x57, ⟨"LSE", .zeroPageX, lse readAddrZeroPageX⟩),
  (0x43, ⟨"LSE", .zeroPageXIndirect, lse readAddrZeroPageXIndirect⟩),
  (0x53, ⟨"LSE", .zeroPageIndirectY, lse readAddrZeroPageIndirectY⟩),
  (0x6f, ⟨"RRA", .absolute, rra readAddrAbsolute⟩),
  (0x7f, ⟨"RRA", .absoluteX, rra readAddrAbsoluteX⟩),
  (0x7b, ⟨"RRA", .absoluteY, rra readAddrAbsoluteY⟩),
  (0x67, ⟨"RRA", .zeroPage, rra readAddrZeroPage⟩),
  (0x77, ⟨"RRA", .zeroPageX, rra readAddrZeroPageX⟩),
  (0x63, ⟨"RRA", .zeroPageXIndirect, rra readAddrZeroPageXIndirect⟩),
  (0x73, ⟨"RRA", .zeroPageIndirectY, rra readAddrZeroPageIndirectY⟩),
  (0x8f, ⟨"AXS", .absolute, axs writeAbsolute⟩),
  (0x87, ⟨"AXS", .zeroPage, axs writeZeroPage⟩),
  (0x97, ⟨"AXS", .zeroPageY, axs writeZeroPageY⟩),
  (0x83, ⟨"AXS", .zeroPageXIndirect, axs writeZeroPageXIndirect⟩)
]

def OPS_NMOS_6502_p1 : List (Nat × Entry) := [
  (0xaf, ⟨"LAX", .absolute, lax readAbsolute⟩),
  (0xbf, ⟨"LAX", .absoluteY, lax readAbsoluteY⟩),
  (0xa7, ⟨"LAX", .zeroPage, lax readZeroPage⟩),
  (0xb7, ⟨"LAX", .zeroPageY, lax readZeroPageY⟩),
  (0xa3, ⟨"LAX", .zeroPageXIndirect, lax readZeroPageXIndirect⟩),
  (0xb3, ⟨"LAX", .zeroPageIndirectY, lax readZeroPageIndirectY⟩),
  (0xcf, ⟨"DCM", .absolute, dcm readAddrAbsolute⟩),
  (0xdf, ⟨"DCM", .absoluteX, dcm readAddrAbsoluteX⟩),
  (0xdb, ⟨"DCM", .absoluteY, dcm readAddrAbsoluteY⟩),
  (0xc7, ⟨"DCM", .zeroPage, dcm readAddrZeroPage⟩),
  (0xd7, ⟨"DCM", .zeroPageX, dcm readAddrZeroPageX⟩),
  (0xc3, ⟨"DCM", .zeroPageXIndirect, dcm readAddrZeroPageXIndirect⟩),
  (0xd3, ⟨"DCM", .zeroPageIndirectY, dcm readAddrZeroPageIndirectY⟩),
  (0xef, ⟨"INS", .absolute, ins readAddrAbsolute⟩),
  (0xff, ⟨"INS", .absoluteX, ins readAddrAbsoluteX⟩),
  (0xfb, ⟨"INS", .absoluteY, ins readAddrAbsoluteY⟩),
  (0xe7, ⟨"INS", .zeroPage, ins readAddrZeroPage⟩),
  (0xf7, ⟨"INS", .zeroPageX, ins readAddrZeroPageX⟩),
  (0xe3, ⟨"INS", .zeroPageXIndirect, ins readAddrZeroPageXIndirect⟩),
  (0xf3, ⟨"INS", .zeroPageIndirectY, ins readAddrZeroPageIndirectY⟩),
  (0x4b, ⟨"ALR", .immediate, alr readImmediate⟩),
  (0x6b, ⟨"ARR", .immediate, arr readImmediate⟩),
  (0x8b, ⟨"XAA", .immediate, xaa readImmediate⟩),
  (0xab, ⟨"OAL", .immediate, oal readImmediate⟩),
  (0xcb, ⟨"SAX", .immediate, sax readImmediate⟩),
  (0x1a, ⟨"NOP", .implied, nop implied⟩),
  (0x3a, ⟨"NOP", .implied, nop implied⟩),
  (0x5a, ⟨"NOP", .implied, nop implied⟩),
  (0x7a, ⟨"NOP", .implied, nop implied⟩),
  (0xda, ⟨"NOP", .implied, nop implied⟩),
  (0xfa, ⟨"NOP", .implied, nop implied⟩),
  (0x80, ⟨"SKB", .immediate, skp readImmediate⟩)
]

def OPS_NMOS_6502_p2 : List (Nat × Entry) := [
  (0x82, ⟨"SKB", .immediate, skp readImmediate⟩),
  (0x89, ⟨"SKB", .immediate, skp readImmediate⟩),
  (0xc2, ⟨"SKB", .immediate, skp readImmediate⟩),
  (0xe2, ⟨"SKB", .immediate, skp readImmediate⟩),
  (0x04, ⟨"SKB", .zeroPage, skp readZeroPage⟩),
  (0x14, ⟨"SKB", .zeroPageX, skp readZeroPageX⟩),
  (0x34, ⟨"SKB", .zeroPageX, skp readZeroPageX⟩),
  (0x44, ⟨"SKB", .zeroPage, skp readZeroPage⟩),
  (0x54, ⟨"SKB", .zeroPageX, skp readZeroPageX⟩),
  (0x64, ⟨"SKB", .zeroPage, skp readZeroPage⟩),
  (0x74, ⟨"SKB", .zeroPageX, skp readZeroPageX⟩),
  (0xd4, ⟨"SKB", .zeroPageX, skp readZeroPageX⟩),
  (0xf4, ⟨"SKB", .zeroPageX, skp readZeroPageX⟩),
  (0x0c, ⟨"SKW", .absolute, skp (readAddrAbsolute false)⟩),
  (0x1c, ⟨"SKW", .absoluteX, skp (readAddrAbsoluteX false)⟩),
  (0x3c, ⟨"SKW", .absoluteX, skp (readAddrAbsoluteX false)⟩),
  (0x5c, ⟨"SKW", .absoluteX, skp (readAddrAbsoluteX false)⟩),
  (0x7c, ⟨"SKW", .absoluteX, skp (readAddrAbsoluteX false)⟩),
  (0xdc, ⟨"SKW", .absoluteX, skp (readAddrAbsoluteX false)⟩),
  (0xfc, ⟨"SKW", .absoluteX, skp (readAddrAbsoluteX false)⟩),
  (0x02, ⟨"HLT", .implied, hlt⟩),
  (0x12, ⟨"HLT", .implied, hlt⟩),
  (0x22, ⟨"HLT", .implied, hlt⟩),
  (0x32, ⟨"HLT", .implied, hlt⟩),
  (0x42, ⟨"HLT", .implied, hlt⟩),
  (0x52, ⟨"HLT", .implied, hlt⟩),
  (0x62, ⟨"HLT", .implied, hlt⟩),
  (0x72, ⟨"HLT", .implied, hlt⟩),
  (0x92, ⟨"HLT", .implied, hlt⟩),
  (0xb2, ⟨"HLT", .implied, hlt⟩),
  (0xd2, ⟨"HLT", .implied, hlt⟩),
  (0xf2, ⟨"HLT", .implied, hlt⟩)
]

def OPS_NMOS_6502_p3 : List (Nat × Entry) := [
  (0x9b, ⟨"TAS", .absoluteY, tas readAddrAbsoluteY⟩),
  (0x9c, ⟨"SAY", .absoluteX, say readAddrAbsoluteX⟩),
  (0x9e, ⟨"XAS", .absoluteY, xas readAddrAbsoluteY⟩),
  (0x9f, ⟨"AXA", .absoluteY, axa readAddrAbsoluteY⟩),
  (0x93, ⟨"AXA", .zeroPageIndirectY, axa readAddrZeroPageIndirectY⟩),
  (0x2b, ⟨"ANC", .immediate, anc readImmediate⟩),
  (0x0b, ⟨"ANC", .immediate, anc readImmediate⟩),
  (0xbb, ⟨"LAS", .absoluteY, las readAbsoluteY⟩),
  (0xeb, ⟨"SBC", .immediate, sbc readImmediate⟩)
]

/-- `OPS_NMOS_6502` of the source (split into parts only to keep
elaboration fast; order preserved). -/
def OPS_NMOS_6502 : List (Nat × Entry) :=
  OPS_NMOS_6502_p0 ++ OPS_NMOS_6502_p1 ++ OPS_NMOS_6502_p2 ++ OPS_NMOS_6502_p3

def OPS_ROCKWELL_65C02 : List (Nat × Entry) := [
  (0xcb, ⟨"NOP", .implied, nop implied⟩),
  (0xdb, ⟨"NOP", .immediate, nopR readZeroPageX⟩)
]

def OPS_WDC_65C02 : List (Nat × Entry) := [
  (0xcb, ⟨"WAI", .implied, wai⟩),
  (0xdb, ⟨"STP", .implied, stp⟩)
]

/-- The composed instruction table of a flavor (the `ops` object the
constructor builds). -/
def composedOps (fl : Flavor) (b : Nat) : Option Entry :=
  match fl with
  | .nmos => (OPS_NMOS_6502.lookup b) <|> (OPS_6502.lookup b)
  | .rockwell =>
      (OPS_ROCKWELL_65C02.lookup b) <|> (OPS_65C02.lookup b) <|> (OPS_6502.lookup b)
  | .wdc =>
      (OPS_WDC_65C02.lookup b) <|> (OPS_65C02.lookup b) <|> (OPS_6502.lookup b)

/-- Modelled from the spec: `toHex` of `src/js/util.ts` is not among the
repository's files; the spec says only that the construction-time error
names the missing opcode in hex, so any faithful hex rendering will do. -/
def toHex (b : Nat) : String := String.mk (Nat.toDigits 16 b)

/-- `unknown(b)`: the 65C02 falls back to a 1-cycle NOP; the NMOS 6502
throws `Missing <hex>`. -/
def unknownOp (fl : Flavor) (b : Nat) : Except String Entry :=
  if fl.is65C02 then Except.ok nopEntry
  else Except.error ("Missing " ++ toHex b)

/-- One slot of the constructor's `opary` fill loop
(`ops[idx] || this.unknown(idx)`), with the NMOS throw as `Except`;
parametrized over the composed table so that "succeeds iff fully
populated" is a statement about the mechanism, not about one table. -/
def buildOp (fl : Flavor) (ops : Nat → Option Entry) (b : Nat) : Except String Entry :=
  match ops b with
  | some e => Except.ok e
  | none => unknownOp fl b

/-- The constructor's fill loop (ascending indexes): the first missing
NMOS slot aborts construction with its error. -/
def buildTable (fl : Flavor) (ops : Nat → Option Entry) : List Nat → Except String (List Entry)
  | [] => Except.ok []
  | b :: rest =>
    match buildOp fl ops b with
    | Except.error e => Except.error e
    | Except.ok entry =>
      match buildTable fl ops rest with
      | Except.error e => Except.error e
      | Except.ok l => Except.ok (entry :: l)

/-- Construction of a CPU of the given flavor: fill all 256 slots. -/
def construct (fl : Flavor) : Except String (List Entry) :=
  buildTable fl (composedOps fl) (List.range 0x100)

/-- The filled dispatch array of a constructed CPU.  For a 65C02 a
missing slot is the 1-cycle NOP, exactly `unknown`; for the NMOS 6502
every slot below 0x100 is populated (proved below), so the default is
never consulted there. -/
def opary (fl : Flavor) (b : Nat) : Entry :=
  (composedOps fl b).getD nopEntry

/-- The body shared by `step`, `stepN`, `stepCycles` and
`stepCyclesDebug`: raise `sync`, fetch the opcode (advancing PC and the
cycle counter), lower `sync`, dispatch. -/
def stepOnce (s : Cpu) : Cpu :=
  let s0 : Cpu := { s with sync := true }
  let b := readBytePC s0
  let instr := opary b.2.flavor b.1
  let s1 : Cpu := { b.2 with opMode := some instr.mode, sync := false }
  instr.fn s1

/-- `stepN(n)` without the (host-supplied) callback. -/
def stepN : Nat → Cpu → Cpu
  | 0, s => s
  | n + 1, s => stepN n (stepOnce s)

/-- The `while (this.cycles < end)` loop of `stepCycles`, with fuel.
Every instruction costs at least the opcode-fetch cycle (proved below),
so fuel `c` makes the fuelled loop exit on exactly the source's
condition. -/
def stepCyclesAux : Nat → Nat → Cpu → Cpu
  | 0, _, s => s
  | fuel + 1, endC, s =>
    if s.cycles < endC then stepCyclesAux fuel endC (stepOnce s) else s

/-- `stepCycles(c)`. -/
def stepCycles (c : Nat) (s : Cpu) : Cpu := stepCyclesAux c (s.cycles + c) s

/-- `stepCyclesDebug(c)` without the callback: the same loop. -/
def stepCyclesDebug (c : Nat) (s : Cpu) : Cpu := stepCyclesAux c (s.cycles + c) s

/-- `irq()`: honoured only when I is clear. -/
def irq (s : Cpu) : Cpu :=
  if s.sr &&& flagI = 0 then
    let s1 := pushWord s.pc s
    let s2 := pushByte (s1.sr &&& jsNot flagB) s1
    let s3 := if s2.flavor.is65C02 then setFlag flagD false s2 else s2
    let s4 := setFlag flagI true s3
    let w := readWord locBRK s4
    { w.2 with pc := w.1, wait := false }
  else s

/-- `nmi()`: always honoured, vector 0xFFFA. -/
def nmi (s : Cpu) : Cpu :=
  let s1 := pushWord s.pc s
  let s2 := pushByte (s1.sr &&& jsNot flagB) s1
  let s3 := if s2.flavor.is65C02 then setFlag flagD false s2 else s2
  let s4 := setFlag flagI true s3
  let w := readWord locNMI s4
  { w.2 with pc := w.1, wait := false }

/-- `reset()` on the CPU state (the reset-handler registry is modelled
separately, with `addPageHandler`). -/
def reset (s : Cpu) : Cpu :=
  let s1 : Cpu := { s with sr := flagX, sp := 0xff, ar := 0, yr := 0, xr := 0 }
  let w := readWord locRESET s1
  { w.2 with pc := w.1, wait := false, stop := false }

/-- The observable state (`CpuState` in the source). -/
structure CpuState where
  /-- Accumulator. -/
  a : Nat
  /-- X index. -/
  x : Nat
  /-- Y index. -/
  y : Nat
  /-- Status register. -/
  s : Nat
  /-- Program counter. -/
  pc : Nat
  /-- Stack pointer. -/
  sp : Nat
  /-- Elapsed cycles. -/
  cycles : Nat

/-- `getState()`. -/
def getState (c : Cpu) : CpuState :=
  ⟨c.ar, c.xr, c.yr, c.sr, c.pc, c.sp, c.cycles⟩

/-- `setState(state)`. -/
def setState (st : CpuState) (c : Cpu) : Cpu :=
  { c with
    ar := st.a, xr := st.x, yr := st.y, sr := st.s,
    pc := st.pc, sp := st.sp, cycles := st.cycles }

/-- The public single-argument `read(addr)` peek: page masked to 8 bits,
offset masked to 8 bits, no cycle accounting. -/
def read (a : Nat) (c : Cpu) : Nat :=
  let page := (a >>> 8) &&& 0xff
  let off := a &&& 0xff
  c.mem (page * 0x100 + off)

/-- The public `write(addr, val)` poke: page, offset and value masked to
8 bits, no cycle accounting. -/
def write (a v : Nat) (c : Cpu) : Cpu :=
  let page := (a >>> 8) &&& 0xff
  let off := a &&& 0xff
  let v1 := v &&& 0xff
  { c with mem := fun x => if x = page * 0x100 + off then v1 else c.mem x }

/-! ## The page-handler registry (`addPageHandler` / `resetHandlers`)

Handlers are identified by an id; `resettable` models
`isResettablePageHandler` (the handler object has a `reset` method). -/

/-- A registered page handler: id, inclusive page range, and whether it
implements `reset()`. -/
structure PageHandler where
  /-- Identity of the handler object. -/
  hid : Nat
  /-- `start()`. -/
  startPage : Nat
  /-- `end()`. -/
  endPage : Nat
  /-- `isResettablePageHandler`. -/
  resettable : Bool
  deriving DecidableEq, Repr

/-- The `memPages` table (page number to handler id) together with the
`resetHandlers` list. -/
structure HandlerMap where
  /-- Which handler owns each page. -/
  pages : Nat → Nat
  /-- `this.resetHandlers`: ids in registration order. -/
  resetHandlers : List Nat

/-- `addPageHandler`: install the handler on every page of its range;
push it onto `resetHandlers` whenever it is resettable. -/
def addPageHandler (h : PageHandler) (m : HandlerMap) : HandlerMap :=
  { pages := fun p =>
      if h.startPage ≤ p ∧ p ≤ h.endPage then h.hid else m.pages p
    resetHandlers :=
      if h.resettable then m.resetHandlers ++ [h.hid] else m.resetHandlers }

/-- The `reset()` loop over `resetHandlers`: the handler ids whose
`reset()` is invoked, in invocation order. -/
def resetInvocations (m : HandlerMap) : List Nat := m.resetHandlers

/-- A fresh `HandlerMap` (all pages on the blank handler, id 0). -/
def emptyHandlerMap : HandlerMap := ⟨fun _ => 0, []⟩

/-! ## Invariants

Two families of properties are proved for every function of the engine:

* *cycle accounting* (`CDt`/`CDv`): across the function, the cycle
  counter and the ghost page-handler access counter advance by the same
  amount (and never decrease) — i.e. the only thing that moves `cycles`
  is a page-handler read or write, which moves it by exactly one;
* *wait obliviousness* (`WPush`/`WPushV`): the function never reads the
  `wait` latch, so its behavior is unchanged when the latch is forced to
  any value (only `wai` itself writes the latch and gets the weaker
  `WIe`). -/

/-- Force the `wait` latch. -/
def setWait (b : Bool) (s : Cpu) : Cpu := { s with wait := b }

/-- Cycle accounting for a state transformer. -/
def CDt (f : Cpu → Cpu) : Prop :=
  ∀ s, (f s).cycles + s.accesses = (f s).accesses + s.cycles ∧
    s.cycles ≤ (f s).cycles

/-- Cycle accounting for a value-returning function. -/
def CDv {α : Type} (f : Cpu → α × Cpu) : Prop :=
  ∀ s, ((f s).2).cycles + s.accesses = ((f s).2).accesses + s.cycles ∧
    s.cycles ≤ ((f s).2).cycles

/-- Wait obliviousness for a state transformer. -/
def WPush (f : Cpu → Cpu) : Prop :=
  ∀ s b, f (setWait b s) = setWait b (f s)

/-- Wait obliviousness for a value-returning function. -/
def WPushV {α : Type} (f : Cpu → α × Cpu) : Prop :=
  ∀ s b, f (setWait b s) = ((f s).1, setWait b (f s).2)

/-- How the `wait` latch interacts with an instruction: the rest of the
state is computed as if the latch were clear, and the outgoing latch is
the incoming one *or*-ed with whatever the instruction itself sets. -/
def WIe (f : Cpu → Cpu) : Prop :=
  ∀ s b, f (setWait b s) = setWait (b || (f (setWait false s)).wait) (f (setWait false s))

@[simp] theorem setWait_flavor (b : Bool) (s : Cpu) : (setWait b s).flavor = s.flavor := rfl
@[simp] theorem setWait_pc (b : Bool) (s : Cpu) : (setWait b s).pc = s.pc := rfl
@[simp] theorem setWait_sr (b : Bool) (s : Cpu) : (setWait b s).sr = s.sr := rfl
@[simp] theorem setWait_ar (b : Bool) (s : Cpu) : (setWait b s).ar = s.ar := rfl
@[simp] theorem setWait_xr (b : Bool) (s : Cpu) : (setWait b s).xr = s.xr := rfl
@[simp] theorem setWait_yr (b : Bool) (s : Cpu) : (setWait b s).yr = s.yr := rfl
@[simp] theorem setWait_sp (b : Bool) (s : Cpu) : (setWait b s).sp = s.sp := rfl
@[simp] theorem setWait_addr (b : Bool) (s : Cpu) : (setWait b s).addr = s.addr := rfl
@[simp] theorem setWait_opMode (b : Bool) (s : Cpu) : (setWait b s).opMode = s.opMode := rfl
@[simp] theorem setWait_mem (b : Bool) (s : Cpu) : (setWait b s).mem = s.mem := rfl
@[simp] theorem setWait_cycles (b : Bool) (s : Cpu) : (setWait b s).cycles = s.cycles := rfl
@[simp] theorem setWait_accesses (b : Bool) (s : Cpu) : (setWait b s).accesses = s.accesses := rfl
@[simp] theorem setWait_sync (b : Bool) (s : Cpu) : (setWait b s).sync = s.sync := rfl
@[simp] theorem setWait_stop (b : Bool) (s : Cpu) : (setWait b s).stop = s.stop := rfl
@[simp] theorem setWait_wait (b : Bool) (s : Cpu) : (setWait b s).wait = b := rfl

@[simp] theorem setWait_setWait (b c : Bool) (s : Cpu) :
    setWait b (setWait c s) = setWait b s := rfl

theorem setWait_self (s : Cpu) : setWait s.wait s = s := rfl

/-- `WPush` implies the dispatch-level wait law. -/
theorem wie_of_wpush {f : Cpu → Cpu} (h : WPush f) : WIe f := by
  intro s b
  have h0 := h s b
  have h1 := h s false
  rw [h0, h1]
  simp

/-! ### Cycle accounting of the primitives -/

@[simp] theorem readByte_cycles (a : Nat) (s : Cpu) :
    ((readByte a s).2).cycles = s.cycles + 1 := rfl
@[simp] theorem readByte_accesses (a : Nat) (s : Cpu) :
    ((readByte a s).2).accesses = s.accesses + 1 := rfl
@[simp] theorem writeByte_cycles (a v : Nat) (s : Cpu) :
    (writeByte a v s).cycles = s.cycles + 1 := rfl
@[simp] theorem writeByte_accesses (a v : Nat) (s : Cpu) :
    (writeByte a v s).accesses = s.accesses + 1 := rfl
@[simp] theorem readBytePC_cycles (s : Cpu) :
    ((readBytePC s).2).cycles = s.cycles + 1 := rfl
@[simp] theorem readBytePC_accesses (s : Cpu) :
    ((readBytePC s).2).accesses = s.accesses + 1 := rfl
@[simp] theorem readWord_cycles (a : Nat) (s : Cpu) :
    ((readWord a s).2).cycles = s.cycles + 2 := rfl
@[simp] theorem readWord_accesses (a : Nat) (s : Cpu) :
    ((readWord a s).2).accesses = s.accesses + 2 := rfl
@[simp] theorem readWordPC_cycles (s : Cpu) :
    ((readWordPC s).2).cycles = s.cycles + 2 := rfl
@[simp] theorem readWordPC_accesses (s : Cpu) :
    ((readWordPC s).2).accesses = s.accesses + 2 := rfl
@[simp] theorem readZPWord_cycles (a : Nat) (s : Cpu) :
    ((readZPWord a s).2).cycles = s.cycles + 2 := rfl
@[simp] theorem readZPWord_accesses (a : Nat) (s : Cpu) :
    ((readZPWord a s).2).accesses = s.accesses + 2 := rfl
@[simp] theorem pushByte_cycles (v : Nat) (s : Cpu) :
    (pushByte v s).cycles = s.cycles + 1 := rfl
@[simp] theorem pushByte_accesses (v : Nat) (s : Cpu) :
    (pushByte v s).accesses = s.accesses + 1 := rfl
@[simp] theorem pushWord_cycles (v : Nat) (s : Cpu) :
    (pushWord v s).cycles = s.cycles + 2 := rfl
@[simp] theorem pushWord_accesses (v : Nat) (s : Cpu) :
    (pushWord v s).accesses = s.accesses + 2 := rfl
@[simp] theorem pullByte_cycles (s : Cpu) :
    ((pullByte s).2).cycles = s.cycles + 1 := rfl
@[simp] theorem pullByte_accesses (s : Cpu) :
    ((pullByte s).2).accesses = s.accesses + 1 := rfl
@[simp] theorem pullWordRaw_cycles (s : Cpu) :
    ((pullWordRaw s).2).cycles = s.cycles + 2 := rfl
@[simp] theorem pullWordRaw_accesses (s : Cpu) :
    ((pullWordRaw s).2).accesses = s.accesses + 2 := rfl
@[simp] theorem workCycle_cycles (a v : Nat) (s : Cpu) :
    (workCycle a v s).cycles = s.cycles + 1 := by
  unfold workCycle; split <;> rfl
@[simp] theorem workCycle_accesses (a v : Nat) (s : Cpu) :
    (workCycle a v s).accesses = s.accesses + 1 := by
  unfold workCycle; split <;> rfl
@[simp] theorem workCycleIndexedWrite_cycles (pc a ai : Nat) (s : Cpu) :
    (workCycleIndexedWrite pc a ai s).cycles = s.cycles + 1 := by
  unfold workCycleIndexedWrite; split <;> rfl
@[simp] theorem workCycleIndexedWrite_accesses (pc a ai : Nat) (s : Cpu) :
    (workCycleIndexedWrite pc a ai s).accesses = s.accesses + 1 := by
  unfold workCycleIndexedWrite; split <;> rfl
@[simp] theorem workCycleIndexedRead_cycles (pc a ai : Nat) (s : Cpu) :
    (workCycleIndexedRead pc a ai s).cycles =
      s.cycles + if ai &&& 0xff00 ≠ a &&& 0xff00 then 1 else 0 := by
  unfold workCycleIndexedRead; dsimp only; split_ifs <;> rfl
@[simp] theorem workCycleIndexedRead_accesses (pc a ai : Nat) (s : Cpu) :
    (workCycleIndexedRead pc a ai s).accesses =
      s.accesses + if ai &&& 0xff00 ≠ a &&& 0xff00 then 1 else 0 := by
  unfold workCycleIndexedRead; dsimp only; split_ifs <;> rfl
@[simp] theorem setFlag_cycles (f : Nat) (b : Bool) (s : Cpu) :
    (setFlag f b s).cycles = s.cycles := rfl
@[simp] theorem setFlag_accesses (f : Nat) (b : Bool) (s : Cpu) :
    (setFlag f b s).accesses = s.accesses := rfl
@[simp] theorem testNZ_cycles (v : Nat) (s : Cpu) :
    (testNZ v s).cycles = s.cycles := rfl
@[simp] theorem testNZ_accesses (v : Nat) (s : Cpu) :
    (testNZ v s).accesses = s.accesses := rfl
@[simp] theorem testZ_cycles (v : Nat) (s : Cpu) :
    (testZ v s).cycles = s.cycles := rfl
@[simp] theorem testZ_accesses (v : Nat) (s : Cpu) :
    (testZ v s).accesses = s.accesses := rfl
@[simp] theorem bcdRead_cycles (sub : Bool) (s : Cpu) :
    (bcdRead sub s).cycles = s.cycles + 1 := by
  unfold bcdRead; split_ifs <;> rfl
@[simp] theorem bcdRead_accesses (sub : Bool) (s : Cpu) :
    (bcdRead sub s).accesses = s.accesses + 1 := by
  unfold bcdRead; split_ifs <;> rfl
@[simp] theorem increment_cycles (a : Nat) (s : Cpu) :
    ((increment a s).2).cycles = s.cycles := rfl
@[simp] theorem increment_accesses (a : Nat) (s : Cpu) :
    ((increment a s).2).accesses = s.accesses := rfl
@[simp] theorem decrement_cycles (a : Nat) (s : Cpu) :
    ((decrement a s).2).cycles = s.cycles := rfl
@[simp] theorem decrement_accesses (a : Nat) (s : Cpu) :
    ((decrement a s).2).accesses = s.accesses := rfl
@[simp] theorem shiftLeft_cycles (v : Nat) (s : Cpu) :
    ((shiftLeft v s).2).cycles = s.cycles := rfl
@[simp] theorem shiftLeft_accesses (v : Nat) (s : Cpu) :
    ((shiftLeft v s).2).accesses = s.accesses := rfl
@[simp] theorem shiftRight_cycles (v : Nat) (s : Cpu) :
    ((shiftRight v s).2).cycles = s.cycles := rfl
@[simp] theorem shiftRight_accesses (v : Nat) (s : Cpu) :
    ((shiftRight v s).2).accesses = s.accesses := rfl
@[simp] theorem rotateLeft_cycles (v : Nat) (s : Cpu) :
    ((rotateLeft v s).2).cycles = s.cycles := rfl
@[simp] theorem rotateLeft_accesses (v : Nat) (s : Cpu) :
    ((rotateLeft v s).2).accesses = s.accesses := rfl
@[simp] theorem rotateRight_cycles (v : Nat) (s : Cpu) :
    ((rotateRight v s).2).cycles = s.cycles := rfl
@[simp] theorem rotateRight_accesses (v : Nat) (s : Cpu) :
    ((rotateRight v s).2).accesses = s.accesses := rfl
@[simp] theorem compare_cycles (a b : Nat) (s : Cpu) :
    (compare a b s).cycles = s.cycles := rfl
@[simp] theorem compare_accesses (a b : Nat) (s : Cpu) :
    (compare a b s).accesses = s.accesses := rfl

/-- Cycle accounting of `add`: one extra handler read on the 65C02 BCD
path, none otherwise. -/
@[simp] theorem add_cycles (a b : Nat) (sub : Bool) (s : Cpu) :
    ((add a b sub s).2).cycles =
      s.cycles + if s.sr &&& flagD ≠ 0 ∧ s.flavor.is65C02 = true then 1 else 0 := by
  unfold add; dsimp only; split_ifs <;> simp_all

@[simp] theorem add_accesses (a b : Nat) (sub : Bool) (s : Cpu) :
    ((add a b sub s).2).accesses =
      s.accesses + if s.sr &&& flagD ≠ 0 ∧ s.flavor.is65C02 = true then 1 else 0 := by
  unfold add; dsimp only; split_ifs <;> simp_all

/-! ### Wait obliviousness of the primitives -/

@[simp] theorem readByte_setWait (a : Nat) (b : Bool) (s : Cpu) :
    readByte a (setWait b s) = ((readByte a s).1, setWait b (readByte a s).2) := rfl
@[simp] theorem writeByte_setWait (a v : Nat) (b : Bool) (s : Cpu) :
    writeByte a v (setWait b s) = setWait b (writeByte a v s) := rfl
@[simp] theorem readBytePC_setWait (b : Bool) (s : Cpu) :
    readBytePC (setWait b s) = ((readBytePC s).1, setWait b (readBytePC s).2) := rfl
@[simp] theorem readWord_setWait (a : Nat) (b : Bool) (s : Cpu) :
    readWord a (setWait b s) = ((readWord a s).1, setWait b (readWord a s).2) := rfl
@[simp] theorem readWordPC_setWait (b : Bool) (s : Cpu) :
    readWordPC (setWait b s) = ((readWordPC s).1, setWait b (readWordPC s).2) := rfl
@[simp] theorem readZPWord_setWait (a : Nat) (b : Bool) (s : Cpu) :
    readZPWord a (setWait b s) = ((readZPWord a s).1, setWait b (readZPWord a s).2) := rfl
@[simp] theorem pushByte_setWait (v : Nat) (b : Bool) (s : Cpu) :
    pushByte v (setWait b s) = setWait b (pushByte v s) := rfl
@[simp] theorem pushWord_setWait (v : Nat) (b : Bool) (s : Cpu) :
    pushWord v (setWait b s) = setWait b (pushWord v s) := rfl
@[simp] theorem pullByte_setWait (b : Bool) (s : Cpu) :
    pullByte (setWait b s) = ((pullByte s).1, setWait b (pullByte s).2) := rfl
@[simp] theorem pullWordRaw_setWait (b : Bool) (s : Cpu) :
    pullWordRaw (setWait b s) = ((pullWordRaw s).1, setWait b (pullWordRaw s).2) := rfl
@[simp] theorem workCycle_setWait (a v : Nat) (b : Bool) (s : Cpu) :
    workCycle a v (setWait b s) = setWait b (workCycle a v s) := by
  unfold workCycle; simp only [setWait_flavor]; split <;> rfl
@[simp] theorem workCycleIndexedWrite_setWait (pc a ai : Nat) (b : Bool) (s : Cpu) :
    workCycleIndexedWrite pc a ai (setWait b s) =
      setWait b (workCycleIndexedWrite pc a ai s) := by
  unfold workCycleIndexedWrite; simp only [setWait_flavor]; split <;> rfl
@[simp] theorem workCycleIndexedRead_setWait (pc a ai : Nat) (b : Bool) (s : Cpu) :
    workCycleIndexedRead pc a ai (setWait b s) =
      setWait b (workCycleIndexedRead pc a ai s) := by
  unfold workCycleIndexedRead; simp only [setWait_flavor]
  split_ifs <;> rfl
@[simp] theorem setFlag_setWait (f : Nat) (c : Bool) (b : Bool) (s : Cpu) :
    setFlag f c (setWait b s) = setWait b (setFlag f c s) := rfl
@[simp] theorem testNZ_setWait (v : Nat) (b : Bool) (s : Cpu) :
    testNZ v (setWait b s) = setWait b (testNZ v s) := rfl
@[simp] theorem testZ_setWait (v : Nat) (b : Bool) (s : Cpu) :
    testZ v (setWait b s) = setWait b (testZ v s) := rfl
@[simp] theorem bcdRead_setWait (sub : Bool) (b : Bool) (s : Cpu) :
    bcdRead sub (setWait b s) = setWait b (bcdRead sub s) := by
  unfold bcdRead; simp only [setWait_opMode, setWait_flavor]
  split_ifs <;> rfl
@[simp] theorem add_setWait (a c : Nat) (sub : Bool) (b : Bool) (s : Cpu) :
    add a c sub (setWait b s) = ((add a c sub s).1, setWait b (add a c sub s).2) := by
  unfold add
  simp only [setWait_sr, setWait_flavor]
  split_ifs <;>
    simp only [bcdRead_setWait, setFlag_setWait, setWait_flavor]
@[simp] theorem increment_setWait (a : Nat) (b : Bool) (s : Cpu) :
    increment a (setWait b s) = ((increment a s).1, setWait b (increment a s).2) := rfl
@[simp] theorem decrement_setWait (a : Nat) (b : Bool) (s : Cpu) :
    decrement a (setWait b s) = ((decrement a s).1, setWait b (decrement a s).2) := rfl
@[simp] theorem shiftLeft_setWait (v : Nat) (b : Bool) (s : Cpu) :
    shiftLeft v (setWait b s) = ((shiftLeft v s).1, setWait b (shiftLeft v s).2) := rfl
@[simp] theorem shiftRight_setWait (v : Nat) (b : Bool) (s : Cpu) :
    shiftRight v (setWait b s) = ((shiftRight v s).1, setWait b (shiftRight v s).2) := rfl
@[simp] theorem rotateLeft_setWait (v : Nat) (b : Bool) (s : Cpu) :
    rotateLeft v (setWait b s) = ((rotateLeft v s).1, setWait b (rotateLeft v s).2) := rfl
@[simp] theorem rotateRight_setWait (v : Nat) (b : Bool) (s : Cpu) :
    rotateRight v (setWait b s) = ((rotateRight v s).1, setWait b (rotateRight v s).2) := rfl
@[simp] theorem compare_setWait (a c : Nat) (b : Bool) (s : Cpu) :
    compare a c (setWait b s) = setWait b (compare a c s) := rfl

/-! ### Cycle accounting and wait obliviousness of the mode primitives -/



theorem cdv_readImmediate : CDv readImmediate := by
  intro s; simp [readImmediate] <;> omega

theorem wpv_readImmediate : WPushV readImmediate := by
  intro s b; simp [readImmediate] <;> simp [setWait]

theorem cdv_readAbsolute : CDv readAbsolute := by
  intro s; simp [readAbsolute] <;> omega

theorem wpv_readAbsolute : WPushV readAbsolute := by
  intro s b; simp [readAbsolute] <;> simp [setWait]

theorem cdv_readZeroPage : CDv readZeroPage := by
  intro s; simp [readZeroPage] <;> omega

theorem wpv_readZeroPage : WPushV readZeroPage := by
  intro s b; simp [readZeroPage] <;> simp [setWait]

theorem cdv_readAbsoluteX : CDv readAbsoluteX := by
  intro s; simp [readAbsoluteX] <;> omega

theorem wpv_readAbsoluteX : WPushV readAbsoluteX := by
  intro s b; simp [readAbsoluteX] <;> simp [setWait]

theorem cdv_readAbsoluteY : CDv readAbsoluteY := by
  intro s; simp [readAbsoluteY] <;> omega

theorem wpv_readAbsoluteY : WPushV readAbsoluteY := by
  intro s b; simp [readAbsoluteY] <;> simp [setWait]

theorem cdv_readZeroPageX : CDv readZeroPageX := by
  intro s; simp [readZeroPageX] <;> omega

theorem wpv_readZeroPageX : WPushV readZeroPageX := by
  intro s b; simp [readZeroPageX] <;> simp [setWait]

theorem cdv_readZeroPageY : CDv readZeroPageY := by
  intro s; simp [readZeroPageY] <;> omega

theorem wpv_readZeroPageY : WPushV readZeroPageY := by
  intro s b; simp [readZeroPageY] <;> simp [setWait]

theorem cdv_readZeroPageXIndirect : CDv readZeroPageXIndirect := by
  intro s; simp [readZeroPageXIndirect] <;> omega

theorem wpv_readZeroPageXIndirect : WPushV readZeroPageXIndirect := by
  intro s b; simp [readZeroPageXIndirect] <;> simp [setWait]

theorem cdv_readZeroPageIndirectY : CDv readZeroPageIndirectY := by
  intro s; simp [readZeroPageIndirectY] <;> omega

theorem wpv_readZeroPageIndirectY : WPushV readZeroPageIndirectY := by
  intro s b; simp [readZeroPageIndirectY] <;> simp [setWait]

theorem cdv_readZeroPageIndirect : CDv readZeroPageIndirect := by
  intro s; simp [readZeroPageIndirect] <;> omega

theorem wpv_readZeroPageIndirect : WPushV readZeroPageIndirect := by
  intro s b; simp [readZeroPageIndirect] <;> simp [setWait]

theorem cdt_writeAbsolute (v : Nat) : CDt (writeAbsolute v) := by
  intro s; simp [writeAbsolute] <;> omega

theorem wp_writeAbsolute (v : Nat) : WPush (writeAbsolute v) := by
  intro s b; simp [writeAbsolute] <;> simp [setWait]

theorem cdt_writeZeroPage (v : Nat) : CDt (writeZeroPage v) := by
  intro s; simp [writeZeroPage] <;> omega

theorem wp_writeZeroPage (v : Nat) : WPush (writeZeroPage v) := by
  intro s b; simp [writeZeroPage] <;> simp [setWait]

theorem cdt_writeAbsoluteX (v : Nat) : CDt (writeAbsoluteX v) := by
  intro s; simp [writeAbsoluteX] <;> omega

theorem wp_writeAbsoluteX (v : Nat) : WPush (writeAbsoluteX v) := by
  intro s b; simp [writeAbsoluteX] <;> simp [setWait]

theorem cdt_writeAbsoluteY (v : Nat) : CDt (writeAbsoluteY v) := by
  intro s; simp [writeAbsoluteY] <;> omega

theorem wp_writeAbsoluteY (v : Nat) : WPush (writeAbsoluteY v) := by
  intro s b; simp [writeAbsoluteY] <;> simp [setWait]

theorem cdt_writeZeroPageX (v : Nat) : CDt (writeZeroPageX v) := by
  intro s; simp [writeZeroPageX] <;> omega

theorem wp_writeZeroPageX (v : Nat) : WPush (writeZeroPageX v) := by
  intro s b; simp [writeZeroPageX] <;> simp [setWait]

theorem cdt_writeZeroPageY (v : Nat) : CDt (writeZeroPageY v) := by
  intro s; simp [writeZeroPageY] <;> omega

theorem wp_writeZeroPageY (v : Nat) : WPush (writeZeroPageY v) := by
  intro s b; simp [writeZeroPageY] <;> simp [setWait]

theorem cdt_writeZeroPageXIndirect (v : Nat) : CDt (writeZeroPageXIndirect v) := by
  intro s; simp [writeZeroPageXIndirect] <;> omega

theorem wp_writeZeroPageXIndirect (v : Nat) : WPush (writeZeroPageXIndirect v) := by
  intro s b; simp [writeZeroPageXIndirect] <;> simp [setWait]

theorem cdt_writeZeroPageIndirectY (v : Nat) : CDt (writeZeroPageIndirectY v) := by
  intro s; simp [writeZeroPageIndirectY] <;> omega

theorem wp_writeZeroPageIndirectY (v : Nat) : WPush (writeZeroPageIndirectY v) := by
  intro s b; simp [writeZeroPageIndirectY] <;> simp [setWait]

theorem cdt_writeZeroPageIndirect (v : Nat) : CDt (writeZeroPageIndirect v) := by
  intro s; simp [writeZeroPageIndirect] <;> omega

theorem wp_writeZeroPageIndirect (v : Nat) : WPush (writeZeroPageIndirect v) := by
  intro s b; simp [writeZeroPageIndirect] <;> simp [setWait]

theorem cdv_readAddrZeroPage (inc : Bool) : CDv (readAddrZeroPage inc) := by
  intro s; simp [readAddrZeroPage] <;> omega

theorem wpv_readAddrZeroPage (inc : Bool) : WPushV (readAddrZeroPage inc) := by
  intro s b; simp [readAddrZeroPage] <;> simp [setWait]

theorem cdv_readAddrZeroPageX (inc : Bool) : CDv (readAddrZeroPageX inc) := by
  intro s; simp [readAddrZeroPageX] <;> omega

theorem wpv_readAddrZeroPageX (inc : Bool) : WPushV (readAddrZeroPageX inc) := by
  intro s b; simp [readAddrZeroPageX] <;> simp [setWait]

theorem cdv_readAddrAbsolute (inc : Bool) : CDv (readAddrAbsolute inc) := by
  intro s; simp [readAddrAbsolute] <;> omega

theorem wpv_readAddrAbsolute (inc : Bool) : WPushV (readAddrAbsolute inc) := by
  intro s b; simp [readAddrAbsolute] <;> simp [setWait]

theorem cdv_readAddrAbsoluteIndirectBug (inc : Bool) : CDv (readAddrAbsoluteIndirectBug inc) := by
  intro s; simp [readAddrAbsoluteIndirectBug] <;> omega

theorem wpv_readAddrAbsoluteIndirectBug (inc : Bool) : WPushV (readAddrAbsoluteIndirectBug inc) := by
  intro s b; simp [readAddrAbsoluteIndirectBug] <;> simp [setWait]

theorem cdv_readAddrAbsoluteIndirect (inc : Bool) : CDv (readAddrAbsoluteIndirect inc) := by
  intro s; simp [readAddrAbsoluteIndirect] <;> omega

theorem wpv_readAddrAbsoluteIndirect (inc : Bool) : WPushV (readAddrAbsoluteIndirect inc) := by
  intro s b; simp [readAddrAbsoluteIndirect] <;> simp [setWait]

theorem cdv_readAddrAbsoluteX (inc : Bool) : CDv (readAddrAbsoluteX inc) := by
  intro s; unfold readAddrAbsoluteX; dsimp only; split_ifs <;> simp <;> omega

theorem wpv_readAddrAbsoluteX (inc : Bool) : WPushV (readAddrAbsoluteX inc) := by
  intro s b; simp [readAddrAbsoluteX]; split_ifs <;> rfl

theorem cdv_readAddrAbsoluteY (inc : Bool) : CDv (readAddrAbsoluteY inc) := by
  intro s; simp [readAddrAbsoluteY] <;> omega

theorem wpv_readAddrAbsoluteY (inc : Bool) : WPushV (readAddrAbsoluteY inc) := by
  intro s b; simp [readAddrAbsoluteY] <;> simp [setWait]

theorem cdv_readAddrZeroPageXIndirect (inc : Bool) : CDv (readAddrZeroPageXIndirect inc) := by
  intro s; simp [readAddrZeroPageXIndirect] <;> omega

theorem wpv_readAddrZeroPageXIndirect (inc : Bool) : WPushV (readAddrZeroPageXIndirect inc) := by
  intro s b; simp [readAddrZeroPageXIndirect] <;> simp [setWait]

theorem cdv_readAddrZeroPageIndirectY (inc : Bool) : CDv (readAddrZeroPageIndirectY inc) := by
  intro s; simp [readAddrZeroPageIndirectY] <;> omega

theorem wpv_readAddrZeroPageIndirectY (inc : Bool) : WPushV (readAddrZeroPageIndirectY inc) := by
  intro s b; simp [readAddrZeroPageIndirectY] <;> simp [setWait]

theorem cdv_readAddrAbsoluteXIndirect (inc : Bool) : CDv (readAddrAbsoluteXIndirect inc) := by
  intro s; simp [readAddrAbsoluteXIndirect] <;> omega

theorem wpv_readAddrAbsoluteXIndirect (inc : Bool) : WPushV (readAddrAbsoluteXIndirect inc) := by
  intro s b; simp [readAddrAbsoluteXIndirect] <;> simp [setWait]

theorem cdt_implied : CDt implied := by
  intro s; simp [implied] <;> omega

theorem wp_implied : WPush implied := by
  intro s b; simp [implied] <;> simp [setWait]

theorem cdt_readNop : CDt readNop := by
  intro s; simp [readNop] <;> omega

theorem wp_readNop : WPush readNop := by
  intro s b; simp [readNop] <;> simp [setWait]

theorem cdt_readNopImplied : CDt readNopImplied := by
  intro s; unfold readNopImplied; exact ⟨by omega, le_rfl⟩

theorem wp_readNopImplied : WPush readNopImplied := by
  intro s b; rfl

/-! ### Cycle accounting and wait obliviousness of the instruction semantics -/



theorem cdt_lda (rd : ReadFn) (h : CDv rd) : CDt (lda rd) := by
  intro s; have h1 := h s; simp [lda] <;> omega

theorem wp_lda (rd : ReadFn) (hw : WPushV rd) : WPush (lda rd) := by
  have hw' : ∀ s b, rd (setWait b s) = ((rd s).1, setWait b (rd s).2) := hw
  intro s b; simp [lda, hw'] <;> simp [setWait]

theorem cdt_ldx (rd : ReadFn) (h : CDv rd) : CDt (ldx rd) := by
  intro s; have h1 := h s; simp [ldx] <;> omega

theorem wp_ldx (rd : ReadFn) (hw : WPushV rd) : WPush (ldx rd) := by
  have hw' : ∀ s b, rd (setWait b s) = ((rd s).1, setWait b (rd s).2) := hw
  intro s b; simp [ldx, hw'] <;> simp [setWait]

theorem cdt_ldy (rd : ReadFn) (h : CDv rd) : CDt (ldy rd) := by
  intro s; have h1 := h s; simp [ldy] <;> omega

theorem wp_ldy (rd : ReadFn) (hw : WPushV rd) : WPush (ldy rd) := by
  have hw' : ∀ s b, rd (setWait b s) = ((rd s).1, setWait b (rd s).2) := hw
  intro s b; simp [ldy, hw'] <;> simp [setWait]

theorem cdt_andA (rd : ReadFn) (h : CDv rd) : CDt (andA rd) := by
  intro s; have h1 := h s; simp [andA] <;> omega

theorem wp_andA (rd : ReadFn) (hw : WPushV rd) : WPush (andA rd) := by
  have hw' : ∀ s b, rd (setWait b s) = ((rd s).1, setWait b (rd s).2) := hw
  intro s b; simp [andA, hw'] <;> simp [setWait]

theorem cdt_ora (rd : ReadFn) (h : CDv rd) : CDt (ora rd) := by
  intro s; have h1 := h s; simp [ora] <;> omega

theorem wp_ora (rd : ReadFn) (hw : WPushV rd) : WPush (ora rd) := by
  have hw' : ∀ s b, rd (setWait b s) = ((rd s).1, setWait b (rd s).2) := hw
  intro s b; simp [ora, hw'] <;> simp [setWait]

theorem cdt_eor (rd : ReadFn) (h : CDv rd) : CDt (eor rd) := by
  intro s; have h1 := h s; simp [eor] <;> omega

theorem wp_eor (rd : ReadFn) (hw : WPushV rd) : WPush (eor rd) := by
  have hw' : ∀ s b, rd (setWait b s) = ((rd s).1, setWait b (rd s).2) := hw
  intro s b; simp [eor, hw'] <;> simp [setWait]

theorem cdt_bit (rd : ReadFn) (h : CDv rd) : CDt (bit rd) := by
  intro s; have h1 := h s; simp [bit] <;> omega

theorem wp_bit (rd : ReadFn) (hw : WPushV rd) : WPush (bit rd) := by
  have hw' : ∀ s b, rd (setWait b s) = ((rd s).1, setWait b (rd s).2) := hw
  intro s b; simp [bit, hw'] <;> simp [setWait]

theorem cdt_bitI (rd : ReadFn) (h : CDv rd) : CDt (bitI rd) := by
  intro s; have h1 := h s; simp [bitI] <;> omega

theorem wp_bitI (rd : ReadFn) (hw : WPushV rd) : WPush (bitI rd) := by
  have hw' : ∀ s b, rd (setWait b s) = ((rd s).1, setWait b (rd s).2) := hw
  intro s b; simp [bitI, hw'] <;> simp [setWait]

theorem cdt_cmp (rd : ReadFn) (h : CDv rd) : CDt (cmp rd) := by
  intro s; have h1 := h s; simp [cmp] <;> omega

theorem wp_cmp (rd : ReadFn) (hw : WPushV rd) : WPush (cmp rd) := by
  have hw' : ∀ s b, rd (setWait b s) = ((rd s).1, setWait b (rd s).2) := hw
  intro s b; simp [cmp, hw'] <;> simp [setWait]

theorem cdt_cpx (rd : ReadFn) (h : CDv rd) : CDt (cpx rd) := by
  intro s; have h1 := h s; simp [cpx] <;> omega

theorem wp_cpx (rd : ReadFn) (hw : WPushV rd) : WPush (cpx rd) := by
  have hw' : ∀ s b, rd (setWait b s) = ((rd s).1, setWait b (rd s).2) := hw
  intro s b; simp [cpx, hw'] <;> simp [setWait]

theorem cdt_cpy (rd : ReadFn) (h : CDv rd) : CDt (cpy rd) := by
  intro s; have h1 := h s; simp [cpy] <;> omega

theorem wp_cpy (rd : ReadFn) (hw : WPushV rd) : WPush (cpy rd) := by
  have hw' : ∀ s b, rd (setWait b s) = ((rd s).1, setWait b (rd s).2) := hw
  intro s b; simp [cpy, hw'] <;> simp [setWait]

theorem cdt_lax (rd : ReadFn) (h : CDv rd) : CDt (lax rd) := by
  intro s; have h1 := h s; simp [lax] <;> omega

theorem wp_lax (rd : ReadFn) (hw : WPushV rd) : WPush (lax rd) := by
  have hw' : ∀ s b, rd (setWait b s) = ((rd s).1, setWait b (rd s).2) := hw
  intro s b; simp [lax, hw'] <;> simp [setWait]

theorem cdt_alr (rd : ReadFn) (h : CDv rd) : CDt (alr rd) := by
  intro s; have h1 := h s; simp [alr] <;> omega

theorem wp_alr (rd : ReadFn) (hw : WPushV rd) : WPush (alr rd) := by
  have hw' : ∀ s b, rd (setWait b s) = ((rd s).1, setWait b (rd s).2) := hw
  intro s b; simp [alr, hw'] <;> simp [setWait]

theorem cdt_xaa (rd : ReadFn) (h : CDv rd) : CDt (xaa rd) := by
  intro s; have h1 := h s; simp [xaa] <;> omega

theorem wp_xaa (rd : ReadFn) (hw : WPushV rd) : WPush (xaa rd) := by
  have hw' : ∀ s b, rd (setWait b s) = ((rd s).1, setWait b (rd s).2) := hw
  intro s b; simp [xaa, hw'] <;> simp [setWait]

theorem cdt_oal (rd : ReadFn) (h : CDv rd) : CDt (oal rd) := by
  intro s
  have h1 := h { s with ar := s.ar ||| 0xee }
  simp at h1
  simp [oal] <;> omega

theorem wp_oal (rd : ReadFn) (hw : WPushV rd) : WPush (oal rd) := by
  have hw' : ∀ s b, rd (setWait b s) = ((rd s).1, setWait b (rd s).2) := hw
  intro s b
  show (let r := rd (setWait b { s with ar := s.ar ||| 0xee })
        let v := r.2.ar &&& r.1
        ({ testNZ v r.2 with ar := v, xr := v } : Cpu)) = setWait b (oal rd s)
  simp [oal, hw'] <;> simp [setWait] <;> rfl

theorem cdt_sax (rd : ReadFn) (h : CDv rd) : CDt (sax rd) := by
  intro s; have h1 := h s; simp [sax] <;> omega

theorem wp_sax (rd : ReadFn) (hw : WPushV rd) : WPush (sax rd) := by
  have hw' : ∀ s b, rd (setWait b s) = ((rd s).1, setWait b (rd s).2) := hw
  intro s b; simp [sax, hw'] <;> simp [setWait]

theorem cdt_anc (rd : ReadFn) (h : CDv rd) : CDt (anc rd) := by
  intro s; have h1 := h s; simp [anc] <;> omega

theorem wp_anc (rd : ReadFn) (hw : WPushV rd) : WPush (anc rd) := by
  have hw' : ∀ s b, rd (setWait b s) = ((rd s).1, setWait b (rd s).2) := hw
  intro s b; simp [anc, hw'] <;> simp [setWait] <;> rfl

theorem cdt_las (rd : ReadFn) (h : CDv rd) : CDt (las rd) := by
  intro s; have h1 := h s; simp [las] <;> omega

theorem wp_las (rd : ReadFn) (hw : WPushV rd) : WPush (las rd) := by
  have hw' : ∀ s b, rd (setWait b s) = ((rd s).1, setWait b (rd s).2) := hw
  intro s b; simp [las, hw'] <;> simp [setWait]

theorem cdt_nopR (rd : ReadFn) (h : CDv rd) : CDt (nopR rd) := by
  intro s; have h1 := h s; simp [nopR] <;> omega

theorem wp_nopR (rd : ReadFn) (hw : WPushV rd) : WPush (nopR rd) := by
  have hw' : ∀ s b, rd (setWait b s) = ((rd s).1, setWait b (rd s).2) := hw
  intro s b; simp [nopR, hw'] <;> simp [setWait]

theorem cdt_skp (rd : ReadFn) (h : CDv rd) : CDt (skp rd) := by
  intro s; have h1 := h s; simp [skp] <;> omega

theorem wp_skp (rd : ReadFn) (hw : WPushV rd) : WPush (skp rd) := by
  have hw' : ∀ s b, rd (setWait b s) = ((rd s).1, setWait b (rd s).2) := hw
  intro s b; simp [skp, hw'] <;> simp [setWait]

theorem cdt_adc (rd : ReadFn) (h : CDv rd) : CDt (adc rd) := by
  intro s; have h1 := h s; simp [adc] <;> omega

theorem wp_adc (rd : ReadFn) (hw : WPushV rd) : WPush (adc rd) := by
  have hw' : ∀ s b, rd (setWait b s) = ((rd s).1, setWait b (rd s).2) := hw
  intro s b; simp [adc, hw'] <;> simp [setWait]

theorem cdt_sbc (rd : ReadFn) (h : CDv rd) : CDt (sbc rd) := by
  intro s; have h1 := h s; simp [sbc] <;> omega

theorem wp_sbc (rd : ReadFn) (hw : WPushV rd) : WPush (sbc rd) := by
  have hw' : ∀ s b, rd (setWait b s) = ((rd s).1, setWait b (rd s).2) := hw
  intro s b; simp [sbc, hw'] <;> simp [setWait]

theorem cdt_arr (rd : ReadFn) (h : CDv rd) : CDt (arr rd) := by
  intro s; have h1 := h s; unfold arr; dsimp only; split_ifs <;> simp <;> omega

theorem wp_arr (rd : ReadFn) (hw : WPushV rd) : WPush (arr rd) := by
  have hw' : ∀ s b, rd (setWait b s) = ((rd s).1, setWait b (rd s).2) := hw
  intro s b; simp [arr, hw']; split_ifs <;> rfl

theorem cdt_brk (rd : ReadFn) (h : CDv rd) : CDt (brk rd) := by
  intro s; have h1 := h s; unfold brk; dsimp only; split_ifs <;> simp <;> omega

theorem wp_brk (rd : ReadFn) (hw : WPushV rd) : WPush (brk rd) := by
  have hw' : ∀ s b, rd (setWait b s) = ((rd s).1, setWait b (rd s).2) := hw
  intro s b; simp [brk, hw']; split_ifs <;> rfl

theorem cdt_sta (wr : WriteFn) (h : ∀ v, CDt (wr v)) : CDt (sta wr) := by
  intro s; have h1 := h ((0 : Nat)) s; simp [sta] <;> first | exact h _ s | omega

theorem wp_sta (wr : WriteFn) (hw : ∀ v, WPush (wr v)) : WPush (sta wr) := by
  have hw' : ∀ v s b, wr v (setWait b s) = setWait b (wr v s) := hw
  intro s b; simp [sta, hw'] <;> simp [setWait]

theorem cdt_stx (wr : WriteFn) (h : ∀ v, CDt (wr v)) : CDt (stx wr) := by
  intro s; have h1 := h ((0 : Nat)) s; simp [stx] <;> first | exact h _ s | omega

theorem wp_stx (wr : WriteFn) (hw : ∀ v, WPush (wr v)) : WPush (stx wr) := by
  have hw' : ∀ v s b, wr v (setWait b s) = setWait b (wr v s) := hw
  intro s b; simp [stx, hw'] <;> simp [setWait]

theorem cdt_sty (wr : WriteFn) (h : ∀ v, CDt (wr v)) : CDt (sty wr) := by
  intro s; have h1 := h ((0 : Nat)) s; simp [sty] <;> first | exact h _ s | omega

theorem wp_sty (wr : WriteFn) (hw : ∀ v, WPush (wr v)) : WPush (sty wr) := by
  have hw' : ∀ v s b, wr v (setWait b s) = setWait b (wr v s) := hw
  intro s b; simp [sty, hw'] <;> simp [setWait]

theorem cdt_stz (wr : WriteFn) (h : ∀ v, CDt (wr v)) : CDt (stz wr) := by
  intro s; have h1 := h ((0 : Nat)) s; simp [stz] <;> first | exact h _ s | omega

theorem wp_stz (wr : WriteFn) (hw : ∀ v, WPush (wr v)) : WPush (stz wr) := by
  have hw' : ∀ v s b, wr v (setWait b s) = setWait b (wr v s) := hw
  intro s b; simp [stz, hw'] <;> simp [setWait]

theorem cdt_axs (wr : WriteFn) (h : ∀ v, CDt (wr v)) : CDt (axs wr) := by
  intro s; have h1 := h ((0 : Nat)) s; simp [axs] <;> first | exact h _ s | omega

theorem wp_axs (wr : WriteFn) (hw : ∀ v, WPush (wr v)) : WPush (axs wr) := by
  have hw' : ∀ v s b, wr v (setWait b s) = setWait b (wr v s) := hw
  intro s b; simp [axs, hw'] <;> simp [setWait]

theorem cdt_inc (ra : ReadAddrFn) (h : ∀ i, CDv (ra i)) : CDt (inc ra) := by
  intro s; have h1 := h true s; simp [inc] <;> omega

theorem wp_inc (ra : ReadAddrFn) (hw : ∀ i, WPushV (ra i)) : WPush (inc ra) := by
  have hw' : ∀ i s b, ra i (setWait b s) = ((ra i s).1, setWait b (ra i s).2) := hw
  intro s b; simp [inc, hw'] <;> simp [setWait]

theorem cdt_dec (ra : ReadAddrFn) (h : ∀ i, CDv (ra i)) : CDt (dec ra) := by
  intro s; have h1 := h true s; simp [dec] <;> omega

theorem wp_dec (ra : ReadAddrFn) (hw : ∀ i, WPushV (ra i)) : WPush (dec ra) := by
  have hw' : ∀ i s b, ra i (setWait b s) = ((ra i s).1, setWait b (ra i s).2) := hw
  intro s b; simp [dec, hw'] <;> simp [setWait]

theorem cdt_dcm (ra : ReadAddrFn) (h : ∀ i, CDv (ra i)) : CDt (dcm ra) := by
  intro s; have h1 := h true s; simp [dcm] <;> omega

theorem wp_dcm (ra : ReadAddrFn) (hw : ∀ i, WPushV (ra i)) : WPush (dcm ra) := by
  have hw' : ∀ i s b, ra i (setWait b s) = ((ra i s).1, setWait b (ra i s).2) := hw
  intro s b; simp [dcm, hw'] <;> simp [setWait]

theorem cdt_ins (ra : ReadAddrFn) (h : ∀ i, CDv (ra i)) : CDt (ins ra) := by
  intro s; have h1 := h true s; simp [ins] <;> omega

theorem wp_ins (ra : ReadAddrFn) (hw : ∀ i, WPushV (ra i)) : WPush (ins ra) := by
  have hw' : ∀ i s b, ra i (setWait b s) = ((ra i s).1, setWait b (ra i s).2) := hw
  intro s b; simp [ins, hw'] <;> simp [setWait]

theorem cdt_asl (ra : ReadAddrFn) (h : ∀ i, CDv (ra i)) : CDt (asl ra) := by
  intro s; have h1 := h false s; simp [asl] <;> omega

theorem wp_asl (ra : ReadAddrFn) (hw : ∀ i, WPushV (ra i)) : WPush (asl ra) := by
  have hw' : ∀ i s b, ra i (setWait b s) = ((ra i s).1, setWait b (ra i s).2) := hw
  intro s b; simp [asl, hw'] <;> simp [setWait]

theorem cdt_lsr (ra : ReadAddrFn) (h : ∀ i, CDv (ra i)) : CDt (lsr ra) := by
  intro s; have h1 := h false s; simp [lsr] <;> omega

theorem wp_lsr (ra : ReadAddrFn) (hw : ∀ i, WPushV (ra i)) : WPush (lsr ra) := by
  have hw' : ∀ i s b, ra i (setWait b s) = ((ra i s).1, setWait b (ra i s).2) := hw
  intro s b; simp [lsr, hw'] <;> simp [setWait]

theorem cdt_rol (ra : ReadAddrFn) (h : ∀ i, CDv (ra i)) : CDt (rol ra) := by
  intro s; have h1 := h false s; simp [rol] <;> omega

theorem wp_rol (ra : ReadAddrFn) (hw : ∀ i, WPushV (ra i)) : WPush (rol ra) := by
  have hw' : ∀ i s b, ra i (setWait b s) = ((ra i s).1, setWait b (ra i s).2) := hw
  intro s b; simp [rol, hw'] <;> simp [setWait]

theorem cdt_ror (ra : ReadAddrFn) (h : ∀ i, CDv (ra i)) : CDt (ror ra) := by
  intro s; have h1 := h false s; simp [ror] <;> omega

theorem wp_ror (ra : ReadAddrFn) (hw : ∀ i, WPushV (ra i)) : WPush (ror ra) := by
  have hw' : ∀ i s b, ra i (setWait b s) = ((ra i s).1, setWait b (ra i s).2) := hw
  intro s b; simp [ror, hw'] <;> simp [setWait]

theorem cdt_trb (ra : ReadAddrFn) (h : ∀ i, CDv (ra i)) : CDt (trb ra) := by
  intro s; have h1 := h false s; simp [trb] <;> omega

theorem wp_trb (ra : ReadAddrFn) (hw : ∀ i, WPushV (ra i)) : WPush (trb ra) := by
  have hw' : ∀ i s b, ra i (setWait b s) = ((ra i s).1, setWait b (ra i s).2) := hw
  intro s b; simp [trb, hw'] <;> simp [setWait]

theorem cdt_tsb (ra : ReadAddrFn) (h : ∀ i, CDv (ra i)) : CDt (tsb ra) := by
  intro s; have h1 := h false s; simp [tsb] <;> omega

theorem wp_tsb (ra : ReadAddrFn) (hw : ∀ i, WPushV (ra i)) : WPush (tsb ra) := by
  have hw' : ∀ i s b, ra i (setWait b s) = ((ra i s).1, setWait b (ra i s).2) := hw
  intro s b; simp [tsb, hw'] <;> simp [setWait]

theorem cdt_aso (ra : ReadAddrFn) (h : ∀ i, CDv (ra i)) : CDt (aso ra) := by
  intro s; have h1 := h false s; simp [aso] <;> omega

theorem wp_aso (ra : ReadAddrFn) (hw : ∀ i, WPushV (ra i)) : WPush (aso ra) := by
  have hw' : ∀ i s b, ra i (setWait b s) = ((ra i s).1, setWait b (ra i s).2) := hw
  intro s b; simp [aso, hw'] <;> simp [setWait]

theorem cdt_rla (ra : ReadAddrFn) (h : ∀ i, CDv (ra i)) : CDt (rla ra) := by
  intro s; have h1 := h false s; simp [rla] <;> omega

theorem wp_rla (ra : ReadAddrFn) (hw : ∀ i, WPushV (ra i)) : WPush (rla ra) := by
  have hw' : ∀ i s b, ra i (setWait b s) = ((ra i s).1, setWait b (ra i s).2) := hw
  intro s b; simp [rla, hw'] <;> simp [setWait]

theorem cdt_lse (ra : ReadAddrFn) (h : ∀ i, CDv (ra i)) : CDt (lse ra) := by
  intro s; have h1 := h false s; simp [lse] <;> omega

theorem wp_lse (ra : ReadAddrFn) (hw : ∀ i, WPushV (ra i)) : WPush (lse ra) := by
  have hw' : ∀ i s b, ra i (setWait b s) = ((ra i s).1, setWait b (ra i s).2) := hw
  intro s b; simp [lse, hw'] <;> simp [setWait]

theorem cdt_rra (ra : ReadAddrFn) (h : ∀ i, CDv (ra i)) : CDt (rra ra) := by
  intro s; have h1 := h false s; simp [rra] <;> omega

theorem wp_rra (ra : ReadAddrFn) (hw : ∀ i, WPushV (ra i)) : WPush (rra ra) := by
  have hw' : ∀ i s b, ra i (setWait b s) = ((ra i s).1, setWait b (ra i s).2) := hw
  intro s b; simp [rra, hw'] <;> simp [setWait]

theorem cdt_tas (ra : ReadAddrFn) (h : ∀ i, CDv (ra i)) : CDt (tas ra) := by
  intro s; have h1 := h false s; simp [tas] <;> omega

theorem wp_tas (ra : ReadAddrFn) (hw : ∀ i, WPushV (ra i)) : WPush (tas ra) := by
  have hw' : ∀ i s b, ra i (setWait b s) = ((ra i s).1, setWait b (ra i s).2) := hw
  intro s b; simp [tas, hw'] <;> simp [setWait] <;> rfl

theorem cdt_say (ra : ReadAddrFn) (h : ∀ i, CDv (ra i)) : CDt (say ra) := by
  intro s; have h1 := h false s; simp [say] <;> omega

theorem wp_say (ra : ReadAddrFn) (hw : ∀ i, WPushV (ra i)) : WPush (say ra) := by
  have hw' : ∀ i s b, ra i (setWait b s) = ((ra i s).1, setWait b (ra i s).2) := hw
  intro s b; simp [say, hw'] <;> simp [setWait]

theorem cdt_xas (ra : ReadAddrFn) (h : ∀ i, CDv (ra i)) : CDt (xas ra) := by
  intro s; have h1 := h false s; simp [xas] <;> omega

theorem wp_xas (ra : ReadAddrFn) (hw : ∀ i, WPushV (ra i)) : WPush (xas ra) := by
  have hw' : ∀ i s b, ra i (setWait b s) = ((ra i s).1, setWait b (ra i s).2) := hw
  intro s b; simp [xas, hw'] <;> simp [setWait]

theorem cdt_axa (ra : ReadAddrFn) (h : ∀ i, CDv (ra i)) : CDt (axa ra) := by
  intro s; have h1 := h false s; simp [axa] <;> omega

theorem wp_axa (ra : ReadAddrFn) (hw : ∀ i, WPushV (ra i)) : WPush (axa ra) := by
  have hw' : ∀ i s b, ra i (setWait b s) = ((ra i s).1, setWait b (ra i s).2) := hw
  intro s b; simp [axa, hw'] <;> simp [setWait]

theorem cdt_jmp (ra : ReadAddrFn) (h : ∀ i, CDv (ra i)) : CDt (jmp ra) := by
  intro s; have h1 := h false s; simp [jmp] <;> omega

theorem wp_jmp (ra : ReadAddrFn) (hw : ∀ i, WPushV (ra i)) : WPush (jmp ra) := by
  have hw' : ∀ i s b, ra i (setWait b s) = ((ra i s).1, setWait b (ra i s).2) := hw
  intro s b; simp [jmp, hw'] <;> simp [setWait]

theorem cdt_incA : CDt incA := by
  intro s; simp [incA] <;> omega

theorem wp_incA : WPush incA := by
  intro s b; simp [incA] <;> simp [setWait]

theorem cdt_inx : CDt inx := by
  intro s; simp [inx] <;> omega

theorem wp_inx : WPush inx := by
  intro s b; simp [inx] <;> simp [setWait]

theorem cdt_iny : CDt iny := by
  intro s; simp [iny] <;> omega

theorem wp_iny : WPush iny := by
  intro s b; simp [iny] <;> simp [setWait]

theorem cdt_decA : CDt decA := by
  intro s; simp [decA] <;> omega

theorem wp_decA : WPush decA := by
  intro s b; simp [decA] <;> simp [setWait]

theorem cdt_dex : CDt dex := by
  intro s; simp [dex] <;> omega

theorem wp_dex : WPush dex := by
  intro s b; simp [dex] <;> simp [setWait]

theorem cdt_dey : CDt dey := by
  intro s; simp [dey] <;> omega

theorem wp_dey : WPush dey := by
  intro s b; simp [dey] <;> simp [setWait]

theorem cdt_aslA : CDt aslA := by
  intro s; simp [aslA] <;> omega

theorem wp_aslA : WPush aslA := by
  intro s b; simp [aslA] <;> simp [setWait]

theorem cdt_lsrA : CDt lsrA := by
  intro s; simp [lsrA] <;> omega

theorem wp_lsrA : WPush lsrA := by
  intro s b; simp [lsrA] <;> simp [setWait]

theorem cdt_rolA : CDt rolA := by
  intro s; simp [rolA] <;> omega

theorem wp_rolA : WPush rolA := by
  intro s b; simp [rolA] <;> simp [setWait]

theorem cdt_rorA : CDt rorA := by
  intro s; simp [rorA] <;> omega

theorem wp_rorA : WPush rorA := by
  intro s b; simp [rorA] <;> simp [setWait]

theorem cdt_tax : CDt tax := by
  intro s; simp [tax] <;> omega

theorem wp_tax : WPush tax := by
  intro s b; simp [tax] <;> simp [setWait]

theorem cdt_txa : CDt txa := by
  intro s; simp [txa] <;> omega

theorem wp_txa : WPush txa := by
  intro s b; simp [txa] <;> simp [setWait]

theorem cdt_tay : CDt tay := by
  intro s; simp [tay] <;> omega

theorem wp_tay : WPush tay := by
  intro s b; simp [tay] <;> simp [setWait]

theorem cdt_tya : CDt tya := by
  intro s; simp [tya] <;> omega

theorem wp_tya : WPush tya := by
  intro s b; simp [tya] <;> simp [setWait]

theorem cdt_tsx : CDt tsx := by
  intro s; simp [tsx] <;> omega

theorem wp_tsx : WPush tsx := by
  intro s b; simp [tsx] <;> simp [setWait]

theorem cdt_txs : CDt txs := by
  intro s; simp [txs] <;> omega

theorem wp_txs : WPush txs := by
  intro s b; simp [txs] <;> simp [setWait]

theorem cdt_pha : CDt pha := by
  intro s; simp [pha] <;> omega

theorem wp_pha : WPush pha := by
  intro s b; simp [pha] <;> simp [setWait]

theorem cdt_pla : CDt pla := by
  intro s; simp [pla] <;> omega

theorem wp_pla : WPush pla := by
  intro s b; simp [pla] <;> simp [setWait]

theorem cdt_phx : CDt phx := by
  intro s; simp [phx] <;> omega

theorem wp_phx : WPush phx := by
  intro s b; simp [phx] <;> simp [setWait]

theorem cdt_plx : CDt plx := by
  intro s; simp [plx] <;> omega

theorem wp_plx : WPush plx := by
  intro s b; simp [plx] <;> simp [setWait]

theorem cdt_phy : CDt phy := by
  intro s; simp [phy] <;> omega

theorem wp_phy : WPush phy := by
  intro s b; simp [phy] <;> simp [setWait]

theorem cdt_ply : CDt ply := by
  intro s; simp [ply] <;> omega

theorem wp_ply : WPush ply := by
  intro s b; simp [ply] <;> simp [setWait]

theorem cdt_php : CDt php := by
  intro s; simp [php] <;> omega

theorem wp_php : WPush php := by
  intro s b; simp [php] <;> simp [setWait]

theorem cdt_plp : CDt plp := by
  intro s; simp [plp] <;> omega

theorem wp_plp : WPush plp := by
  intro s b; simp [plp] <;> simp [setWait]

theorem cdt_jsr : CDt jsr := by
  intro s; simp [jsr] <;> omega

theorem wp_jsr : WPush jsr := by
  intro s b; simp [jsr] <;> simp [setWait]

theorem cdt_rts : CDt rts := by
  intro s; simp [rts] <;> omega

theorem wp_rts : WPush rts := by
  intro s b; simp [rts] <;> simp [setWait]

theorem cdt_rti : CDt rti := by
  intro s; simp [rti] <;> omega

theorem wp_rti : WPush rti := fun _ _ => rfl

theorem cdt_stp : CDt stp := by
  intro s; simp [stp] <;> omega

theorem wp_stp : WPush stp := fun _ _ => rfl

theorem cdt_hlt : CDt hlt := by
  intro s; simp [hlt] <;> omega

theorem wp_hlt : WPush hlt := by
  intro s b; simp [hlt] <;> simp [setWait]

theorem cdt_setF (f : Nat) : CDt (setF f) := by
  intro s; simp [setF] <;> omega

theorem wp_setF (f : Nat) : WPush (setF f) := by
  intro s b; simp [setF] <;> simp [setWait]

theorem cdt_clr (f : Nat) : CDt (clr f) := by
  intro s; simp [clr] <;> omega

theorem wp_clr (f : Nat) : WPush (clr f) := by
  intro s b; simp [clr] <;> simp [setWait]

theorem cdt_rmb (b0 : Nat) : CDt (rmb b0) := by
  intro s; simp [rmb] <;> omega

theorem wp_rmb (b0 : Nat) : WPush (rmb b0) := by
  intro s b; simp [rmb] <;> simp [setWait]

theorem cdt_smb (b0 : Nat) : CDt (smb b0) := by
  intro s; simp [smb] <;> omega

theorem wp_smb (b0 : Nat) : WPush (smb b0) := by
  intro s b; simp [smb] <;> simp [setWait]

theorem cdt_brs (f : Nat) : CDt (brs f) := by
  intro s; unfold brs; dsimp only; split_ifs <;> simp <;> omega

theorem wp_brs (f : Nat) : WPush (brs f) := by
  intro s b; simp [brs]; split_ifs <;> rfl

theorem cdt_brc (f : Nat) : CDt (brc f) := by
  intro s; unfold brc; dsimp only; split_ifs <;> simp <;> omega

theorem wp_brc (f : Nat) : WPush (brc f) := by
  intro s b; simp [brc]; split_ifs <;> rfl

theorem cdt_bbr (b0 : Nat) : CDt (bbr b0) := by
  intro s; unfold bbr; dsimp only; split_ifs <;> simp <;> omega

theorem wp_bbr (b0 : Nat) : WPush (bbr b0) := by
  intro s b; simp [bbr]; split_ifs <;> rfl

theorem cdt_bbs (b0 : Nat) : CDt (bbs b0) := by
  intro s; unfold bbs; dsimp only; split_ifs <;> simp <;> omega

theorem wp_bbs (b0 : Nat) : WPush (bbs b0) := by
  intro s b; simp [bbs]; split_ifs <;> rfl

theorem cdt_nop (f : Cpu → Cpu) (h : CDt f) : CDt (nop f) := h

theorem wp_nop (f : Cpu → Cpu) (hw : WPush f) : WPush (nop f) := hw

theorem wai_setWait (b : Bool) (s : Cpu) :
    wai (setWait b s) = setWait true (wai s) := rfl

theorem cdt_wai : CDt wai := by
  intro s; simp [wai] <;> omega

/-- `wai` is the one table instruction that writes the latch: it forces
it to `true`. -/
theorem wie_wai : WIe wai := by
  intro s b
  rw [wai_setWait, wai_setWait]
  simp

/-! ### Every dispatch-table entry satisfies both invariants -/

/-- The conjunction proved for every entry of every table. -/
def entryOk (e : Entry) : Prop := CDt e.fn ∧ WIe e.fn

theorem nopEntry_ok : entryOk nopEntry :=
  ⟨cdt_nop _ cdt_readNopImplied, wie_of_wpush (wp_nop _ wp_readNopImplied)⟩

theorem OPS_6502_p0_ok : ∀ p ∈ OPS_6502_p0, entryOk p.2 :=
  List.forall_iff_forall_mem.mp
   ⟨⟨cdt_lda _ cdv_readImmediate, wie_of_wpush (wp_lda _ wpv_readImmediate)⟩,
    ⟨cdt_lda _ cdv_readZeroPage, wie_of_wpush (wp_lda _ wpv_readZeroPage)⟩,
    ⟨cdt_lda _ cdv_readZeroPageX, wie_of_wpush (wp_lda _ wpv_readZeroPageX)⟩,
    ⟨cdt_lda _ cdv_readAbsolute, wie_of_wpush (wp_lda _ wpv_readAbsolute)⟩,
    ⟨cdt_lda _ cdv_readAbsoluteX, wie_of_wpush (wp_lda _ wpv_readAbsoluteX)⟩,
    ⟨cdt_lda _ cdv_readAbsoluteY, wie_of_wpush (wp_lda _ wpv_readAbsoluteY)⟩,
    ⟨cdt_lda _ cdv_readZeroPageXIndirect, wie_of_wpush (wp_lda _ wpv_readZeroPageXIndirect)⟩,
    ⟨cdt_lda _ cdv_readZeroPageIndirectY, wie_of_wpush (wp_lda _ wpv_readZeroPageIndirectY)⟩,
    ⟨cdt_ldx _ cdv_readImmediate, wie_of_wpush (wp_ldx _ wpv_readImmediate)⟩,
    ⟨cdt_ldx _ cdv_readZeroPage, wie_of_wpush (wp_ldx _ wpv_readZeroPage)⟩,
    ⟨cdt_ldx _ cdv_readZeroPageY, wie_of_wpush (wp_ldx _ wpv_readZeroPageY)⟩,
    ⟨cdt_ldx _ cdv_readAbsolute, wie_of_wpush (wp_ldx _ wpv_readAbsolute)⟩,
    ⟨cdt_ldx _ cdv_readAbsoluteY, wie_of_wpush (wp_ldx _ wpv_readAbsoluteY)⟩,
    ⟨cdt_ldy _ cdv_readImmediate, wie_of_wpush (wp_ldy _ wpv_readImmediate)⟩,
    ⟨cdt_ldy _ cdv_readZeroPage, wie_of_wpush (wp_ldy _ wpv_readZeroPage)⟩,
    ⟨cdt_ldy _ cdv_readZeroPageX, wie_of_wpush (wp_ldy _ wpv_readZeroPageX)⟩,
    ⟨cdt_ldy _ cdv_readAbsolute, wie_of_wpush (wp_ldy _ wpv_readAbsolute)⟩,
    ⟨cdt_ldy _ cdv_readAbsoluteX, wie_of_wpush (wp_ldy _ wpv_readAbsoluteX)⟩,
    ⟨cdt_sta _ cdt_writeZeroPage, wie_of_wpush (wp_sta _ wp_writeZeroPage)⟩,
    ⟨cdt_sta _ cdt_writeZeroPageX, wie_of_wpush (wp_sta _ wp_writeZeroPageX)⟩,
    ⟨cdt_sta _ cdt_writeAbsolute, wie_of_wpush (wp_sta _ wp_writeAbsolute)⟩,
    ⟨cdt_sta _ cdt_writeAbsoluteX, wie_of_wpush (wp_sta _ wp_writeAbsoluteX)⟩,
    ⟨cdt_sta _ cdt_writeAbsoluteY, wie_of_wpush (wp_sta _ wp_writeAbsoluteY)⟩,
    ⟨cdt_sta _ cdt_writeZeroPageXIndirect, wie_of_wpush (wp_sta _ wp_writeZeroPageXIndirect)⟩,
    ⟨cdt_sta _ cdt_writeZeroPageIndirectY, wie_of_wpush (wp_sta _ wp_writeZeroPageIndirectY)⟩,
    ⟨cdt_stx _ cdt_writeZeroPage, wie_of_wpush (wp_stx _ wp_writeZeroPage)⟩,
    ⟨cdt_stx _ cdt_writeZeroPageY, wie_of_wpush (wp_stx _ wp_writeZeroPageY)⟩,
    ⟨cdt_stx _ cdt_writeAbsolute, wie_of_wpush (wp_stx _ wp_writeAbsolute)⟩,
    ⟨cdt_sty _ cdt_writeZeroPage, wie_of_wpush (wp_sty _ wp_writeZeroPage)⟩,
    ⟨cdt_sty _ cdt_writeZeroPageX, wie_of_wpush (wp_sty _ wp_writeZeroPageX)⟩,
    ⟨cdt_sty _ cdt_writeAbsolute, wie_of_wpush (wp_sty _ wp_writeAbsolute)⟩,
    ⟨cdt_adc _ cdv_readImmediate, wie_of_wpush (wp_adc _ wpv_readImmediate)⟩⟩

theorem OPS_6502_p1_ok : ∀ p ∈ OPS_6502_p1, entryOk p.2 :=
  List.forall_iff_forall_mem.mp
   ⟨⟨cdt_adc _ cdv_readZeroPage, wie_of_wpush (wp_adc _ wpv_readZeroPage)⟩,
    ⟨cdt_adc _ cdv_readZeroPageX, wie_of_wpush (wp_adc _ wpv_readZeroPageX)⟩,
    ⟨cdt_adc _ cdv_readAbsolute, wie_of_wpush (wp_adc _ wpv_readAbsolute)⟩,
    ⟨cdt_adc _ cdv_readAbsoluteX, wie_of_wpush (wp_adc _ wpv_readAbsoluteX)⟩,
    ⟨cdt_adc _ cdv_readAbsoluteY, wie_of_wpush (wp_adc _ wpv_readAbsoluteY)⟩,
    ⟨cdt_adc _ cdv_readZeroPageXIndirect, wie_of_wpush (wp_adc _ wpv_readZeroPageXIndirect)⟩,
    ⟨cdt_adc _ cdv_readZeroPageIndirectY, wie_of_wpush (wp_adc _ wpv_readZeroPageIndirectY)⟩,
    ⟨cdt_sbc _ cdv_readImmediate, wie_of_wpush (wp_sbc _ wpv_readImmediate)⟩,
    ⟨cdt_sbc _ cdv_readZeroPage, wie_of_wpush (wp_sbc _ wpv_readZeroPage)⟩,
    ⟨cdt_sbc _ cdv_readZeroPageX, wie_of_wpush (wp_sbc _ wpv_readZeroPageX)⟩,
    ⟨cdt_sbc _ cdv_readAbsolute, wie_of_wpush (wp_sbc _ wpv_readAbsolute)⟩,
    ⟨cdt_sbc _ cdv_readAbsoluteX, wie_of_wpush (wp_sbc _ wpv_readAbsoluteX)⟩,
    ⟨cdt_sbc _ cdv_readAbsoluteY, wie_of_wpush (wp_sbc _ wpv_readAbsoluteY)⟩,
    ⟨cdt_sbc _ cdv_readZeroPageXIndirect, wie_of_wpush (wp_sbc _ wpv_readZeroPageXIndirect)⟩,
    ⟨cdt_sbc _ cdv_readZeroPageIndirectY, wie_of_wpush (wp_sbc _ wpv_readZeroPageIndirectY)⟩,
    ⟨cdt_inc _ cdv_readAddrZeroPage, wie_of_wpush (wp_inc _ wpv_readAddrZeroPage)⟩,
    ⟨cdt_inc _ cdv_readAddrZeroPageX, wie_of_wpush (wp_inc _ wpv_readAddrZeroPageX)⟩,
    ⟨cdt_inc _ cdv_readAddrAbsolute, wie_of_wpush (wp_inc _ wpv_readAddrAbsolute)⟩,
    ⟨cdt_inc _ cdv_readAddrAbsoluteX, wie_of_wpush (wp_inc _ wpv_readAddrAbsoluteX)⟩,
    ⟨cdt_inx, wie_of_wpush wp_inx⟩,
    ⟨cdt_iny, wie_of_wpush wp_iny⟩,
    ⟨cdt_dec _ cdv_readAddrZeroPage, wie_of_wpush (wp_dec _ wpv_readAddrZeroPage)⟩,
    ⟨cdt_dec _ cdv_readAddrZeroPageX, wie_of_wpush (wp_dec _ wpv_readAddrZeroPageX)⟩,
    ⟨cdt_dec _ cdv_readAddrAbsolute, wie_of_wpush (wp_dec _ wpv_readAddrAbsolute)⟩,
    ⟨cdt_dec _ cdv_readAddrAbsoluteX, wie_of_wpush (wp_dec _ wpv_readAddrAbsoluteX)⟩,
    ⟨cdt_dex, wie_of_wpush wp_dex⟩,
    ⟨cdt_dey, wie_of_wpush wp_dey⟩,
    ⟨cdt_aslA, wie_of_wpush wp_aslA⟩,
    ⟨cdt_asl _ cdv_readAddrZeroPage, wie_of_wpush (wp_asl _ wpv_readAddrZeroPage)⟩,
    ⟨cdt_asl _ cdv_readAddrZeroPageX, wie_of_wpush (wp_asl _ wpv_readAddrZeroPageX)⟩,
    ⟨cdt_asl _ cdv_readAddrAbsolute, wie_of_wpush (wp_asl _ wpv_readAddrAbsolute)⟩,
    ⟨cdt_asl _ cdv_readAddrAbsoluteX, wie_of_wpush (wp_asl _ wpv_readAddrAbsoluteX)⟩⟩

theorem OPS_6502_p2_ok : ∀ p ∈ OPS_6502_p2, entryOk p.2 :=
  List.forall_iff_forall_mem.mp
   ⟨⟨cdt_lsrA, wie_of_wpush wp_lsrA⟩,
    ⟨cdt_lsr _ cdv_readAddrZeroPage, wie_of_wpush (wp_lsr _ wpv_readAddrZeroPage)⟩,
    ⟨cdt_lsr _ cdv_readAddrZeroPageX, wie_of_wpush (wp_lsr _ wpv_readAddrZeroPageX)⟩,
    ⟨cdt_lsr _ cdv_readAddrAbsolute, wie_of_wpush (wp_lsr _ wpv_readAddrAbsolute)⟩,
    ⟨cdt_lsr _ cdv_readAddrAbsoluteX, wie_of_wpush (wp_lsr _ wpv_readAddrAbsoluteX)⟩,
    ⟨cdt_rolA, wie_of_wpush wp_rolA⟩,
    ⟨cdt_rol _ cdv_readAddrZeroPage, wie_of_wpush (wp_rol _ wpv_readAddrZeroPage)⟩,
    ⟨cdt_rol _ cdv_readAddrZeroPageX, wie_of_wpush (wp_rol _ wpv_readAddrZeroPageX)⟩,
    ⟨cdt_rol _ cdv_readAddrAbsolute, wie_of_wpush (wp_rol _ wpv_readAddrAbsolute)⟩,
    ⟨cdt_rol _ cdv_readAddrAbsoluteX, wie_of_wpush (wp_rol _ wpv_readAddrAbsoluteX)⟩,
    ⟨cdt_rorA, wie_of_wpush wp_rorA⟩,
    ⟨cdt_ror _ cdv_readAddrZeroPage, wie_of_wpush (wp_ror _ wpv_readAddrZeroPage)⟩,
    ⟨cdt_ror _ cdv_readAddrZeroPageX, wie_of_wpush (wp_ror _ wpv_readAddrZeroPageX)⟩,
    ⟨cdt_ror _ cdv_readAddrAbsolute, wie_of_wpush (wp_ror _ wpv_readAddrAbsolute)⟩,
    ⟨cdt_ror _ cdv_readAddrAbsoluteX, wie_of_wpush (wp_ror _ wpv_readAddrAbsoluteX)⟩,
    ⟨cdt_andA _ cdv_readImmediate, wie_of_wpush (wp_andA _ wpv_readImmediate)⟩,
    ⟨cdt_andA _ cdv_readZeroPage, wie_of_wpush (wp_andA _ wpv_readZeroPage)⟩,
    ⟨cdt_andA _ cdv_readZeroPageX, wie_of_wpush (wp_andA _ wpv_readZeroPageX)⟩,
    ⟨cdt_andA _ cdv_readAbsolute, wie_of_wpush (wp_andA _ wpv_readAbsolute)⟩,
    ⟨cdt_andA _ cdv_readAbsoluteX, wie_of_wpush (wp_andA _ wpv_readAbsoluteX)⟩,
    ⟨cdt_andA _ cdv_readAbsoluteY, wie_of_wpush (wp_andA _ wpv_readAbsoluteY)⟩,
    ⟨cdt_andA _ cdv_readZeroPageXIndirect, wie_of_wpush (wp_andA _ wpv_readZeroPageXIndirect)⟩,
    ⟨cdt_andA _ cdv_readZeroPageIndirectY, wie_of_wpush (wp_andA _ wpv_readZeroPageIndirectY)⟩,
    ⟨cdt_ora _ cdv_readImmediate, wie_of_wpush (wp_ora _ wpv_readImmediate)⟩,
    ⟨cdt_ora _ cdv_readZeroPage, wie_of_wpush (wp_ora _ wpv_readZeroPage)⟩,
    ⟨cdt_ora _ cdv_readZeroPageX, wie_of_wpush (wp_ora _ wpv_readZeroPageX)⟩,
    ⟨cdt_ora _ cdv_readAbsolute, wie_of_wpush (wp_ora _ wpv_readAbsolute)⟩,
    ⟨cdt_ora _ cdv_readAbsoluteX, wie_of_wpush (wp_ora _ wpv_readAbsoluteX)⟩,
    ⟨cdt_ora _ cdv_readAbsoluteY, wie_of_wpush (wp_ora _ wpv_readAbsoluteY)⟩,
    ⟨cdt_ora _ cdv_readZeroPageXIndirect, wie_of_wpush (wp_ora _ wpv_readZeroPageXIndirect)⟩,
    ⟨cdt_ora _ cdv_readZeroPageIndirectY, wie_of_wpush (wp_ora _ wpv_readZeroPageIndirectY)⟩,
    ⟨cdt_eor _ cdv_readImmediate, wie_of_wpush (wp_eor _ wpv_readImmediate)⟩⟩

theorem OPS_6502_p3_ok : ∀ p ∈ OPS_6502_p3, entryOk p.2 :=
  List.forall_iff_forall_mem.mp
   ⟨⟨cdt_eor _ cdv_readZeroPage, wie_of_wpush (wp_eor _ wpv_readZeroPage)⟩,
    ⟨cdt_eor _ cdv_readZeroPageX, wie_of_wpush (wp_eor _ wpv_readZeroPageX)⟩,
    ⟨cdt_eor _ cdv_readAbsolute, wie_of_wpush (wp_eor _ wpv_readAbsolute)⟩,
    ⟨cdt_eor _ cdv_readAbsoluteX, wie_of_wpush (wp_eor _ wpv_readAbsoluteX)⟩,
    ⟨cdt_eor _ cdv_readAbsoluteY, wie_of_wpush (wp_eor _ wpv_readAbsoluteY)⟩,
    ⟨cdt_eor _ cdv_readZeroPageXIndirect, wie_of_wpush (wp_eor _ wpv_readZeroPageXIndirect)⟩,
    ⟨cdt_eor _ cdv_readZeroPageIndirectY, wie_of_wpush (wp_eor _ wpv_readZeroPageIndirectY)⟩,
    ⟨cdt_cmp _ cdv_readImmediate, wie_of_wpush (wp_cmp _ wpv_readImmediate)⟩,
    ⟨cdt_cmp _ cdv_readZeroPage, wie_of_wpush (wp_cmp _ wpv_readZeroPage)⟩,
    ⟨cdt_cmp _ cdv_readZeroPageX, wie_of_wpush (wp_cmp _ wpv_readZeroPageX)⟩,
    ⟨cdt_cmp _ cdv_readAbsolute, wie_of_wpush (wp_cmp _ wpv_readAbsolute)⟩,
    ⟨cdt_cmp _ cdv_readAbsoluteX, wie_of_wpush (wp_cmp _ wpv_readAbsoluteX)⟩,
    ⟨cdt_cmp _ cdv_readAbsoluteY, wie_of_wpush (wp_cmp _ wpv_readAbsoluteY)⟩,
    ⟨cdt_cmp _ cdv_readZeroPageXIndirect, wie_of_wpush (wp_cmp _ wpv_readZeroPageXIndirect)⟩,
    ⟨cdt_cmp _ cdv_readZeroPageIndirectY, wie_of_wpush (wp_cmp _ wpv_readZeroPageIndirectY)⟩,
    ⟨cdt_cpx _ cdv_readImmediate, wie_of_wpush (wp_cpx _ wpv_readImmediate)⟩,
    ⟨cdt_cpx _ cdv_readZeroPage, wie_of_wpush (wp_cpx _ wpv_readZeroPage)⟩,
    ⟨cdt_cpx _ cdv_readAbsolute, wie_of_wpush (wp_cpx _ wpv_readAbsolute)⟩,
    ⟨cdt_cpy _ cdv_readImmediate, wie_of_wpush (wp_cpy _ wpv_readImmediate)⟩,
    ⟨cdt_cpy _ cdv_readZeroPage, wie_of_wpush (wp_cpy _ wpv_readZeroPage)⟩,
    ⟨cdt_cpy _ cdv_readAbsolute, wie_of_wpush (wp_cpy _ wpv_readAbsolute)⟩,
    ⟨cdt_bit _ cdv_readZeroPage, wie_of_wpush (wp_bit _ wpv_readZeroPage)⟩,
    ⟨cdt_bit _ cdv_readAbsolute, wie_of_wpush (wp_bit _ wpv_readAbsolute)⟩,
    ⟨cdt_brc flagC, wie_of_wpush (wp_brc flagC)⟩,
    ⟨cdt_brs flagC, wie_of_wpush (wp_brs flagC)⟩,
    ⟨cdt_brs flagZ, wie_of_wpush (wp_brs flagZ)⟩,
    ⟨cdt_brs flagN, wie_of_wpush (wp_brs flagN)⟩,
    ⟨cdt_brc flagZ, wie_of_wpush (wp_brc flagZ)⟩,
    ⟨cdt_brc flagN, wie_of_wpush (wp_brc flagN)⟩,
    ⟨cdt_brc flagV, wie_of_wpush (wp_brc flagV)⟩,
    ⟨cdt_brs flagV, wie_of_wpush (wp_brs flagV)⟩,
    ⟨cdt_tax, wie_of_wpush wp_tax⟩⟩

theorem OPS_6502_p4_ok : ∀ p ∈ OPS_6502_p4, entryOk p.2 :=
  List.forall_iff_forall_mem.mp
   ⟨⟨cdt_txa, wie_of_wpush wp_txa⟩,
    ⟨cdt_tay, wie_of_wpush wp_tay⟩,
    ⟨cdt_tya, wie_of_wpush wp_tya⟩,
    ⟨cdt_tsx, wie_of_wpush wp_tsx⟩,
    ⟨cdt_txs, wie_of_wpush wp_txs⟩,
    ⟨cdt_pha, wie_of_wpush wp_pha⟩,
    ⟨cdt_pla, wie_of_wpush wp_pla⟩,
    ⟨cdt_php, wie_of_wpush wp_php⟩,
    ⟨cdt_plp, wie_of_wpush wp_plp⟩,
    ⟨cdt_jmp _ cdv_readAddrAbsolute, wie_of_wpush (wp_jmp _ wpv_readAddrAbsolute)⟩,
    ⟨cdt_jmp _ cdv_readAddrAbsoluteIndirectBug, wie_of_wpush (wp_jmp _ wpv_readAddrAbsoluteIndirectBug)⟩,
    ⟨cdt_jsr, wie_of_wpush wp_jsr⟩,
    ⟨cdt_rts, wie_of_wpush wp_rts⟩,
    ⟨cdt_rti, wie_of_wpush wp_rti⟩,
    ⟨cdt_setF flagC, wie_of_wpush (wp_setF flagC)⟩,
    ⟨cdt_setF flagD, wie_of_wpush (wp_setF flagD)⟩,
    ⟨cdt_setF flagI, wie_of_wpush (wp_setF flagI)⟩,
    ⟨cdt_clr flagC, wie_of_wpush (wp_clr flagC)⟩,
    ⟨cdt_clr flagD, wie_of_wpush (wp_clr flagD)⟩,
    ⟨cdt_clr flagI, wie_of_wpush (wp_clr flagI)⟩,
    ⟨cdt_clr flagV, wie_of_wpush (wp_clr flagV)⟩,
    ⟨cdt_nop _ cdt_implied, wie_of_wpush (wp_nop _ wp_implied)⟩,
    ⟨cdt_brk _ cdv_readImmediate, wie_of_wpush (wp_brk _ wpv_readImmediate)⟩⟩

theorem OPS_6502_ok : ∀ p ∈ OPS_6502, entryOk p.2 := by
  intro p hp
  rw [OPS_6502] at hp
  simp only [List.mem_append, or_assoc] at hp
  rcases hp with h0 | h1 | h2 | h3 | h4
  · exact OPS_6502_p0_ok p h0
  · exact OPS_6502_p1_ok p h1
  · exact OPS_6502_p2_ok p h2
  · exact OPS_6502_p3_ok p h3
  · exact OPS_6502_p4_ok p h4

theorem OPS_65C02_p0_ok : ∀ p ∈ OPS_65C02_p0, entryOk p.2 :=
  List.forall_iff_forall_mem.mp
   ⟨⟨cdt_incA, wie_of_wpush wp_incA⟩,
    ⟨cdt_decA, wie_of_wpush wp_decA⟩,
    ⟨cdt_ora _ cdv_readZeroPageIndirect, wie_of_wpush (wp_ora _ wpv_readZeroPageIndirect)⟩,
    ⟨cdt_andA _ cdv_readZeroPageIndirect, wie_of_wpush (wp_andA _ wpv_readZeroPageIndirect)⟩,
    ⟨cdt_eor _ cdv_readZeroPageIndirect, wie_of_wpush (wp_eor _ wpv_readZeroPageIndirect)⟩,
    ⟨cdt_adc _ cdv_readZeroPageIndirect, wie_of_wpush (wp_adc _ wpv_readZeroPageIndirect)⟩,
    ⟨cdt_sta _ cdt_writeZeroPageIndirect, wie_of_wpush (wp_sta _ wp_writeZeroPageIndirect)⟩,
    ⟨cdt_lda _ cdv_readZeroPageIndirect, wie_of_wpush (wp_lda _ wpv_readZeroPageIndirect)⟩,
    ⟨cdt_cmp _ cdv_readZeroPageIndirect, wie_of_wpush (wp_cmp _ wpv_readZeroPageIndirect)⟩,
    ⟨cdt_sbc _ cdv_readZeroPageIndirect, wie_of_wpush (wp_sbc _ wpv_readZeroPageIndirect)⟩,
    ⟨cdt_bit _ cdv_readZeroPageX, wie_of_wpush (wp_bit _ wpv_readZeroPageX)⟩,
    ⟨cdt_bit _ cdv_readAbsoluteX, wie_of_wpush (wp_bit _ wpv_readAbsoluteX)⟩,
    ⟨cdt_bitI _ cdv_readImmediate, wie_of_wpush (wp_bitI _ wpv_readImmediate)⟩,
    ⟨cdt_jmp _ cdv_readAddrAbsoluteIndirect, wie_of_wpush (wp_jmp _ wpv_readAddrAbsoluteIndirect)⟩,
    ⟨cdt_jmp _ cdv_readAddrAbsoluteXIndirect, wie_of_wpush (wp_jmp _ wpv_readAddrAbsoluteXIndirect)⟩,
    ⟨cdt_bbr 0, wie_of_wpush (wp_bbr 0)⟩,
    ⟨cdt_bbr 1, wie_of_wpush (wp_bbr 1)⟩,
    ⟨cdt_bbr 2, wie_of_wpush (wp_bbr 2)⟩,
    ⟨cdt_bbr 3, wie_of_wpush (wp_bbr 3)⟩,
    ⟨cdt_bbr 4, wie_of_wpush (wp_bbr 4)⟩,
    ⟨cdt_bbr 5, wie_of_wpush (wp_bbr 5)⟩,
    ⟨cdt_bbr 6, wie_of_wpush (wp_bbr 6)⟩,
    ⟨cdt_bbr 7, wie_of_wpush (wp_bbr 7)⟩,
    ⟨cdt_bbs 0, wie_of_wpush (wp_bbs 0)⟩,
    ⟨cdt_bbs 1, wie_of_wpush (wp_bbs 1)⟩,
    ⟨cdt_bbs 2, wie_of_wpush (wp_bbs 2)⟩,
    ⟨cdt_bbs 3, wie_of_wpush (wp_bbs 3)⟩,
    ⟨cdt_bbs 4, wie_of_wpush (wp_bbs 4)⟩,
    ⟨cdt_bbs 5, wie_of_wpush (wp_bbs 5)⟩,
    ⟨cdt_bbs 6, wie_of_wpush (wp_bbs 6)⟩,
    ⟨cdt_bbs 7, wie_of_wpush (wp_bbs 7)⟩,
    ⟨cdt_brc 0, wie_of_wpush (wp_brc 0)⟩⟩

theorem OPS_65C02_p1_ok : ∀ p ∈ OPS_65C02_p1, entryOk p.2 :=
  List.forall_iff_forall_mem.mp
   ⟨⟨cdt_nopR _ cdv_readImmediate, wie_of_wpush (wp_nopR _ wpv_readImmediate)⟩,
    ⟨cdt_nopR _ cdv_readImmediate, wie_of_wpush (wp_nopR _ wpv_readImmediate)⟩,
    ⟨cdt_nopR _ cdv_readImmediate, wie_of_wpush (wp_nopR _ wpv_readImmediate)⟩,
    ⟨cdt_nopR _ cdv_readZeroPage, wie_of_wpush (wp_nopR _ wpv_readZeroPage)⟩,
    ⟨cdt_nopR _ cdv_readZeroPageX, wie_of_wpush (wp_nopR _ wpv_readZeroPageX)⟩,
    ⟨cdt_nopR _ cdv_readImmediate, wie_of_wpush (wp_nopR _ wpv_readImmediate)⟩,
    ⟨cdt_nopR _ cdv_readImmediate, wie_of_wpush (wp_nopR _ wpv_readImmediate)⟩,
    ⟨cdt_nopR _ cdv_readImmediate, wie_of_wpush (wp_nopR _ wpv_readImmediate)⟩,
    ⟨cdt_nopR _ cdv_readZeroPageX, wie_of_wpush (wp_nopR _ wpv_readZeroPageX)⟩,
    ⟨cdt_nopR _ cdv_readImmediate, wie_of_wpush (wp_nopR _ wpv_readImmediate)⟩,
    ⟨cdt_nopR _ cdv_readZeroPageX, wie_of_wpush (wp_nopR _ wpv_readZeroPageX)⟩,
    ⟨cdt_nop _ cdt_readNop, wie_of_wpush (wp_nop _ wp_readNop)⟩,
    ⟨cdt_nop _ cdt_readNop, wie_of_wpush (wp_nop _ wp_readNop)⟩,
    ⟨cdt_nop _ cdt_readNop, wie_of_wpush (wp_nop _ wp_readNop)⟩,
    ⟨cdt_phx, wie_of_wpush wp_phx⟩,
    ⟨cdt_phy, wie_of_wpush wp_phy⟩,
    ⟨cdt_plx, wie_of_wpush wp_plx⟩,
    ⟨cdt_ply, wie_of_wpush wp_ply⟩,
    ⟨cdt_rmb 0, wie_of_wpush (wp_rmb 0)⟩,
    ⟨cdt_rmb 1, wie_of_wpush (wp_rmb 1)⟩,
    ⟨cdt_rmb 2, wie_of_wpush (wp_rmb 2)⟩,
    ⟨cdt_rmb 3, wie_of_wpush (wp_rmb 3)⟩,
    ⟨cdt_rmb 4, wie_of_wpush (wp_rmb 4)⟩,
    ⟨cdt_rmb 5, wie_of_wpush (wp_rmb 5)⟩,
    ⟨cdt_rmb 6, wie_of_wpush (wp_rmb 6)⟩,
    ⟨cdt_rmb 7, wie_of_wpush (wp_rmb 7)⟩,
    ⟨cdt_smb 0, wie_of_wpush (wp_smb 0)⟩,
    ⟨cdt_smb 1, wie_of_wpush (wp_smb 1)⟩,
    ⟨cdt_smb 2, wie_of_wpush (wp_smb 2)⟩,
    ⟨cdt_smb 3, wie_of_wpush (wp_smb 3)⟩,
    ⟨cdt_smb 4, wie_of_wpush (wp_smb 4)⟩,
    ⟨cdt_smb 5, wie_of_wpush (wp_smb 5)⟩⟩

theorem OPS_65C02_p2_ok : ∀ p ∈ OPS_65C02_p2, entryOk p.2 :=
  List.forall_iff_forall_mem.mp
   ⟨⟨cdt_smb 6, wie_of_wpush (wp_smb 6)⟩,
    ⟨cdt_smb 7, wie_of_wpush (wp_smb 7)⟩,
    ⟨cdt_stz _ cdt_writeZeroPage, wie_of_wpush (wp_stz _ wp_writeZeroPage)⟩,
    ⟨cdt_stz _ cdt_writeZeroPageX, wie_of_wpush (wp_stz _ wp_writeZeroPageX)⟩,
    ⟨cdt_stz _ cdt_writeAbsolute, wie_of_wpush (wp_stz _ wp_writeAbsolute)⟩,
    ⟨cdt_stz _ cdt_writeAbsoluteX, wie_of_wpush (wp_stz _ wp_writeAbsoluteX)⟩,
    ⟨cdt_trb _ cdv_readAddrZeroPage, wie_of_wpush (wp_trb _ wpv_readAddrZeroPage)⟩,
    ⟨cdt_trb _ cdv_readAddrAbsolute, wie_of_wpush (wp_trb _ wpv_readAddrAbsolute)⟩,
    ⟨cdt_tsb _ cdv_readAddrZeroPage, wie_of_wpush (wp_tsb _ wpv_readAddrZeroPage)⟩,
    ⟨cdt_tsb _ cdv_readAddrAbsolute, wie_of_wpush (wp_tsb _ wpv_readAddrAbsolute)⟩⟩

theorem OPS_65C02_ok : ∀ p ∈ OPS_65C02, entryOk p.2 := by
  intro p hp
  rw [OPS_65C02] at hp
  simp only [List.mem_append, or_assoc] at hp
  rcases hp with h0 | h1 | h2
  · exact OPS_65C02_p0_ok p h0
  · exact OPS_65C02_p1_ok p h1
  · exact OPS_65C02_p2_ok p h2

theorem OPS_NMOS_6502_p0_ok : ∀ p ∈ OPS_NMOS_6502_p0, entryOk p.2 :=
  List.forall_iff_forall_mem.mp
   ⟨⟨cdt_aso _ cdv_readAddrAbsolute, wie_of_wpush (wp_aso _ wpv_readAddrAbsolute)⟩,
    ⟨cdt_aso _ cdv_readAddrAbsoluteX, wie_of_wpush (wp_aso _ wpv_readAddrAbsoluteX)⟩,
    ⟨cdt_aso _ cdv_readAddrAbsoluteY, wie_of_wpush (wp_aso _ wpv_readAddrAbsoluteY)⟩,
    ⟨cdt_aso _ cdv_readAddrZeroPage, wie_of_wpush (wp_aso _ wpv_readAddrZeroPage)⟩,
    ⟨cdt_aso _ cdv_readAddrZeroPageX, wie_of_wpush (wp_aso _ wpv_readAddrZeroPageX)⟩,
    ⟨cdt_aso _ cdv_readAddrZeroPageXIndirect, wie_of_wpush (wp_aso _ wpv_readAddrZeroPageXIndirect)⟩,
    ⟨cdt_aso _ cdv_readAddrZeroPageIndirectY, wie_of_wpush (wp_aso _ wpv_readAddrZeroPageIndirectY)⟩,
    ⟨cdt_rla _ cdv_readAddrAbsolute, wie_of_wpush (wp_rla _ wpv_readAddrAbsolute)⟩,
    ⟨cdt_rla _ cdv_readAddrAbsoluteX, wie_of_wpush (wp_rla _ wpv_readAddrAbsoluteX)⟩,
    ⟨cdt_rla _ cdv_readAddrAbsoluteY, wie_of_wpush (wp_rla _ wpv_readAddrAbsoluteY)⟩,
    ⟨cdt_rla _ cdv_readAddrZeroPage, wie_of_wpush (wp_rla _ wpv_readAddrZeroPage)⟩,
    ⟨cdt_rla _ cdv_readAddrZeroPageX, wie_of_wpush (wp_rla _ wpv_readAddrZeroPageX)⟩,
    ⟨cdt_rla _ cdv_readAddrZeroPageXIndirect, wie_of_wpush (wp_rla _ wpv_readAddrZeroPageXIndirect)⟩,
    ⟨cdt_rla _ cdv_readAddrZeroPageIndirectY, wie_of_wpush (wp_rla _ wpv_readAddrZeroPageIndirectY)⟩,
    ⟨cdt_lse _ cdv_readAddrAbsolute, wie_of_wpush (wp_lse _ wpv_readAddrAbsolute)⟩,
    ⟨cdt_lse _ cdv_readAddrAbsoluteX, wie_of_wpush (wp_lse _ wpv_readAddrAbsoluteX)⟩,
    ⟨cdt_lse _ cdv_readAddrAbsoluteY, wie_of_wpush (wp_lse _ wpv_readAddrAbsoluteY)⟩,
    ⟨cdt_lse _ cdv_readAddrZeroPage, wie_of_wpush (wp_lse _ wpv_readAddrZeroPage)⟩,
    ⟨cdt_lse _ cdv_readAddrZeroPageX, wie_of_wpush (wp_lse _ wpv_readAddrZeroPageX)⟩,
    ⟨cdt_lse _ cdv_readAddrZeroPageXIndirect, wie_of_wpush (wp_lse _ wpv_readAddrZeroPageXIndirect)⟩,
    ⟨cdt_lse _ cdv_readAddrZeroPageIndirectY, wie_of_wpush (wp_lse _ wpv_readAddrZeroPageIndirectY)⟩,
    ⟨cdt_rra _ cdv_readAddrAbsolute, wie_of_wpush (wp_rra _ wpv_readAddrAbsolute)⟩,
    ⟨cdt_rra _ cdv_readAddrAbsoluteX, wie_of_wpush (wp_rra _ wpv_readAddrAbsoluteX)⟩,
    ⟨cdt_rra _ cdv_readAddrAbsoluteY, wie_of_wpush (wp_rra _ wpv_readAddrAbsoluteY)⟩,
    ⟨cdt_rra _ cdv_readAddrZeroPage, wie_of_wpush (wp_rra _ wpv_readAddrZeroPage)⟩,
    ⟨cdt_rra _ cdv_readAddrZeroPageX, wie_of_wpush (wp_rra _ wpv_readAddrZeroPageX)⟩,
    ⟨cdt_rra _ cdv_readAddrZeroPageXIndirect, wie_of_wpush (wp_rra _ wpv_readAddrZeroPageXIndirect)⟩,
    ⟨cdt_rra _ cdv_readAddrZeroPageIndirectY, wie_of_wpush (wp_rra _ wpv_readAddrZeroPageIndirectY)⟩,
    ⟨cdt_axs _ cdt_writeAbsolute, wie_of_wpush (wp_axs _ wp_writeAbsolute)⟩,
    ⟨cdt_axs _ cdt_writeZeroPage, wie_of_wpush (wp_axs _ wp_writeZeroPage)⟩,
    ⟨cdt_axs _ cdt_writeZeroPageY, wie_of_wpush (wp_axs _ wp_writeZeroPageY)⟩,
    ⟨cdt_axs _ cdt_writeZeroPageXIndirect, wie_of_wpush (wp_axs _ wp_writeZeroPageXIndirect)⟩⟩

theorem OPS_NMOS_6502_p1_ok : ∀ p ∈ OPS_NMOS_6502_p1, entryOk p.2 :=
  List.forall_iff_forall_mem.mp
   ⟨⟨cdt_lax _ cdv_readAbsolute, wie_of_wpush (wp_lax _ wpv_readAbsolute)⟩,
    ⟨cdt_lax _ cdv_readAbsoluteY, wie_of_wpush (wp_lax _ wpv_readAbsoluteY)⟩,
    ⟨cdt_lax _ cdv_readZeroPage, wie_of_wpush (wp_lax _ wpv_readZeroPage)⟩,
    ⟨cdt_lax _ cdv_readZeroPageY, wie_of_wpush (wp_lax _ wpv_readZeroPageY)⟩,
    ⟨cdt_lax _ cdv_readZeroPageXIndirect, wie_of_wpush (wp_lax _ wpv_readZeroPageXIndirect)⟩,
    ⟨cdt_lax _ cdv_readZeroPageIndirectY, wie_of_wpush (wp_lax _ wpv_readZeroPageIndirectY)⟩,
    ⟨cdt_dcm _ cdv_readAddrAbsolute, wie_of_wpush (wp_dcm _ wpv_readAddrAbsolute)⟩,
    ⟨cdt_dcm _ cdv_readAddrAbsoluteX, wie_of_wpush (wp_dcm _ wpv_readAddrAbsoluteX)⟩,
    ⟨cdt_dcm _ cdv_readAddrAbsoluteY, wie_of_wpush (wp_dcm _ wpv_readAddrAbsoluteY)⟩,
    ⟨cdt_dcm _ cdv_readAddrZeroPage, wie_of_wpush (wp_dcm _ wpv_readAddrZeroPage)⟩,
    ⟨cdt_dcm _ cdv_readAddrZeroPageX, wie_of_wpush (wp_dcm _ wpv_readAddrZeroPageX)⟩,
    ⟨cdt_dcm _ cdv_readAddrZeroPageXIndirect, wie_of_wpush (wp_dcm _ wpv_readAddrZeroPageXIndirect)⟩,
    ⟨cdt_dcm _ cdv_readAddrZeroPageIndirectY, wie_of_wpush (wp_dcm _ wpv_readAddrZeroPageIndirectY)⟩,
    ⟨cdt_ins _ cdv_readAddrAbsolute, wie_of_wpush (wp_ins _ wpv_readAddrAbsolute)⟩,
    ⟨cdt_ins _ cdv_readAddrAbsoluteX, wie_of_wpush (wp_ins _ wpv_readAddrAbsoluteX)⟩,
    ⟨cdt_ins _ cdv_readAddrAbsoluteY, wie_of_wpush (wp_ins _ wpv_readAddrAbsoluteY)⟩,
    ⟨cdt_ins _ cdv_readAddrZeroPage, wie_of_wpush (wp_ins _ wpv_readAddrZeroPage)⟩,
    ⟨cdt_ins _ cdv_readAddrZeroPageX, wie_of_wpush (wp_ins _ wpv_readAddrZeroPageX)⟩,
    ⟨cdt_ins _ cdv_readAddrZeroPageXIndirect, wie_of_wpush (wp_ins _ wpv_readAddrZeroPageXIndirect)⟩,
    ⟨cdt_ins _ cdv_readAddrZeroPageIndirectY, wie_of_wpush (wp_ins _ wpv_readAddrZeroPageIndirectY)⟩,
    ⟨cdt_alr _ cdv_readImmediate, wie_of_wpush (wp_alr _ wpv_readImmediate)⟩,
    ⟨cdt_arr _ cdv_readImmediate, wie_of_wpush (wp_arr _ wpv_readImmediate)⟩,
    ⟨cdt_xaa _ cdv_readImmediate, wie_of_wpush (wp_xaa _ wpv_readImmediate)⟩,
    ⟨cdt_oal _ cdv_readImmediate, wie_of_wpush (wp_oal _ wpv_readImmediate)⟩,
    ⟨cdt_sax _ cdv_readImmediate, wie_of_wpush (wp_sax _ wpv_readImmediate)⟩,
    ⟨cdt_nop _ cdt_implied, wie_of_wpush (wp_nop _ wp_implied)⟩,
    ⟨cdt_nop _ cdt_implied, wie_of_wpush (wp_nop _ wp_implied)⟩,
    ⟨cdt_nop _ cdt_implied, wie_of_wpush (wp_nop _ wp_implied)⟩,
    ⟨cdt_nop _ cdt_implied, wie_of_wpush (wp_nop _ wp_implied)⟩,
    ⟨cdt_nop _ cdt_implied, wie_of_wpush (wp_nop _ wp_implied)⟩,
    ⟨cdt_nop _ cdt_implied, wie_of_wpush (wp_nop _ wp_implied)⟩,
    ⟨cdt_skp _ cdv_readImmediate, wie_of_wpush (wp_skp _ wpv_readImmediate)⟩⟩

theorem OPS_NMOS_6502_p2_ok : ∀ p ∈ OPS_NMOS_6502_p2, entryOk p.2 :=
  List.forall_iff_forall_mem.mp
   ⟨⟨cdt_skp _ cdv_readImmediate, wie_of_wpush (wp_skp _ wpv_readImmediate)⟩,
    ⟨cdt_skp _ cdv_readImmediate, wie_of_wpush (wp_skp _ wpv_readImmediate)⟩,
    ⟨cdt_skp _ cdv_readImmediate, wie_of_wpush (wp_skp _ wpv_readImmediate)⟩,
    ⟨cdt_skp _ cdv_readImmediate, wie_of_wpush (wp_skp _ wpv_readImmediate)⟩,
    ⟨cdt_skp _ cdv_readZeroPage, wie_of_wpush (wp_skp _ wpv_readZeroPage)⟩,
    ⟨cdt_skp _ cdv_readZeroPageX, wie_of_wpush (wp_skp _ wpv_readZeroPageX)⟩,
    ⟨cdt_skp _ cdv_readZeroPageX, wie_of_wpush (wp_skp _ wpv_readZeroPageX)⟩,
    ⟨cdt_skp _ cdv_readZeroPage, wie_of_wpush (wp_skp _ wpv_readZeroPage)⟩,
    ⟨cdt_skp _ cdv_readZeroPageX, wie_of_wpush (wp_skp _ wpv_readZeroPageX)⟩,
    ⟨cdt_skp _ cdv_readZeroPage, wie_of_wpush (wp_skp _ wpv_readZeroPage)⟩,
    ⟨cdt_skp _ cdv_readZeroPageX, wie_of_wpush (wp_skp _ wpv_readZeroPageX)⟩,
    ⟨cdt_skp _ cdv_readZeroPageX, wie_of_wpush (wp_skp _ wpv_readZeroPageX)⟩,
    ⟨cdt_skp _ cdv_readZeroPageX, wie_of_wpush (wp_skp _ wpv_readZeroPageX)⟩,
    ⟨cdt_skp _ (cdv_readAddrAbsolute false), wie_of_wpush (wp_skp _ (wpv_readAddrAbsolute false))⟩,
    ⟨cdt_skp _ (cdv_readAddrAbsoluteX false), wie_of_wpush (wp_skp _ (wpv_readAddrAbsoluteX false))⟩,
    ⟨cdt_skp _ (cdv_readAddrAbsoluteX false), wie_of_wpush (wp_skp _ (wpv_readAddrAbsoluteX false))⟩,
    ⟨cdt_skp _ (cdv_readAddrAbsoluteX false), wie_of_wpush (wp_skp _ (wpv_readAddrAbsoluteX false))⟩,
    ⟨cdt_skp _ (cdv_readAddrAbsoluteX false), wie_of_wpush (wp_skp _ (wpv_readAddrAbsoluteX false))⟩,
    ⟨cdt_skp _ (cdv_readAddrAbsoluteX false), wie_of_wpush (wp_skp _ (wpv_readAddrAbsoluteX false))⟩,
    ⟨cdt_skp _ (cdv_readAddrAbsoluteX false), wie_of_wpush (wp_skp _ (wpv_readAddrAbsoluteX false))⟩,
    ⟨cdt_hlt, wie_of_wpush wp_hlt⟩,
    ⟨cdt_hlt, wie_of_wpush wp_hlt⟩,
    ⟨cdt_hlt, wie_of_wpush wp_hlt⟩,
    ⟨cdt_hlt, wie_of_wpush wp_hlt⟩,
    ⟨cdt_hlt, wie_of_wpush wp_hlt⟩,
    ⟨cdt_hlt, wie_of_wpush wp_hlt⟩,
    ⟨cdt_hlt, wie_of_wpush wp_hlt⟩,
    ⟨cdt_hlt, wie_of_wpush wp_hlt⟩,
    ⟨cdt_hlt, wie_of_wpush wp_hlt⟩,
    ⟨cdt_hlt, wie_of_wpush wp_hlt⟩,
    ⟨cdt_hlt, wie_of_wpush wp_hlt⟩,
    ⟨cdt_hlt, wie_of_wpush wp_hlt⟩⟩

theorem OPS_NMOS_6502_p3_ok : ∀ p ∈ OPS_NMOS_6502_p3, entryOk p.2 :=
  List.forall_iff_forall_mem.mp
   ⟨⟨cdt_tas _ cdv_readAddrAbsoluteY, wie_of_wpush (wp_tas _ wpv_readAddrAbsoluteY)⟩,
    ⟨cdt_say _ cdv_readAddrAbsoluteX, wie_of_wpush (wp_say _ wpv_readAddrAbsoluteX)⟩,
    ⟨cdt_xas _ cdv_readAddrAbsoluteY, wie_of_wpush (wp_xas _ wpv_readAddrAbsoluteY)⟩,
    ⟨cdt_axa _ cdv_readAddrAbsoluteY, wie_of_wpush (wp_axa _ wpv_readAddrAbsoluteY)⟩,
    ⟨cdt_axa _ cdv_readAddrZeroPageIndirectY, wie_of_wpush (wp_axa _ wpv_readAddrZeroPageIndirectY)⟩,
    ⟨cdt_anc _ cdv_readImmediate, wie_of_wpush (wp_anc _ wpv_readImmediate)⟩,
    ⟨cdt_anc _ cdv_readImmediate, wie_of_wpush (wp_anc _ wpv_readImmediate)⟩,
    ⟨cdt_las _ cdv_readAbsoluteY, wie_of_wpush (wp_las _ wpv_readAbsoluteY)⟩,
    ⟨cdt_sbc _ cdv_readImmediate, wie_of_wpush (wp_sbc _ wpv_readImmediate)⟩⟩

theorem OPS_NMOS_6502_ok : ∀ p ∈ OPS_NMOS_6502, entryOk p.2 := by
  intro p hp
  rw [OPS_NMOS_6502] at hp
  simp only [List.mem_append, or_assoc] at hp
  rcases hp with h0 | h1 | h2 | h3
  · exact OPS_NMOS_6502_p0_ok p h0
  · exact OPS_NMOS_6502_p1_ok p h1
  · exact OPS_NMOS_6502_p2_ok p h2
  · exact OPS_NMOS_6502_p3_ok p h3

theorem OPS_ROCKWELL_65C02_ok : ∀ p ∈ OPS_ROCKWELL_65C02, entryOk p.2 :=
  List.forall_iff_forall_mem.mp
   ⟨⟨cdt_nop _ cdt_implied, wie_of_wpush (wp_nop _ wp_implied)⟩,
    ⟨cdt_nopR _ cdv_readZeroPageX, wie_of_wpush (wp_nopR _ wpv_readZeroPageX)⟩⟩

theorem OPS_WDC_65C02_ok : ∀ p ∈ OPS_WDC_65C02, entryOk p.2 :=
  List.forall_iff_forall_mem.mp
   ⟨⟨cdt_wai, wie_wai⟩,
    ⟨cdt_stp, wie_of_wpush wp_stp⟩⟩

/-- A successful association-list lookup lands on a table entry. -/
theorem lookup_ok {l : List (Nat × Entry)} (H : ∀ p ∈ l, entryOk p.2) :
    ∀ {b : Nat} {e : Entry}, l.lookup b = some e → entryOk e := by
  induction l with
  | nil => intro b e h; cases h
  | cons hd tl ih =>
    intro b e h
    rcases hd with ⟨k, v⟩
    rw [List.lookup] at h
    split at h
    · cases h
      exact H (k, e) (by simp)
    · exact ih (fun p hp => H p (List.mem_cons_of_mem _ hp)) h

theorem orElse_ok {o1 o2 : Option Entry}
    (h1 : ∀ e, o1 = some e → entryOk e) (h2 : ∀ e, o2 = some e → entryOk e) :
    ∀ e, (o1 <|> o2) = some e → entryOk e := by
  intro e h
  cases o1 with
  | none => exact h2 e (by simpa using h)
  | some v =>
    have : v = e := by simpa using h
    exact this ▸ h1 v rfl

/-- Every slot of every flavor's filled dispatch table satisfies both
invariants. -/
theorem opary_ok (fl : Flavor) (b : Nat) : entryOk (opary fl b) := by
  have base : ∀ e, OPS_6502.lookup b = some e → entryOk e :=
    fun e h => lookup_ok OPS_6502_ok h
  have c02 : ∀ e, (OPS_65C02.lookup b <|> OPS_6502.lookup b) = some e → entryOk e :=
    orElse_ok (fun e h => lookup_ok OPS_65C02_ok h) base
  have all : ∀ e, composedOps fl b = some e → entryOk e := by
    cases fl with
    | nmos =>
      exact orElse_ok (fun e h => lookup_ok OPS_NMOS_6502_ok h) base
    | rockwell =>
      exact orElse_ok (fun e h => lookup_ok OPS_ROCKWELL_65C02_ok h) c02
    | wdc =>
      exact orElse_ok (fun e h => lookup_ok OPS_WDC_65C02_ok h) c02
  unfold opary
  cases ho : composedOps fl b with
  | none => exact nopEntry_ok
  | some e => exact all e ho

/-- Per-instruction cycle accounting: across one fetch-dispatch-execute
round, the cycle counter and the handler-access counter advance by the
same amount, and by at least the one fetch cycle. -/
theorem stepOnce_cd (s : Cpu) :
    (stepOnce s).cycles + s.accesses = (stepOnce s).accesses + s.cycles ∧
      s.cycles + 1 ≤ (stepOnce s).cycles := by
  unfold stepOnce
  dsimp only
  set s0 : Cpu := { s with sync := true } with hs0
  set r := readBytePC s0 with hr
  set E := opary r.2.flavor r.1 with hE
  set s1 : Cpu := { r.2 with opMode := some E.mode, sync := false } with hs1
  have hok := (opary_ok r.2.flavor r.1).1 s1
  rw [← hE] at hok
  have hc : s1.cycles = s.cycles + 1 := rfl
  have ha : s1.accesses = s.accesses + 1 := rfl
  omega

/-- The `wait` latch never gates `stepOnce`: the executed instruction is
computed as if the latch were clear, and the latch is carried through
(or-ed with what the instruction itself sets — only WAI sets it). -/
theorem stepOnce_wie : WIe stepOnce := by
  intro s b
  have hv : ∀ c : Bool, stepOnce (setWait c s) =
      (opary s.flavor (readBytePC { s with sync := true }).1).fn
        (setWait c { (readBytePC { s with sync := true }).2 with
          opMode := some (opary s.flavor (readBytePC { s with sync := true }).1).mode,
          sync := false }) := fun _ => rfl
  rw [hv b, hv false]
  exact (opary_ok s.flavor (readBytePC { s with sync := true }).1).2 _ b

/-- Cycle accounting propagated through `stepN`. -/
theorem stepN_cd (n : Nat) (s : Cpu) :
    (stepN n s).cycles + s.accesses = (stepN n s).accesses + s.cycles ∧
      s.cycles ≤ (stepN n s).cycles := by
  induction n generalizing s with
  | zero => simp only [stepN]; exact ⟨Nat.add_comm _ _, le_rfl⟩
  | succ n ih =>
    have h1 := stepOnce_cd s
    have h2 := ih (stepOnce s)
    unfold stepN
    omega

/-- Cycle accounting propagated through the fuelled `stepCycles` loop. -/
theorem stepCyclesAux_cd (fuel endC : Nat) (s : Cpu) :
    (stepCyclesAux fuel endC s).cycles + s.accesses =
      (stepCyclesAux fuel endC s).accesses + s.cycles ∧
      s.cycles ≤ (stepCyclesAux fuel endC s).cycles := by
  induction fuel generalizing s with
  | zero => simp only [stepCyclesAux]; exact ⟨Nat.add_comm _ _, le_rfl⟩
  | succ n ih =>
    unfold stepCyclesAux
    by_cases h : s.cycles < endC
    · simp only [h, if_true]
      have h1 := stepOnce_cd s
      have h2 := ih (stepOnce s)
      omega
    · simp only [h, if_false]
      exact ⟨Nat.add_comm _ _, le_rfl⟩

/-! ### Construction-time population check (for the NMOS flavor) -/

/-- On the NMOS 6502 a `buildOp` of a populated slot is the entry, and of
an unset slot is exactly the `Missing <hex>` error. -/
theorem buildOp_nmos_isOk (ops : Nat → Option Entry) (b : Nat) :
    (buildOp Flavor.nmos ops b).isOk = (ops b).isSome := by
  unfold buildOp unknownOp
  cases ops b <;> rfl

/-- The fill loop succeeds iff every visited slot is populated (NMOS). -/
theorem buildTable_nmos_isOk (ops : Nat → Option Entry) :
    ∀ l : List Nat,
      (buildTable Flavor.nmos ops l).isOk = true ↔ ∀ b ∈ l, (ops b).isSome = true := by
  intro l
  induction l with
  | nil => simp [buildTable, Except.isOk, Except.toBool]
  | cons hd tl ih =>
    rw [buildTable]
    rcases hb : buildOp Flavor.nmos ops hd with e | entry
    · have : (ops hd).isSome = false := by
        rw [← buildOp_nmos_isOk ops hd, hb]; rfl
      simp [Except.isOk, Except.toBool, this]
    · have : (ops hd).isSome = true := by
        rw [← buildOp_nmos_isOk ops hd, hb]; rfl
      rcases ht : buildTable Flavor.nmos ops tl with e | lres
      · rw [ht] at ih
        simp [Except.isOk, Except.toBool] at ih ⊢
        exact fun _ => ih
      · rw [ht] at ih
        simp [Except.isOk, Except.toBool] at ih ⊢
        exact ⟨this, ih⟩

/-! ## Concrete machines used by the claims -/

/-- A reset-style register file over a given memory, flavor and PC 0x0400. -/
def freshCpu (fl : Flavor) (m : Nat → Nat) : Cpu :=
  { flavor := fl, pc := 0x400, sr := flagX, ar := 0, xr := 0, yr := 0, sp := 0xff,
    addr := 0, opMode := none, mem := m, cycles := 0, accesses := 0,
    sync := false, wait := false, stop := false }

/-- Program `JMP (0x02FF)` with the pointer split across the page wrap:
`0x02FF = 0x34`, `0x0300 = 0x12`, and `0x0200 = 0xFF` (the byte the NMOS
bug fetches as the high byte). -/
def jmpBugMem : Nat → Nat := fun a =>
  if a = 0x400 then 0x6c else if a = 0x401 then 0xff else if a = 0x402 then 0x02
  else if a = 0x2ff then 0x34 else if a = 0x300 then 0x12
  else if a = 0x200 then 0xff else 0

/-- Program `ADC #0x10` with D=1, C=0, A=0x91 (spec scenario 6). -/
def bcdState : Cpu :=
  { freshCpu Flavor.nmos
      (fun a => if a = 0x400 then 0x69 else if a = 0x401 then 0x10 else 0) with
    sr := flagX ||| flagD, ar := 0x91 }

/-- Program `WAI; NOP` on the WDC 65C02. -/
def waiState0 : Cpu :=
  freshCpu Flavor.wdc (fun a => if a = 0x400 then 0xcb else if a = 0x401 then 0xea else 0)

/-- The state right after the WAI executed: the wait latch is set. -/
def waiState1 : Cpu := stepOnce waiState0

/-- A state on the Rockwell 65C02 whose next opcode (0x03) is in none of
the composed tables. -/
def unsetOpState : Cpu :=
  freshCpu Flavor.rockwell (fun a => if a = 0x400 then 0x03 else 0)

/-- A concrete state for exercising `irq`: I clear, vector at 0xFFFE. -/
def irqState : Cpu :=
  { freshCpu Flavor.nmos
      (fun a => if a = 0xfffe then 0x21 else if a = 0xffff then 0x43 else 0) with
    pc := 0x1234 }

/-- A page handler that implements `reset()`. -/
def resettableHandler : PageHandler := ⟨1, 0, 0, true⟩

/-- The registry after passing the same resettable handler to
`addPageHandler` twice. -/
def doubleRegistered : HandlerMap :=
  addPageHandler resettableHandler (addPageHandler resettableHandler emptyHandlerMap)

/-! ## The claims -/

/-- C1: for every instruction executed by `step`/`stepN`/`stepCycles`/
`stepCyclesDebug`, the increase of the cycle counter equals the number
of byte reads plus byte writes performed through the page handlers
during that instruction; equivalently every byte read and byte write
through the memory fabric advances the cycle counter by exactly one
(and the handler-access count by one), and nothing else moves it. -/
theorem C1_cycles_equal_handler_accesses :
    (∀ a s, ((readByte a s).2).cycles = s.cycles + 1 ∧
        ((readByte a s).2).accesses = s.accesses + 1) ∧
    (∀ a v s, (writeByte a v s).cycles = s.cycles + 1 ∧
        (writeByte a v s).accesses = s.accesses + 1) ∧
    (∀ s, (stepOnce s).cycles + s.accesses = (stepOnce s).accesses + s.cycles) ∧
    (∀ n s, (stepN n s).cycles + s.accesses = (stepN n s).accesses + s.cycles) ∧
    (∀ c s, (stepCycles c s).cycles + s.accesses =
        (stepCycles c s).accesses + s.cycles) ∧
    (∀ c s, (stepCyclesDebug c s).cycles + s.accesses =
        (stepCyclesDebug c s).accesses + s.cycles) :=
  ⟨fun _ _ => ⟨rfl, rfl⟩,
   fun _ _ _ => ⟨rfl, rfl⟩,
   fun s => (stepOnce_cd s).1,
   fun n s => (stepN_cd n s).1,
   fun c s => (stepCyclesAux_cd c (s.cycles + c) s).1,
   fun c s => (stepCyclesAux_cd c (s.cycles + c) s).1⟩

set_option maxRecDepth 100000 in
/-- C2 counterexample: after WAI has set the wait latch, the next call
to `step` is *not* a no-op — with program `WAI; NOP` on the WDC 65C02,
the step after the WAI advances both PC and the cycle counter even
though no interrupt arrived. -/
theorem C2_counterexample_step_after_wai_is_not_a_noop :
    waiState1.wait = true ∧
    (stepOnce waiState1).pc ≠ waiState1.pc ∧
    (stepOnce waiState1).cycles ≠ waiState1.cycles := by decide

/-- C2 as amended: the wait latch does not gate `step` at all — a step
computes exactly what it would with the latch clear, with the latch
carried through (or-ed with what the executed instruction itself sets,
and only WAI sets it); the latch is never cleared by `step`, and is
cleared by `reset`, by `nmi`, and by an honoured `irq`. -/
theorem C2_amended_wait_latch_does_not_gate_step :
    (∀ s b, stepOnce (setWait b s) =
        setWait (b || (stepOnce (setWait false s)).wait)
          (stepOnce (setWait false s))) ∧
    (∀ s, s.wait = true → (stepOnce s).wait = true) ∧
    (∀ s, (reset s).wait = false) ∧
    (∀ s, (nmi s).wait = false) ∧
    (∀ s, s.sr &&& flagI = 0 → (irq s).wait = false) := by
  refine ⟨stepOnce_wie, fun s h => ?_, fun _ => rfl, fun _ => rfl, fun s h => ?_⟩
  · have hw := stepOnce_wie s true
    rw [show setWait true s = s from by rw [← h]; exact setWait_self s] at hw
    rw [hw]; simp
  · unfold irq
    rw [if_pos h]

set_option maxRecDepth 100000 in
/-- C3: on the NMOS 6502 flavor, construction succeeds iff every one of
the 256 dispatch slots is populated after composing the base and
undocumented tables; a missing slot aborts construction with an error
naming the opcode in hex; and with the repository's actual tables the
composition covers all 256 slots, so construction succeeds. -/
theorem C3_nmos_construction_requires_full_table :
    (∀ ops : Nat → Option Entry,
        (buildTable Flavor.nmos ops (List.range 0x100)).isOk = true ↔
          ∀ b ∈ List.range 0x100, (ops b).isSome = true) ∧
    (∀ (ops : Nat → Option Entry) (b : Nat), ops b = none →
        buildOp Flavor.nmos ops b = Except.error ("Missing " ++ toHex b)) ∧
    (construct Flavor.nmos).isOk = true := by
  refine ⟨fun ops => buildTable_nmos_isOk ops _, fun ops b h => ?_, ?_⟩
  · unfold buildOp
    rw [h]
    rfl
  · rw [construct, buildTable_nmos_isOk]
    decide

set_option maxRecDepth 100000 in
/-- C4: `JMP (0x02FF)` with `0x02FF = 0x34`, `0x0300 = 0x12` and
`0x0200 = 0xFF` lands on PC = 0xFF34 in 5 cycles on the NMOS 6502 (the
high byte is fetched from `(A & 0xFF00) | ((A+1) & 0x00FF)`), and on
PC = 0x1234 in 6 cycles on either 65C02 flavor. -/
theorem C4_jmp_indirect_page_wrap :
    ((stepOnce (freshCpu Flavor.nmos jmpBugMem)).pc = 0xff34 ∧
      (stepOnce (freshCpu Flavor.nmos jmpBugMem)).cycles = 5) ∧
    ((stepOnce (freshCpu Flavor.rockwell jmpBugMem)).pc = 0x1234 ∧
      (stepOnce (freshCpu Flavor.rockwell jmpBugMem)).cycles = 6) ∧
    ((stepOnce (freshCpu Flavor.wdc jmpBugMem)).pc = 0x1234 ∧
      (stepOnce (freshCpu Flavor.wdc jmpBugMem)).cycles = 6) := by decide

theorem and255_eq_mod (x : Nat) : x &&& 255 = x % 256 := Nat.and_pow_two_sub_one_eq_mod x 8

theorem shift8_eq_div (x : Nat) : x >>> 8 = x / 256 := by
  have h := Nat.shiftRight_eq_div_pow x 8
  norm_num at h
  exact h

theorem accessIndex_eq (a : Nat) : (a >>> 8) * 0x100 + a % 0x100 = a := by
  rw [shift8_eq_div]; omega

set_option maxRecDepth 10000 in
theorem or256_eq_add : ∀ y, y < 256 → 256 ||| y = 256 + y := by decide

/-- A push with in-range SP: write at `0x100 + SP`, decrement SP mod 256. -/
theorem pushByte_eq (v : Nat) (s : Cpu) (hsp : s.sp < 0x100) :
    pushByte v s = { s with
      mem := fun x => if x = 0x100 + s.sp then v else s.mem x,
      addr := 0x100 + s.sp,
      sp := (s.sp + 255) % 256,
      cycles := s.cycles + 1, accesses := s.accesses + 1 } := by
  unfold pushByte writeByte locSTACK
  dsimp only
  rw [or256_eq_add _ hsp]
  simp only [and255_eq_mod, accessIndex_eq]

/-- A cycle-counted read leaves everything but `addr` and the counters
unchanged and returns the byte at the (exact) address. -/
theorem readByte_eq (a : Nat) (s : Cpu) :
    readByte a s = (s.mem a,
      { s with addr := a, cycles := s.cycles + 1, accesses := s.accesses + 1 }) := by
  unfold readByte
  dsimp only
  rw [show (a >>> 8) * 0x100 + (a &&& 0xff) = a from by
    rw [and255_eq_mod]; exact accessIndex_eq a]

/-- The memory after an honoured IRQ: PC high, PC low, and P with B
cleared, pushed downward from the incoming SP. -/
def irqMem (s : Cpu) : Nat → Nat := fun x =>
  if x = 0x100 + (s.sp + 254) % 256 then s.sr &&& jsNot flagB
  else if x = 0x100 + (s.sp + 255) % 256 then s.pc &&& 0xff
  else if x = 0x100 + s.sp then s.pc >>> 8
  else s.mem x

set_option maxRecDepth 400000 in
set_option maxHeartbeats 4000000 in
theorem irq_taken (s : Cpu) (h : s.sr &&& flagI = 0) (hsp : s.sp < 0x100) :
    irq s = { s with
      mem := irqMem s,
      pc := irqMem s 0xfffe ||| (irqMem s 0xffff <<< 8),
      sr := (if s.flavor.is65C02 then s.sr &&& jsNot flagD else s.sr) ||| flagI,
      sp := (s.sp + 253) % 256,
      addr := 0xffff,
      cycles := s.cycles + 5,
      accesses := s.accesses + 5,
      wait := false } := by
  unfold irq
  rw [if_pos h]
  unfold pushWord
  rw [pushByte_eq _ _ hsp]
  rw [pushByte_eq _ _ (by dsimp only; omega)]
  dsimp only
  rw [pushByte_eq _ _ (by dsimp only; omega)]
  dsimp only
  rcases hf : s.flavor.is65C02
  · simp only [hf, Bool.false_eq_true, if_false]
    unfold setFlag readWord locBRK
    dsimp only
    rw [readByte_eq]
    dsimp only
    rw [readByte_eq]
    dsimp only
    simp only [show (0xfffe + 1 : Nat) = 0xffff from rfl]
    unfold irqMem
    congr 1
    all_goals
      first
        | (funext x; split_ifs <;> omega)
        | omega
        | rfl
        | (split_ifs <;> omega)
  · simp only [hf, if_true]
    unfold setFlag readWord locBRK
    dsimp only
    rw [readByte_eq]
    dsimp only
    rw [readByte_eq]
    dsimp only
    simp only [show (0xfffe + 1 : Nat) = 0xffff from rfl]
    unfold irqMem
    congr 1
    all_goals
      first
        | (funext x; split_ifs <;> omega)
        | omega
        | rfl
        | (split_ifs <;> omega)


/-- C5: `irq()` with I set is a no-op; with I clear it pushes PC high,
PC low, then P with B cleared, sets I (and clears D on 65C02), loads PC
from the vector at 0xFFFE, clears the wait latch, decrements SP by 3
mod 256, and advances the cycle counter by exactly 5 (3 stack writes +
2 vector reads). -/
theorem C5_irq_push_vector_and_flags (s : Cpu) (hsp : s.sp < 0x100) :
    (s.sr &&& flagI ≠ 0 → irq s = s) ∧
    (s.sr &&& flagI = 0 →
      (irq s).mem (0x100 + s.sp) = s.pc >>> 8 ∧
      (irq s).mem (0x100 + (s.sp + 255) % 256) = s.pc &&& 0xff ∧
      (irq s).mem (0x100 + (s.sp + 254) % 256) = s.sr &&& jsNot flagB ∧
      (∀ x, x ≠ 0x100 + s.sp → x ≠ 0x100 + (s.sp + 255) % 256 →
        x ≠ 0x100 + (s.sp + 254) % 256 → (irq s).mem x = s.mem x) ∧
      (irq s).pc = s.mem 0xfffe ||| (s.mem 0xffff <<< 8) ∧
      (irq s).sr = (if s.flavor.is65C02 then s.sr &&& jsNot flagD else s.sr) ||| flagI ∧
      (irq s).sp = (s.sp + 253) % 256 ∧
      (irq s).cycles = s.cycles + 5 ∧
      (irq s).accesses = s.accesses + 5 ∧
      (irq s).wait = false ∧
      (irq s).ar = s.ar ∧ (irq s).xr = s.xr ∧ (irq s).yr = s.yr ∧
      (irq s).stop = s.stop) := by
  constructor
  · intro h
    unfold irq
    rw [if_neg h]
  · intro h
    rw [irq_taken s h hsp]
    dsimp only
    unfold irqMem
    refine ⟨?_, ?_, ?_, ?_, ?_, rfl, rfl, rfl, rfl, rfl, rfl, rfl, rfl, rfl⟩
    · split_ifs <;> omega
    · split_ifs <;> omega
    · split_ifs <;> omega
    · intro x h1 h2 h3
      split_ifs <;> omega
    · split_ifs <;> omega

set_option maxRecDepth 100000 in
/-- C5 witness: the concrete `irqState` (I clear, SP = 0xFF, vector
0x4321 at 0xFFFE). -/
theorem C5_irq_push_vector_and_flags_witness :
    (irqState.sr &&& flagI ≠ 0 → irq irqState = irqState) ∧
    (irqState.sr &&& flagI = 0 →
      (irq irqState).mem (0x100 + irqState.sp) = irqState.pc >>> 8 ∧
      (irq irqState).mem (0x100 + (irqState.sp + 255) % 256) = irqState.pc &&& 0xff ∧
      (irq irqState).mem (0x100 + (irqState.sp + 254) % 256) =
        irqState.sr &&& jsNot flagB ∧
      (∀ x, x ≠ 0x100 + irqState.sp → x ≠ 0x100 + (irqState.sp + 255) % 256 →
        x ≠ 0x100 + (irqState.sp + 254) % 256 →
        (irq irqState).mem x = irqState.mem x) ∧
      (irq irqState).pc = irqState.mem 0xfffe ||| (irqState.mem 0xffff <<< 8) ∧
      (irq irqState).sr =
        (if irqState.flavor.is65C02 then irqState.sr &&& jsNot flagD
         else irqState.sr) ||| flagI ∧
      (irq irqState).sp = (irqState.sp + 253) % 256 ∧
      (irq irqState).cycles = irqState.cycles + 5 ∧
      (irq irqState).accesses = irqState.accesses + 5 ∧
      (irq irqState).wait = false ∧
      (irq irqState).ar = irqState.ar ∧ (irq irqState).xr = irqState.xr ∧
      (irq irqState).yr = irqState.yr ∧
      (irq irqState).stop = irqState.stop) :=
  C5_irq_push_vector_and_flags irqState (by decide)

/-- An opcode fetch: the byte at PC, with PC advanced mod 2^16. -/
theorem readBytePC_eq (s : Cpu) :
    readBytePC s = (s.mem s.pc,
      { s with
        pc := (s.pc + 1) &&& 0xffff, addr := s.pc,
        cycles := s.cycles + 1, accesses := s.accesses + 1 }) := by
  unfold readBytePC
  rw [readByte_eq]

/-- C6: on either 65C02 flavor, an opcode in none of the composed
tables executes as a 1-cycle implied NOP — one step advances PC by one
(mod 2^16) and the cycle counter by exactly one (the opcode fetch), and
changes no register, flag, or memory. -/
theorem C6_unset_65c02_opcode_is_one_cycle_nop (s : Cpu)
    (hfl : s.flavor = Flavor.rockwell ∨ s.flavor = Flavor.wdc)
    (hunset : composedOps s.flavor (s.mem s.pc) = none) :
    stepOnce s = { s with
      pc := (s.pc + 1) &&& 0xffff, addr := s.pc,
      opMode := some Mode.implied, sync := false,
      cycles := s.cycles + 1, accesses := s.accesses + 1 } := by
  unfold stepOnce
  dsimp only
  rw [readBytePC_eq]
  dsimp only
  rw [show opary s.flavor (s.mem s.pc) = nopEntry from by
    unfold opary; rw [hunset]; rfl]
  rfl

set_option maxRecDepth 100000 in
/-- C6 witness: opcode 0x03 on the Rockwell 65C02. -/
theorem C6_unset_65c02_opcode_is_one_cycle_nop_witness :
    stepOnce unsetOpState = { unsetOpState with
      pc := (unsetOpState.pc + 1) &&& 0xffff, addr := unsetOpState.pc,
      opMode := some Mode.implied, sync := false,
      cycles := unsetOpState.cycles + 1, accesses := unsetOpState.accesses + 1 } :=
  C6_unset_65c02_opcode_is_one_cycle_nop unsetOpState (Or.inl rfl) (by rfl)

/-- C7 counterexample: passing the same resettable handler to
`addPageHandler` twice appends it to the reset registry twice, so
`reset()` invokes its `reset()` twice — not "at most once". -/
theorem C7_counterexample_double_registration_invokes_twice :
    doubleRegistered.resetHandlers = [1, 1] ∧
    ¬ (resetInvocations doubleRegistered).count 1 ≤ 1 := by decide

/-- C7 as amended: `addPageHandler` appends a handler that implements
`reset()` to the registry on *every* call (no dedup), in call order, and
`reset()` invokes the registry entries once per registration in that
order; non-resettable handlers are never appended; the handler is
installed on every page of its range, later registrations winning. -/
theorem C7_amended_registry_appends_per_call (h : PageHandler) (m : HandlerMap) :
    (h.resettable = true →
      (addPageHandler h m).resetHandlers = m.resetHandlers ++ [h.hid]) ∧
    (h.resettable = false →
      (addPageHandler h m).resetHandlers = m.resetHandlers) ∧
    resetInvocations (addPageHandler h m) = (addPageHandler h m).resetHandlers ∧
    (∀ p, h.startPage ≤ p → p ≤ h.endPage → (addPageHandler h m).pages p = h.hid) ∧
    (∀ p, ¬(h.startPage ≤ p ∧ p ≤ h.endPage) →
      (addPageHandler h m).pages p = m.pages p) := by
  refine ⟨fun hr => ?_, fun hr => ?_, rfl, fun p h1 h2 => ?_, fun p hp => ?_⟩
  · unfold addPageHandler; dsimp only; rw [if_pos hr]
  · unfold addPageHandler; dsimp only; rw [if_neg (by simp [hr])]
  · unfold addPageHandler; dsimp only; rw [if_pos ⟨h1, h2⟩]
  · unfold addPageHandler; dsimp only; rw [if_neg hp]

/-- C8: `setState(getState())` is the identity — the registers, status,
PC, SP and cycle counter are restored, and the memory (and every other
field) is untouched. -/
theorem C8_setState_getState_identity (c : Cpu) : setState (getState c) c = c := rfl

set_option maxRecDepth 100000 in
/-- C9: with D=1, C=0, A=0x91, `ADC #0x10` on the NMOS 6502 leaves
A=0x01 with N, X, D and C set (Z and V clear) in exactly 2 cycles. -/
theorem C9_nmos_bcd_adc_immediate :
    (stepOnce bcdState).ar = 0x01 ∧
    (stepOnce bcdState).sr = (flagN ||| flagX ||| flagD ||| flagC) ∧
    (stepOnce bcdState).sr &&& flagZ = 0 ∧
    (stepOnce bcdState).sr &&& flagV = 0 ∧
    (stepOnce bcdState).sr &&& flagX ≠ 0 ∧
    (stepOnce bcdState).cycles = bcdState.cycles + 2 := by decide

/-- C10: the public single-argument `read`/`write` peek/poke mask the
page to 8 bits and the offset and value to 8 bits, so any address is
reduced mod 2^16 (and the written value mod 2^8) and always routed into
the page table, without touching the cycle counter (or any register). -/
theorem C10_public_peek_poke_total_and_masked (a v : Nat) (c : Cpu) :
    read a c = c.mem (a % 0x10000) ∧
    (write a v c).mem (a % 0x10000) = v % 0x100 ∧
    (∀ x, x ≠ a % 0x10000 → (write a v c).mem x = c.mem x) ∧
    (write a v c).cycles = c.cycles ∧
    (write a v c).accesses = c.accesses ∧
    (write a v c).pc = c.pc ∧ (write a v c).sr = c.sr ∧
    (write a v c).ar = c.ar ∧ (write a v c).xr = c.xr ∧
    (write a v c).yr = c.yr ∧ (write a v c).sp = c.sp ∧
    (write a v c).wait = c.wait ∧ (write a v c).stop = c.stop := by
  have key : ((a >>> 8) &&& 0xff) * 0x100 + (a &&& 0xff) = a % 0x10000 := by
    rw [and255_eq_mod, and255_eq_mod, shift8_eq_div]
    omega
  refine ⟨?_, ?_, ?_, rfl, rfl, rfl, rfl, rfl, rfl, rfl, rfl, rfl, rfl⟩
  · unfold read; dsimp only; rw [key]
  · unfold write; dsimp only; rw [key, and255_eq_mod, if_pos rfl]
  · intro x hx
    unfold write; dsimp only; rw [key, if_neg hx]

end Cpu6502

